import Mathlib

/-!
Verification development for the celstate image-analysis core.

The definitions below are shallow embeddings of the Python source:

* `MediaProcessor._apply_adaptive_noise_gate` and the matting portion of
  `MediaProcessor.process_image` (src/celstate/processor.py);
* `ImageAnalysisCore.detect_content_zones`, `_scan_edge_inward`,
  `get_layout_strategy`, `find_largest_inscribed_rectangle` and
  `calculate_visible_bbox` (src/engine/core/image_analysis_core.py);
* the safe-zone selection logic of `LayoutAnalyzer.analyze_full`
  (src/celstate/layout_analyzer.py lines 121-156);
* `LayoutAnalyzer.analyze_full` of src/engine/core/layout_analyzer.py.

Numeric conventions: NumPy float64 arithmetic is modelled by exact rational
arithmetic (ℚ).  The float special values produced by division are modelled
explicitly by `FloatV` (finite / +inf / -inf / NaN), since
`np.nan_to_num`'s treatment of them is under scrutiny.  `astype(np.uint8)`
truncates toward zero; for the non-negative values arising here this is
`Int.toNat ∘ Int.floor`.  Inside the LIR sweep, scores are kept in ℕ by
scaling with the constant `10·W·H` (the algebra is documented at
`candScore`), and the float `** 0.5` square root becomes an abstract
monotone model `s : ℕ → ℕ` of the integer square root of the scaled
radicand — instantiated with `isqrt`, the exact `⌊√·⌋` by binary search,
whenever a concrete run is evaluated.
-/

set_option maxRecDepth 40000

namespace Celstate

/-- `astype(np.uint8)` applied to a float known to lie in `[0, 255]`:
truncation toward zero, i.e. the floor. -/
def toU8 (q : ℚ) : ℕ := (⌊q⌋).toNat

/-- Population mean of a list of naturals, as numpy `np.mean` (0-division
yields numpy NaN; the gate only evaluates it on lists of size ≥ 100, and
Lean's `x / 0 = 0` is never exercised there). -/
def qMean (xs : List ℕ) : ℚ := ((xs.map (fun n => (n : ℚ))).sum) / (xs.length : ℚ)

/-- Population variance (square of numpy `np.std`). -/
def qVar (xs : List ℕ) : ℚ :=
  ((xs.map (fun n => ((n : ℚ) - qMean xs) ^ 2)).sum) / (xs.length : ℚ)

/-- `min(128, int(noise_mean + 4 * noise_std))` from
`_apply_adaptive_noise_gate`, where `noise_std = sqrt v`.  Encoded without
real square roots: the value is the largest `k ≤ 128` with
`k ≤ m + 4·√v`, and for `v ≥ 0` the test `k ≤ m + 4·√v` is equivalent to
`k ≤ m ∨ (k - m)² ≤ 16·v` (square both sides of `k - m ≤ 4·√v` when
`k - m > 0`).  `int` truncation toward zero coincides with the floor since
this branch has `m ≥ 2`. -/
def cutoffSearch (m v : ℚ) : ℕ :=
  ((List.range 129).filter
    (fun (k : ℕ) => decide ((k : ℚ) ≤ m) || decide (((k : ℚ) - m) ^ 2 ≤ 16 * v))).foldl
    Nat.max 0

/-- The uint8 cutoff of the adaptive noise gate:
`5` when `noise_mean < 2`, else `min(128, int(mean + 4*std))`. -/
def cutoffU8 (m v : ℚ) : ℕ := if m < 2 then 5 else cutoffSearch m v

/-- `alpha_u8[(alpha_u8 > 0) & (alpha_u8 < 128)]`: the noise-candidate
population, in uint8 space, of a (flattened) alpha channel given in
`[0, 1]` floats.  `alpha_u8 = (alpha * 255).astype(np.uint8)`. -/
def noiseCandidates (alpha : List ℚ) : List ℕ :=
  (alpha.map (fun a => toU8 (a * 255))).filter (fun v => decide (0 < v) && decide (v < 128))

/-- The float cutoff the gate applies, or `none` when the gate is skipped
(`noise_candidates.size < 100`). -/
def gateCutoff (alpha : List ℚ) : Option ℚ :=
  let pop := noiseCandidates alpha
  if pop.length < 100 then none
  else some ((cutoffU8 (qMean pop) (qVar pop) : ℚ) / 255)

/-- The per-pixel soft-knee transfer function: `filtered` starts at zero and
pixels with `alpha > cutoff` are re-normalised only when
`denominator = 1 - cutoff` is positive. -/
def gateTransfer (c a : ℚ) : ℚ :=
  if 0 < 1 - c then (if c < a then (a - c) / (1 - c) else 0) else 0

/-- `MediaProcessor._apply_adaptive_noise_gate` (src/celstate/processor.py):
takes the normalized alpha channel (flattened, values in `[0,1]`) and
returns the gated channel. -/
def applyAdaptiveNoiseGate (alpha : List ℚ) : List ℚ :=
  match gateCutoff alpha with
  | none => alpha
  | some c => alpha.map (gateTransfer c)

/-- The adaptive noise gate as the (amended) specification describes it:
the noise population is the pixels whose uint8 quantisation
`⌊255·alpha⌋` lies strictly between 0 and 128; if fewer than 100 exist the
channel is returned unchanged; otherwise, with mean and stddev of the
quantised population, the uint8 cutoff is `5` when `mean < 2` and
`min(128, ⌊mean + 4·stddev⌋)` otherwise, and each pixel maps to `0` when
`alpha ≤ cutoff/255` and to `(alpha - cutoff/255)/(1 - cutoff/255)`
otherwise. -/
def noiseGateSpec (alpha : List ℚ) : List ℚ :=
  let noisePixels := alpha.filter
    (fun a => decide (0 < toU8 (a * 255)) && decide (toU8 (a * 255) < 128))
  if noisePixels.length < 100 then alpha
  else
    let vals := noisePixels.map (fun a => toU8 (a * 255))
    let c : ℚ := (cutoffU8 (qMean vals) (qVar vals) : ℚ) / 255
    alpha.map (fun a => if c < a then (a - c) / (1 - c) else 0)

/-! ### Basic facts about the gate's cutoff -/

theorem foldl_natMax_le {B : ℕ} : ∀ (l : List ℕ) (b : ℕ), b ≤ B → (∀ x ∈ l, x ≤ B) →
    l.foldl Nat.max b ≤ B := by
  intro l
  induction l with
  | nil => intro b hb _; exact hb
  | cons x xs ih =>
    intro b hb h
    exact ih (Nat.max b x) (Nat.max_le.mpr ⟨hb, h x (List.mem_cons_self x xs)⟩)
      (fun y hy => h y (List.mem_cons_of_mem x hy))

theorem cutoffSearch_le (m v : ℚ) : cutoffSearch m v ≤ 128 := by
  apply foldl_natMax_le _ 0 (Nat.zero_le _)
  intro x hx
  have hx' := List.mem_range.mp (List.mem_of_mem_filter hx)
  omega

theorem cutoffU8_le (m v : ℚ) : cutoffU8 m v ≤ 128 := by
  unfold cutoffU8
  split
  · omega
  · exact cutoffSearch_le m v

theorem gateCutoff_bounds {alpha : List ℚ} {c : ℚ} (h : gateCutoff alpha = some c) :
    0 ≤ c ∧ c ≤ 128 / 255 := by
  unfold gateCutoff at h
  simp only at h
  split at h
  · exact absurd h (by simp)
  · rw [Option.some.injEq] at h
    subst h
    constructor
    · positivity
    · have hb := cutoffU8_le (qMean (noiseCandidates alpha)) (qVar (noiseCandidates alpha))
      have : ((cutoffU8 (qMean (noiseCandidates alpha)) (qVar (noiseCandidates alpha)) : ℚ))
          ≤ 128 := by exact_mod_cast hb
      linarith

theorem gateTransfer_of_le {c : ℚ} (hc : c ≤ 128 / 255) (a : ℚ) :
    gateTransfer c a = if c < a then (a - c) / (1 - c) else 0 := by
  unfold gateTransfer
  rw [if_pos (by linarith)]

/-! ### Per-pixel properties of the transfer function -/

theorem gateTransfer_nonneg {c a : ℚ} (hc1 : c ≤ 128 / 255) :
    0 ≤ gateTransfer c a := by
  rw [gateTransfer_of_le hc1]
  split
  · apply div_nonneg <;> linarith
  · linarith

theorem gateTransfer_le_self {c a : ℚ} (hc0 : 0 ≤ c) (hc1 : c ≤ 128 / 255)
    (ha0 : 0 ≤ a) (ha1 : a ≤ 1) : gateTransfer c a ≤ a := by
  rw [gateTransfer_of_le hc1]
  split
  · rw [div_le_iff₀ (by linarith)]
    nlinarith
  · linarith

theorem gateTransfer_mono {c a b : ℚ} (hc1 : c ≤ 128 / 255) (hab : a ≤ b) :
    gateTransfer c a ≤ gateTransfer c b := by
  rw [gateTransfer_of_le hc1, gateTransfer_of_le hc1]
  split
  · rw [if_pos (by linarith)]
    apply div_le_div_of_nonneg_right (by linarith) (by linarith)
  · split
    · apply div_nonneg <;> linarith
    · linarith

theorem gateTransfer_eq_zero {c a : ℚ} (hc1 : c ≤ 128 / 255) (ha : a ≤ c) :
    gateTransfer c a = 0 := by
  rw [gateTransfer_of_le hc1, if_neg (by linarith)]

theorem getD_map_of_lt (l : List ℚ) (f : ℚ → ℚ) (i : ℕ) (h : i < l.length) :
    (l.map f).getD i 0 = f (l.getD i 0) := by
  rw [List.getD_eq_getElem?_getD, List.getD_eq_getElem?_getD, List.getElem?_map,
    List.getElem?_eq_getElem h]
  simp

theorem gate_eq_of_cutoff_none {alpha : List ℚ} (h : gateCutoff alpha = none) :
    applyAdaptiveNoiseGate alpha = alpha := by
  unfold applyAdaptiveNoiseGate
  rw [h]

theorem gate_eq_of_cutoff_some {alpha : List ℚ} {c : ℚ} (h : gateCutoff alpha = some c) :
    applyAdaptiveNoiseGate alpha = alpha.map (gateTransfer c) := by
  unfold applyAdaptiveNoiseGate
  rw [h]

/-- The concrete alpha channel refuting claim C1's population rule: 100 pixels
of alpha exactly `0.5` and one fully transparent pixel. -/
def c1Input : List ℚ := List.replicate 100 (1 / 2) ++ [0]

/-- C1 counterexample.  The claim says the noise population is the pixels with
alpha strictly in `(0, 0.5)`; on `c1Input` that population is empty (fewer
than 100 pixels), so by the claim the gate must be skipped and the channel
returned unchanged.  The code quantises to uint8 first (`0.5 ↦ 127 < 128`),
collects 100 noise candidates, computes cutoff `127/255` and rescales pixel 0
from `1/2` to `1/256`. -/
theorem C1_counterexample :
    ((c1Input.filter fun a => decide (0 < a) && decide (a < 1 / 2)).length < 100)
    ∧ (applyAdaptiveNoiseGate c1Input).getD 0 0 ≠ c1Input.getD 0 0 := by
  with_unfolding_all decide

/-- C1 (amended): the adaptive noise gate of
`MediaProcessor._apply_adaptive_noise_gate` coincides, on every input
channel, with the amended specification `noiseGateSpec`: the noise population
is the pixels whose uint8 quantisation `⌊255·alpha⌋` lies strictly between 0
and 128 (not the pixels with alpha strictly in `(0, 0.5)`); fewer than 100
such pixels skips the gate; otherwise the uint8 cutoff is 5 when the
population mean is below 2 and `min(128, ⌊mean + 4·stddev⌋)` otherwise
(the claim omitted the integer floor), and each pixel at or below
`cutoff/255` becomes exactly 0 while each pixel above it becomes
`(alpha - cutoff/255) / (1 - cutoff/255)`. -/
theorem C1_noiseGate_eq_amendedSpec (alpha : List ℚ) :
    applyAdaptiveNoiseGate alpha = noiseGateSpec alpha := by
  have hpop : noiseCandidates alpha =
      (alpha.filter fun a => decide (0 < toU8 (a * 255)) && decide (toU8 (a * 255) < 128)).map
        (fun a => toU8 (a * 255)) := by
    unfold noiseCandidates
    rw [List.filter_map]
    rfl
  by_cases hlen :
      (alpha.filter fun a =>
        decide (0 < toU8 (a * 255)) && decide (toU8 (a * 255) < 128)).length < 100
  · have hc : gateCutoff alpha = none := by
      unfold gateCutoff
      simp only [hpop, List.length_map]
      rw [if_pos hlen]
    rw [gate_eq_of_cutoff_none hc]
    unfold noiseGateSpec
    rw [if_pos hlen]
  · have hc : gateCutoff alpha =
        some ((cutoffU8 (qMean (noiseCandidates alpha)) (qVar (noiseCandidates alpha)) : ℚ)
          / 255) := by
      unfold gateCutoff
      simp only [hpop, List.length_map]
      rw [if_neg hlen]
    have hcle : ((cutoffU8 (qMean (noiseCandidates alpha)) (qVar (noiseCandidates alpha)) : ℚ)
        / 255) ≤ 128 / 255 := by
      have h128 : ((cutoffU8 (qMean (noiseCandidates alpha))
          (qVar (noiseCandidates alpha)) : ℚ)) ≤ 128 := by
        exact_mod_cast cutoffU8_le _ _
      linarith
    rw [gate_eq_of_cutoff_some hc]
    unfold noiseGateSpec
    rw [if_neg hlen]
    rw [hpop] at hcle ⊢
    exact List.map_congr_left (fun a _ => gateTransfer_of_le hcle a)

theorem getD_mem_of_lt {l : List ℚ} {i : ℕ} (h : i < l.length) : l.getD i 0 ∈ l := by
  rw [List.getD_eq_getElem?_getD, List.getElem?_eq_getElem h]
  exact List.getElem_mem h

/-- C10: on any alpha channel with values in `[0,1]` the adaptive noise gate
never increases a pixel (`0 ≤ out ≤ in ≤ 1`), is monotone across pixels
within one call, and sends every pixel at or below the computed cutoff to
exactly 0. -/
theorem C10_noiseGate_contractive_monotone (alpha : List ℚ)
    (hb : ∀ a ∈ alpha, 0 ≤ a ∧ a ≤ 1) :
    (∀ i, i < alpha.length →
      0 ≤ (applyAdaptiveNoiseGate alpha).getD i 0 ∧
      (applyAdaptiveNoiseGate alpha).getD i 0 ≤ alpha.getD i 0 ∧
      alpha.getD i 0 ≤ 1) ∧
    (∀ i j, i < alpha.length → j < alpha.length →
      alpha.getD i 0 ≤ alpha.getD j 0 →
      (applyAdaptiveNoiseGate alpha).getD i 0 ≤ (applyAdaptiveNoiseGate alpha).getD j 0) ∧
    (∀ c, gateCutoff alpha = some c → ∀ i, i < alpha.length →
      alpha.getD i 0 ≤ c → (applyAdaptiveNoiseGate alpha).getD i 0 = 0) := by
  refine ⟨?_, ?_, ?_⟩
  · intro i hi
    obtain ⟨h0, h1⟩ := hb _ (getD_mem_of_lt hi)
    cases hc : gateCutoff alpha with
    | none =>
      rw [gate_eq_of_cutoff_none hc]
      exact ⟨h0, le_refl _, h1⟩
    | some c =>
      obtain ⟨hc0, hc1⟩ := gateCutoff_bounds hc
      rw [gate_eq_of_cutoff_some hc, getD_map_of_lt _ _ _ hi]
      exact ⟨gateTransfer_nonneg hc1, gateTransfer_le_self hc0 hc1 h0 h1, h1⟩
  · intro i j hi hj hij
    cases hc : gateCutoff alpha with
    | none =>
      rw [gate_eq_of_cutoff_none hc]
      exact hij
    | some c =>
      obtain ⟨hc0, hc1⟩ := gateCutoff_bounds hc
      rw [gate_eq_of_cutoff_some hc, getD_map_of_lt _ _ _ hi, getD_map_of_lt _ _ _ hj]
      exact gateTransfer_mono hc1 hij
  · intro c hcc i hi hle
    obtain ⟨hc0, hc1⟩ := gateCutoff_bounds hcc
    rw [gate_eq_of_cutoff_some hcc, getD_map_of_lt _ _ _ hi]
    exact gateTransfer_eq_zero hc1 hle

/-- Witness for C10 at a concrete channel. -/
theorem C10_witness :
    0 ≤ (applyAdaptiveNoiseGate [0, 1 / 2, 1]).getD 1 0 ∧
    (applyAdaptiveNoiseGate [0, 1 / 2, 1]).getD 1 0 ≤ ([0, 1 / 2, 1] : List ℚ).getD 1 0 := by
  have h := C10_noiseGate_contractive_monotone [0, 1 / 2, 1] (by with_unfolding_all decide)
  obtain ⟨h1, -, -⟩ := h
  obtain ⟨ha, hbb, -⟩ := h1 1 (by decide)
  exact ⟨ha, hbb⟩

/-! ### Largest Inscribed Rectangle
(`ImageAnalysisCore.find_largest_inscribed_rectangle`,
src/engine/core/image_analysis_core.py lines 373-462).

Masks are uint8 arrays holding 0 or 255; the sweep reads them through
`> 127`, so they are represented as `Bool` grids (`true` = 255 = void).
OpenCV's elliptical erosion (`cv2.erode`) and the organic morphological mask
(`_create_morphological_mask`) are opaque parameters `er`/`mm`: every claim
under verification runs with `safety_margin_ratio = 0` and
`shape_type = "geometric"`, where the code never invokes them. -/

/-- An alpha channel: `h × w` grid of uint8 alpha values, `a row col`. -/
structure AlphaImg where
  h : ℕ
  w : ℕ
  a : ℕ → ℕ → ℕ

/-- A binary mask, `mask row col`. -/
def Mask : Type := ℕ → ℕ → Bool

/-- The `{"x", "y", "width", "height"}` rectangle dictionaries (Python ints). -/
structure Rect where
  x : ℤ
  y : ℤ
  width : ℤ
  height : ℤ
deriving DecidableEq, Repr

/-- The sweep's running state: `max_score` and `best_rect`.  Scores are kept
scaled by the constant positive factor `10·w·h` (see `candScore`), so
`maxScore` is a natural number and the initial `max_score = 0.0` is `0`. -/
structure SweepSt where
  maxScore : ℕ
  best : Rect
deriving DecidableEq, Repr

/-- The score `process_rect` assigns to the candidate with left column `idx`,
histogram height `h_v`, right sentinel `current_idx` at sweep row `row`,
multiplied by the constant `10·W·H > 0` so that it is exact integer
arithmetic.  The code computes
`score = area * max(0.2, 1 - 0.7*dist_norm)` with
`dist_norm = sqrt(norm_dx² + norm_dy²)`,
`norm_dx = (rect_cx - W/2)/(W/2) = (2·rect_cx - W)/W` and
`norm_dy = (2·rect_cy - H)/H`, where `2·rect_cx = 2·idx + width_v` and
`2·rect_cy = 2·row - h_v + 2` are integers.  Hence
`W·H·dist_norm = sqrt(dx²·H² + dy²·W²)` with `dx = 2·rect_cx - W`,
`dy = 2·rect_cy - H`, and
`10·W·H·score = area * max(2·W·H, 10·W·H - 7·sqrt(dx²·H² + dy²·W²))`.
The square root of the natural number `dx²·H² + dy²·W²` is taken through
the model `s : ℕ → ℕ` (the float `** 0.5`, e.g. `isqrt`); truncated `ℕ`
subtraction composed with the outer `max` agrees with the exact value since
the branch is `2·W·H` whenever `7·s(...)` exceeds `10·W·H`. -/
def candScore (s : ℕ → ℕ) (W H row idx hv cur : ℕ) : ℕ :=
  let widthV := cur - idx
  let area := widthV * hv
  let dx : ℤ := 2 * (idx : ℤ) + (widthV : ℤ) - (W : ℤ)
  let dy : ℤ := 2 * (row : ℤ) - (hv : ℤ) + 2 - (H : ℤ)
  let n : ℕ := (dx * dx * ((H : ℤ) * (H : ℤ)) + dy * dy * ((W : ℤ) * (W : ℤ))).toNat
  area * max (2 * W * H) (10 * W * H - 7 * s n)

/-- The rectangle `process_rect` would record for a candidate. -/
def candRect (row idx hv cur : ℕ) : Rect :=
  ⟨(idx : ℤ), (row : ℤ) - (hv : ℤ) + 1, ((cur - idx : ℕ) : ℤ), (hv : ℤ)⟩

/-- `process_rect`: update `max_score`/`best_rect` when the candidate scores
strictly higher. -/
def processRect (s : ℕ → ℕ) (W H row : ℕ) (st : SweepSt) (idx hv cur : ℕ) : SweepSt :=
  if st.maxScore < candScore s W H row idx hv cur then
    ⟨candScore s W H row idx hv cur, candRect row idx hv cur⟩
  else st

/-- The `while stack and stack[-1][1] > current_h` pop loop.  The stack is a
list of `(start_index, height)` pairs with the top at the head; `si` carries
Python's `start_index`, initially the current column `i`.  Returns the final
`start_index`, the remaining stack and the updated state. -/
def popLoop (s : ℕ → ℕ) (W H row i curH : ℕ) :
    List (ℕ × ℕ) → SweepSt → ℕ → ℕ × List (ℕ × ℕ) × SweepSt
  | [], st, si => (si, [], st)
  | (idx, hv) :: rest, st, si =>
    if curH < hv then popLoop s W H row i curH rest (processRect s W H row st idx hv i) idx
    else (si, (idx, hv) :: rest, st)

/-- The `for i, current_h in enumerate(heights)` loop building the monotonic
stack. -/
def histLoop (s : ℕ → ℕ) (W H row : ℕ) :
    List ℕ → ℕ → List (ℕ × ℕ) → SweepSt → List (ℕ × ℕ) × SweepSt
  | [], _, stack, st => (stack, st)
  | curH :: rest, i, stack, st =>
    match popLoop s W H row i curH stack st i with
    | (si, stack', st') => histLoop s W H row rest (i + 1) ((si, curH) :: stack') st'

/-- One row of the sweep: build the stack over `heights`, then flush the
remaining stack entries (in insertion order, i.e. the reverse of the
top-first list) with `current_idx = w`. -/
def rowPass (s : ℕ → ℕ) (W H row : ℕ) (heights : List ℕ) (st : SweepSt) : SweepSt :=
  match histLoop s W H row heights 0 [] st with
  | (stack, st1) => stack.reverse.foldl (fun acc p => processRect s W H row acc p.1 p.2 W) st1

/-- `heights = (heights + row_pixels) * row_pixels` for a 0/1 row. -/
def updHeights (heights : List ℕ) (rowVals : List Bool) : List ℕ :=
  heights.zipWith (fun hgt p => if p then hgt + 1 else 0) rowVals

/-- One iteration of the sweep's row loop: update the column heights from the
safe-region row, then run the histogram pass. -/
def sweepStep (s : ℕ → ℕ) (W H : ℕ) (region : Mask) (acc : List ℕ × SweepSt) (row : ℕ) :
    List ℕ × SweepSt :=
  let hs := updHeights acc.1 ((List.range W).map (region row))
  (hs, rowPass s W H row hs acc.2)

/-- The whole center-biased histogram sweep over the safe region. -/
def lirSweep (s : ℕ → ℕ) (W H : ℕ) (region : Mask) : Rect :=
  ((List.range H).foldl (sweepStep s W H region)
    (List.replicate W 0, ⟨0, ⟨0, 0, 0, 0⟩⟩)).2.best

/-- The geometric void mask: `alpha < void_threshold` with threshold 13. -/
def voidMaskGeometric (img : AlphaImg) : Mask := fun r c => decide (img.a r c < 13)

/-- `cv2.rectangle(bounds_mask, (bx, by), (bx+bw, by+bh), 255, -1)`: a filled
rectangle whose two given corners are both inclusive (OpenCV normalises the
corner order). -/
def boundsMask (b : Rect) : Mask := fun r c =>
  decide (min b.x (b.x + b.width) ≤ (c : ℤ)) && decide ((c : ℤ) ≤ max b.x (b.x + b.width)) &&
    decide (min b.y (b.y + b.height) ≤ (r : ℤ)) && decide ((r : ℤ) ≤ max b.y (b.y + b.height))

/-- `ImageAnalysisCore.find_largest_inscribed_rectangle`.  `s` models the
float `** 0.5`; `er` models `cv2.erode` with the elliptical kernel; `mm`
models `_create_morphological_mask`.  `int()` truncation of the non-negative
margin is `Int.toNat ∘ Int.floor`. -/
def findLargestInscribedRectangle (s : ℕ → ℕ) (er : Mask → ℕ → Mask) (mm : AlphaImg → Mask)
    (img : AlphaImg) (safetyMarginRatio : ℚ) (shapeType : String) (bounds : Option Rect) :
    Rect :=
  let voidMask : Mask := if shapeType == "organic" then mm img else voidMaskGeometric img
  let masked : Mask := match bounds with
    | none => voidMask
    | some b => fun r c => voidMask r c && boundsMask b r c
  let safetyMargin : ℕ := (Int.floor ((min img.h img.w : ℚ) * safetyMarginRatio)).toNat
  let safeRegion : Mask := if 0 < safetyMargin then er masked safetyMargin else masked
  lirSweep s img.w img.h safeRegion

/-- Binary-search step for the integer square root: try setting bit `fuel`
of the accumulator. -/
def isqrtAux (n : ℕ) : ℕ → ℕ → ℕ
  | 0, acc => acc
  | fuel + 1, acc =>
    let cand := acc + 2 ^ fuel
    if cand * cand ≤ n then isqrtAux n fuel cand else isqrtAux n fuel acc

/-- `⌊√n⌋` by binary search over 45 bits (exact for every `n < 2⁹⁰`, far
above anything the sweep produces). -/
def isqrt (n : ℕ) : ℕ := isqrtAux n 45 0



/-! ### Claim C2: center-biased LIR selection on the two-void 100×100 image

The concrete image has exactly two void regions: a 100×20 strip along the
bottom edge (rows 80-99) and a 40×40 box centred in the image
(rows and columns 30-69); every other pixel is fully opaque.  The claim's
consequence is checked by running the embedded sweep row by row: each
`c2chainN` lemma below evaluates one row of the sweep in the kernel and
hands the remaining rows to the next lemma, keeping every single proof's
reduction shallow. -/

/-- The alpha channel of the C2 test image (255 = opaque, 0 = void). -/
def c2alpha (r c : ℕ) : ℕ :=
  if 80 ≤ r then 0
  else if 30 ≤ r ∧ 30 ≤ c ∧ r < 70 ∧ c < 70 then 0
  else 255

/-- The 100×100 C2 test image. -/
def c2Img : AlphaImg := ⟨100, 100, c2alpha⟩

/-- Placeholder for `cv2.erode`: with `safety_margin_ratio = 0` the code
computes `safety_margin = 0` and never erodes, so the instantiation is
irrelevant to the claims evaluated here. -/
def noErode : Mask → ℕ → Mask := fun m _ => m

/-- Placeholder for `_create_morphological_mask`: only consulted when
`shape_type == "organic"`, which the claims evaluated here never pass. -/
def noMorph : AlphaImg → Mask := fun _ => fun _ _ => false

/-- On the `shape_type = "geometric"`, zero-margin, no-bounds path,
`find_largest_inscribed_rectangle` is exactly the centre-biased sweep of the
strict `alpha < 13` void mask. -/
theorem findLIR_geometric_noBounds (s : ℕ → ℕ) (er : Mask → ℕ → Mask) (mm : AlphaImg → Mask)
    (img : AlphaImg) :
    findLargestInscribedRectangle s er mm img 0 "geometric" none
      = (List.foldl (sweepStep s img.w img.h (voidMaskGeometric img))
          (List.replicate img.w 0, (⟨0, ⟨0, 0, 0, 0⟩⟩ : SweepSt))
          (List.range img.h)).2.best := by
  unfold findLargestInscribedRectangle lirSweep
  simp only [mul_zero, Int.floor_zero, Int.toNat_zero, lt_self_iff_false, if_false]
  norm_num
  rw [if_neg (by decide : ¬("geometric" : String) = "organic")]

theorem c2chain99 :
    (List.foldl (sweepStep isqrt 100 100 (voidMaskGeometric c2Img))
      (List.replicate 100 19,
       (⟨160000000, ⟨30, 30, 40, 40⟩⟩ : SweepSt))
      [99]).2.best
      = (⟨30, 30, 40, 40⟩ : Rect) := by
  rw [List.foldl_cons,
    show (sweepStep isqrt 100 100 (voidMaskGeometric c2Img))
      (List.replicate 100 19,
       (⟨160000000, ⟨30, 30, 40, 40⟩⟩ : SweepSt))
      99
      = (List.replicate 100 20,
       (⟨160000000, ⟨30, 30, 40, 40⟩⟩ : SweepSt)) from by decide!]
  rw [List.foldl_nil]

theorem c2chain98 :
    (List.foldl (sweepStep isqrt 100 100 (voidMaskGeometric c2Img))
      (List.replicate 100 18,
       (⟨160000000, ⟨30, 30, 40, 40⟩⟩ : SweepSt))
      [98, 99]).2.best
      = (⟨30, 30, 40, 40⟩ : Rect) := by
  rw [List.foldl_cons,
    show (sweepStep isqrt 100 100 (voidMaskGeometric c2Img))
      (List.replicate 100 18,
       (⟨160000000, ⟨30, 30, 40, 40⟩⟩ : SweepSt))
      98
      = (List.replicate 100 19,
       (⟨160000000, ⟨30, 30, 40, 40⟩⟩ : SweepSt)) from by decide!]
  exact c2chain99

theorem c2chain97 :
    (List.foldl (sweepStep isqrt 100 100 (voidMaskGeometric c2Img))
      (List.replicate 100 17,
       (⟨160000000, ⟨30, 30, 40, 40⟩⟩ : SweepSt))
      [97, 98, 99]).2.best
      = (⟨30, 30, 40, 40⟩ : Rect) := by
  rw [List.foldl_cons,
    show (sweepStep isqrt 100 100 (voidMaskGeometric c2Img))
      (List.replicate 100 17,
       (⟨160000000, ⟨30, 30, 40, 40⟩⟩ : SweepSt))
      97
      = (List.replicate 100 18,
       (⟨160000000, ⟨30, 30, 40, 40⟩⟩ : SweepSt)) from by decide!]
  exact c2chain98

theorem c2chain96 :
    (List.foldl (sweepStep isqrt 100 100 (voidMaskGeometric c2Img))
      (List.replicate 100 16,
       (⟨160000000, ⟨30, 30, 40, 40⟩⟩ : SweepSt))
      [96, 97, 98, 99]).2.best
      = (⟨30, 30, 40, 40⟩ : Rect) := by
  rw [List.foldl_cons,
    show (sweepStep isqrt 100 100 (voidMaskGeometric c2Img))
      (List.replicate 100 16,
       (⟨160000000, ⟨30, 30, 40, 40⟩⟩ : SweepSt))
      96
      = (List.replicate 100 17,
       (⟨160000000, ⟨30, 30, 40, 40⟩⟩ : SweepSt)) from by decide!]
  exact c2chain97

theorem c2chain95 :
    (List.foldl (sweepStep isqrt 100 100 (voidMaskGeometric c2Img))
      (List.replicate 100 15,
       (⟨160000000, ⟨30, 30, 40, 40⟩⟩ : SweepSt))
      [95, 96, 97, 98, 99]).2.best
      = (⟨30, 30, 40, 40⟩ : Rect) := by
  rw [List.foldl_cons,
    show (sweepStep isqrt 100 100 (voidMaskGeometric c2Img))
      (List.replicate 100 15,
       (⟨160000000, ⟨30, 30, 40, 40⟩⟩ : SweepSt))
      95
      = (List.replicate 100 16,
       (⟨160000000, ⟨30, 30, 40, 40⟩⟩ : SweepSt)) from by decide!]
  exact c2chain96

theorem c2chain94 :
    (List.foldl (sweepStep isqrt 100 100 (voidMaskGeometric c2Img))
      (List.replicate 100 14,
       (⟨160000000, ⟨30, 30, 40, 40⟩⟩ : SweepSt))
      [94, 95, 96, 97, 98, 99]).2.best
      = (⟨30, 30, 40, 40⟩ : Rect) := by
  rw [List.foldl_cons,
    show (sweepStep isqrt 100 100 (voidMaskGeometric c2Img))
      (List.replicate 100 14,
       (⟨160000000, ⟨30, 30, 40, 40⟩⟩ : SweepSt))
      94
      = (List.replicate 100 15,
       (⟨160000000, ⟨30, 30, 40, 40⟩⟩ : SweepSt)) from by decide!]
  exact c2chain95

theorem c2chain93 :
    (List.foldl (sweepStep isqrt 100 100 (voidMaskGeometric c2Img))
      (List.replicate 100 13,
       (⟨160000000, ⟨30, 30, 40, 40⟩⟩ : SweepSt))
      [93, 94, 95, 96, 97, 98, 99]).2.best
      = (⟨30, 30, 40, 40⟩ : Rect) := by
  rw [List.foldl_cons,
    show (sweepStep isqrt 100 100 (voidMaskGeometric c2Img))
      (List.replicate 100 13,
       (⟨160000000, ⟨30, 30, 40, 40⟩⟩ : SweepSt))
      93
      = (List.replicate 100 14,
       (⟨160000000, ⟨30, 30, 40, 40⟩⟩ : SweepSt)) from by decide!]
  exact c2chain94

theorem c2chain92 :
    (List.foldl (sweepStep isqrt 100 100 (voidMaskGeometric c2Img))
      (List.replicate 100 12,
       (⟨160000000, ⟨30, 30, 40, 40⟩⟩ : SweepSt))
      [92, 93, 94, 95, 96, 97, 98, 99]).2.best
      = (⟨30, 30, 40, 40⟩ : Rect) := by
  rw [List.foldl_cons,
    show (sweepStep isqrt 100 100 (voidMaskGeometric c2Img))
      (List.replicate 100 12,
       (⟨160000000, ⟨30, 30, 40, 40⟩⟩ : SweepSt))
      92
      = (List.replicate 100 13,
       (⟨160000000, ⟨30, 30, 40, 40⟩⟩ : SweepSt)) from by decide!]
  exact c2chain93

theorem c2chain91 :
    (List.foldl (sweepStep isqrt 100 100 (voidMaskGeometric c2Img))
      (List.replicate 100 11,
       (⟨160000000, ⟨30, 30, 40, 40⟩⟩ : SweepSt))
      [91, 92, 93, 94, 95, 96, 97, 98, 99]).2.best
      = (⟨30, 30, 40, 40⟩ : Rect) := by
  rw [List.foldl_cons,
    show (sweepStep isqrt 100 100 (voidMaskGeometric c2Img))
      (List.replicate 100 11,
       (⟨160000000, ⟨30, 30, 40, 40⟩⟩ : SweepSt))
      91
      = (List.replicate 100 12,
       (⟨160000000, ⟨30, 30, 40, 40⟩⟩ : SweepSt)) from by decide!]
  exact c2chain92

theorem c2chain90 :
    (List.foldl (sweepStep isqrt 100 100 (voidMaskGeometric c2Img))
      (List.replicate 100 10,
       (⟨160000000, ⟨30, 30, 40, 40⟩⟩ : SweepSt))
      [90, 91, 92, 93, 94, 95, 96, 97, 98, 99]).2.best
      = (⟨30, 30, 40, 40⟩ : Rect) := by
  rw [List.foldl_cons,
    show (sweepStep isqrt 100 100 (voidMaskGeometric c2Img))
      (List.replicate 100 10,
       (⟨160000000, ⟨30, 30, 40, 40⟩⟩ : SweepSt))
      90
      = (List.replicate 100 11,
       (⟨160000000, ⟨30, 30, 40, 40⟩⟩ : SweepSt)) from by decide!]
  exact c2chain91

theorem c2chain89 :
    (List.foldl (sweepStep isqrt 100 100 (voidMaskGeometric c2Img))
      (List.replicate 100 9,
       (⟨160000000, ⟨30, 30, 40, 40⟩⟩ : SweepSt))
      [89, 90, 91, 92, 93, 94, 95, 96, 97, 98, 99]).2.best
      = (⟨30, 30, 40, 40⟩ : Rect) := by
  rw [List.foldl_cons,
    show (sweepStep isqrt 100 100 (voidMaskGeometric c2Img))
      (List.replicate 100 9,
       (⟨160000000, ⟨30, 30, 40, 40⟩⟩ : SweepSt))
      89
      = (List.replicate 100 10,
       (⟨160000000, ⟨30, 30, 40, 40⟩⟩ : SweepSt)) from by decide!]
  exact c2chain90

theorem c2chain88 :
    (List.foldl (sweepStep isqrt 100 100 (voidMaskGeometric c2Img))
      (List.replicate 100 8,
       (⟨160000000, ⟨30, 30, 40, 40⟩⟩ : SweepSt))
      [88, 89, 90, 91, 92, 93, 94, 95, 96, 97, 98, 99]).2.best
      = (⟨30, 30, 40, 40⟩ : Rect) := by
  rw [List.foldl_cons,
    show (sweepStep isqrt 100 100 (voidMaskGeometric c2Img))
      (List.replicate 100 8,
       (⟨160000000, ⟨30, 30, 40, 40⟩⟩ : SweepSt))
      88
      = (List.replicate 100 9,
       (⟨160000000, ⟨30, 30, 40, 40⟩⟩ : SweepSt)) from by decide!]
  exact c2chain89

theorem c2chain87 :
    (List.foldl (sweepStep isqrt 100 100 (voidMaskGeometric c2Img))
      (List.replicate 100 7,
       (⟨160000000, ⟨30, 30, 40, 40⟩⟩ : SweepSt))
      [87, 88, 89, 90, 91, 92, 93, 94, 95, 96, 97, 98, 99]).2.best
      = (⟨30, 30, 40, 40⟩ : Rect) := by
  rw [List.foldl_cons,
    show (sweepStep isqrt 100 100 (voidMaskGeometric c2Img))
      (List.replicate 100 7,
       (⟨160000000, ⟨30, 30, 40, 40⟩⟩ : SweepSt))
      87
      = (List.replicate 100 8,
       (⟨160000000, ⟨30, 30, 40, 40⟩⟩ : SweepSt)) from by decide!]
  exact c2chain88

theorem c2chain86 :
    (List.foldl (sweepStep isqrt 100 100 (voidMaskGeometric c2Img))
      (List.replicate 100 6,
       (⟨160000000, ⟨30, 30, 40, 40⟩⟩ : SweepSt))
      [86, 87, 88, 89, 90, 91, 92, 93, 94, 95, 96, 97, 98, 99]).2.best
      = (⟨30, 30, 40, 40⟩ : Rect) := by
  rw [List.foldl_cons,
    show (sweepStep isqrt 100 100 (voidMaskGeometric c2Img))
      (List.replicate 100 6,
       (⟨160000000, ⟨30, 30, 40, 40⟩⟩ : SweepSt))
      86
      = (List.replicate 100 7,
       (⟨160000000, ⟨30, 30, 40, 40⟩⟩ : SweepSt)) from by decide!]
  exact c2chain87

theorem c2chain85 :
    (List.foldl (sweepStep isqrt 100 100 (voidMaskGeometric c2Img))
      (List.replicate 100 5,
       (⟨160000000, ⟨30, 30, 40, 40⟩⟩ : SweepSt))
      [85, 86, 87, 88, 89, 90, 91, 92, 93, 94, 95, 96, 97, 98, 99]).2.best
      = (⟨30, 30, 40, 40⟩ : Rect) := by
  rw [List.foldl_cons,
    show (sweepStep isqrt 100 100 (voidMaskGeometric c2Img))
      (List.replicate 100 5,
       (⟨160000000, ⟨30, 30, 40, 40⟩⟩ : SweepSt))
      85
      = (List.replicate 100 6,
       (⟨160000000, ⟨30, 30, 40, 40⟩⟩ : SweepSt)) from by decide!]
  exact c2chain86

theorem c2chain84 :
    (List.foldl (sweepStep isqrt 100 100 (voidMaskGeometric c2Img))
      (List.replicate 100 4,
       (⟨160000000, ⟨30, 30, 40, 40⟩⟩ : SweepSt))
      [84, 85, 86, 87, 88, 89, 90, 91, 92, 93, 94, 95, 96, 97, 98, 99]).2.best
      = (⟨30, 30, 40, 40⟩ : Rect) := by
  rw [List.foldl_cons,
    show (sweepStep isqrt 100 100 (voidMaskGeometric c2Img))
      (List.replicate 100 4,
       (⟨160000000, ⟨30, 30, 40, 40⟩⟩ : SweepSt))
      84
      = (List.replicate 100 5,
       (⟨160000000, ⟨30, 30, 40, 40⟩⟩ : SweepSt)) from by decide!]
  exact c2chain85

theorem c2chain83 :
    (List.foldl (sweepStep isqrt 100 100 (voidMaskGeometric c2Img))
      (List.replicate 100 3,
       (⟨160000000, ⟨30, 30, 40, 40⟩⟩ : SweepSt))
      [83, 84, 85, 86, 87, 88, 89, 90, 91, 92, 93, 94, 95, 96, 97, 98, 99]).2.best
      = (⟨30, 30, 40, 40⟩ : Rect) := by
  rw [List.foldl_cons,
    show (sweepStep isqrt 100 100 (voidMaskGeometric c2Img))
      (List.replicate 100 3,
       (⟨160000000, ⟨30, 30, 40, 40⟩⟩ : SweepSt))
      83
      = (List.replicate 100 4,
       (⟨160000000, ⟨30, 30, 40, 40⟩⟩ : SweepSt)) from by decide!]
  exact c2chain84

theorem c2chain82 :
    (List.foldl (sweepStep isqrt 100 100 (voidMaskGeometric c2Img))
      (List.replicate 100 2,
       (⟨160000000, ⟨30, 30, 40, 40⟩⟩ : SweepSt))
      [82, 83, 84, 85, 86, 87, 88, 89, 90, 91, 92, 93, 94, 95, 96, 97, 98, 99]).2.best
      = (⟨30, 30, 40, 40⟩ : Rect) := by
  rw [List.foldl_cons,
    show (sweepStep isqrt 100 100 (voidMaskGeometric c2Img))
      (List.replicate 100 2,
       (⟨160000000, ⟨30, 30, 40, 40⟩⟩ : SweepSt))
      82
      = (List.replicate 100 3,
       (⟨160000000, ⟨30, 30, 40, 40⟩⟩ : SweepSt)) from by decide!]
  exact c2chain83

theorem c2chain81 :
    (List.foldl (sweepStep isqrt 100 100 (voidMaskGeometric c2Img))
      (List.replicate 100 1,
       (⟨160000000, ⟨30, 30, 40, 40⟩⟩ : SweepSt))
      [81, 82, 83, 84, 85, 86, 87, 88, 89, 90, 91, 92, 93, 94, 95, 96, 97, 98, 99]).2.best
      = (⟨30, 30, 40, 40⟩ : Rect) := by
  rw [List.foldl_cons,
    show (sweepStep isqrt 100 100 (voidMaskGeometric c2Img))
      (List.replicate 100 1,
       (⟨160000000, ⟨30, 30, 40, 40⟩⟩ : SweepSt))
      81
      = (List.replicate 100 2,
       (⟨160000000, ⟨30, 30, 40, 40⟩⟩ : SweepSt)) from by decide!]
  exact c2chain82

theorem c2chain80 :
    (List.foldl (sweepStep isqrt 100 100 (voidMaskGeometric c2Img))
      (List.replicate 100 0,
       (⟨160000000, ⟨30, 30, 40, 40⟩⟩ : SweepSt))
      [80, 81, 82, 83, 84, 85, 86, 87, 88, 89, 90, 91, 92, 93, 94, 95, 96, 97, 98, 99]).2.best
      = (⟨30, 30, 40, 40⟩ : Rect) := by
  rw [List.foldl_cons,
    show (sweepStep isqrt 100 100 (voidMaskGeometric c2Img))
      (List.replicate 100 0,
       (⟨160000000, ⟨30, 30, 40, 40⟩⟩ : SweepSt))
      80
      = (List.replicate 100 1,
       (⟨160000000, ⟨30, 30, 40, 40⟩⟩ : SweepSt)) from by decide!]
  exact c2chain81

theorem c2chain79 :
    (List.foldl (sweepStep isqrt 100 100 (voidMaskGeometric c2Img))
      (List.replicate 100 0,
       (⟨160000000, ⟨30, 30, 40, 40⟩⟩ : SweepSt))
      [79, 80, 81, 82, 83, 84, 85, 86, 87, 88, 89, 90, 91, 92, 93, 94, 95, 96, 97, 98, 99]).2.best
      = (⟨30, 30, 40, 40⟩ : Rect) := by
  rw [List.foldl_cons,
    show (sweepStep isqrt 100 100 (voidMaskGeometric c2Img))
      (List.replicate 100 0,
       (⟨160000000, ⟨30, 30, 40, 40⟩⟩ : SweepSt))
      79
      = (List.replicate 100 0,
       (⟨160000000, ⟨30, 30, 40, 40⟩⟩ : SweepSt)) from by decide!]
  exact c2chain80

theorem c2chain78 :
    (List.foldl (sweepStep isqrt 100 100 (voidMaskGeometric c2Img))
      (List.replicate 100 0,
       (⟨160000000, ⟨30, 30, 40, 40⟩⟩ : SweepSt))
      [78, 79, 80, 81, 82, 83, 84, 85, 86, 87, 88, 89, 90, 91, 92, 93, 94, 95, 96, 97, 98, 99]).2.best
      = (⟨30, 30, 40, 40⟩ : Rect) := by
  rw [List.foldl_cons,
    show (sweepStep isqrt 100 100 (voidMaskGeometric c2Img))
      (List.replicate 100 0,
       (⟨160000000, ⟨30, 30, 40, 40⟩⟩ : SweepSt))
      78
      = (List.replicate 100 0,
       (⟨160000000, ⟨30, 30, 40, 40⟩⟩ : SweepSt)) from by decide!]
  exact c2chain79

theorem c2chain77 :
    (List.foldl (sweepStep isqrt 100 100 (voidMaskGeometric c2Img))
      (List.replicate 100 0,
       (⟨160000000, ⟨30, 30, 40, 40⟩⟩ : SweepSt))
      [77, 78, 79, 80, 81, 82, 83, 84, 85, 86, 87, 88, 89, 90, 91, 92, 93, 94, 95, 96, 97, 98, 99]).2.best
      = (⟨30, 30, 40, 40⟩ : Rect) := by
  rw [List.foldl_cons,
    show (sweepStep isqrt 100 100 (voidMaskGeometric c2Img))
      (List.replicate 100 0,
       (⟨160000000, ⟨30, 30, 40, 40⟩⟩ : SweepSt))
      77
      = (List.replicate 100 0,
       (⟨160000000, ⟨30, 30, 40, 40⟩⟩ : SweepSt)) from by decide!]
  exact c2chain78

theorem c2chain76 :
    (List.foldl (sweepStep isqrt 100 100 (voidMaskGeometric c2Img))
      (List.replicate 100 0,
       (⟨160000000, ⟨30, 30, 40, 40⟩⟩ : SweepSt))
      [76, 77, 78, 79, 80, 81, 82, 83, 84, 85, 86, 87, 88, 89, 90, 91, 92, 93, 94, 95, 96, 97, 98, 99]).2.best
      = (⟨30, 30, 40, 40⟩ : Rect) := by
  rw [List.foldl_cons,
    show (sweepStep isqrt 100 100 (voidMaskGeometric c2Img))
      (List.replicate 100 0,
       (⟨160000000, ⟨30, 30, 40, 40⟩⟩ : SweepSt))
      76
      = (List.replicate 100 0,
       (⟨160000000, ⟨30, 30, 40, 40⟩⟩ : SweepSt)) from by decide!]
  exact c2chain77

theorem c2chain75 :
    (List.foldl (sweepStep isqrt 100 100 (voidMaskGeometric c2Img))
      (List.replicate 100 0,
       (⟨160000000, ⟨30, 30, 40, 40⟩⟩ : SweepSt))
      [75, 76, 77, 78, 79, 80, 81, 82, 83, 84, 85, 86, 87, 88, 89, 90, 91, 92, 93, 94, 95, 96, 97, 98, 99]).2.best
      = (⟨30, 30, 40, 40⟩ : Rect) := by
  rw [List.foldl_cons,
    show (sweepStep isqrt 100 100 (voidMaskGeometric c2Img))
      (List.replicate 100 0,
       (⟨160000000, ⟨30, 30, 40, 40⟩⟩ : SweepSt))
      75
      = (List.replicate 100 0,
       (⟨160000000, ⟨30, 30, 40, 40⟩⟩ : SweepSt)) from by decide!]
  exact c2chain76

theorem c2chain74 :
    (List.foldl (sweepStep isqrt 100 100 (voidMaskGeometric c2Img))
      (List.replicate 100 0,
       (⟨160000000, ⟨30, 30, 40, 40⟩⟩ : SweepSt))
      [74, 75, 76, 77, 78, 79, 80, 81, 82, 83, 84, 85, 86, 87, 88, 89, 90, 91, 92, 93, 94, 95, 96, 97, 98, 99]).2.best
      = (⟨30, 30, 40, 40⟩ : Rect) := by
  rw [List.foldl_cons,
    show (sweepStep isqrt 100 100 (voidMaskGeometric c2Img))
      (List.replicate 100 0,
       (⟨160000000, ⟨30, 30, 40, 40⟩⟩ : SweepSt))
      74
      = (List.replicate 100 0,
       (⟨160000000, ⟨30, 30, 40, 40⟩⟩ : SweepSt)) from by decide!]
  exact c2chain75

theorem c2chain73 :
    (List.foldl (sweepStep isqrt 100 100 (voidMaskGeometric c2Img))
      (List.replicate 100 0,
       (⟨160000000, ⟨30, 30, 40, 40⟩⟩ : SweepSt))
      [73, 74, 75, 76, 77, 78, 79, 80, 81, 82, 83, 84, 85, 86, 87, 88, 89, 90, 91, 92, 93, 94, 95, 96, 97, 98, 99]).2.best
      = (⟨30, 30, 40, 40⟩ : Rect) := by
  rw [List.foldl_cons,
    show (sweepStep isqrt 100 100 (voidMaskGeometric c2Img))
      (List.replicate 100 0,
       (⟨160000000, ⟨30, 30, 40, 40⟩⟩ : SweepSt))
      73
      = (List.replicate 100 0,
       (⟨160000000, ⟨30, 30, 40, 40⟩⟩ : SweepSt)) from by decide!]
  exact c2chain74

theorem c2chain72 :
    (List.foldl (sweepStep isqrt 100 100 (voidMaskGeometric c2Img))
      (List.replicate 100 0,
       (⟨160000000, ⟨30, 30, 40, 40⟩⟩ : SweepSt))
      [72, 73, 74, 75, 76, 77, 78, 79, 80, 81, 82, 83, 84, 85, 86, 87, 88, 89, 90, 91, 92, 93, 94, 95, 96, 97, 98, 99]).2.best
      = (⟨30, 30, 40, 40⟩ : Rect) := by
  rw [List.foldl_cons,
    show (sweepStep isqrt 100 100 (voidMaskGeometric c2Img))
      (List.replicate 100 0,
       (⟨160000000, ⟨30, 30, 40, 40⟩⟩ : SweepSt))
      72
      = (List.replicate 100 0,
       (⟨160000000, ⟨30, 30, 40, 40⟩⟩ : SweepSt)) from by decide!]
  exact c2chain73

theorem c2chain71 :
    (List.foldl (sweepStep isqrt 100 100 (voidMaskGeometric c2Img))
      (List.replicate 100 0,
       (⟨160000000, ⟨30, 30, 40, 40⟩⟩ : SweepSt))
      [71, 72, 73, 74, 75, 76, 77, 78, 79, 80, 81, 82, 83, 84, 85, 86, 87, 88, 89, 90, 91, 92, 93, 94, 95, 96, 97, 98, 99]).2.best
      = (⟨30, 30, 40, 40⟩ : Rect) := by
  rw [List.foldl_cons,
    show (sweepStep isqrt 100 100 (voidMaskGeometric c2Img))
      (List.replicate 100 0,
       (⟨160000000, ⟨30, 30, 40, 40⟩⟩ : SweepSt))
      71
      = (List.replicate 100 0,
       (⟨160000000, ⟨30, 30, 40, 40⟩⟩ : SweepSt)) from by decide!]
  exact c2chain72

theorem c2chain70 :
    (List.foldl (sweepStep isqrt 100 100 (voidMaskGeometric c2Img))
      (List.replicate 30 0 ++ List.replicate 40 40 ++ List.replicate 30 0,
       (⟨160000000, ⟨30, 30, 40, 40⟩⟩ : SweepSt))
      [70, 71, 72, 73, 74, 75, 76, 77, 78, 79, 80, 81, 82, 83, 84, 85, 86, 87, 88, 89, 90, 91, 92, 93, 94, 95, 96, 97, 98, 99]).2.best
      = (⟨30, 30, 40, 40⟩ : Rect) := by
  rw [List.foldl_cons,
    show (sweepStep isqrt 100 100 (voidMaskGeometric c2Img))
      (List.replicate 30 0 ++ List.replicate 40 40 ++ List.replicate 30 0,
       (⟨160000000, ⟨30, 30, 40, 40⟩⟩ : SweepSt))
      70
      = (List.replicate 100 0,
       (⟨160000000, ⟨30, 30, 40, 40⟩⟩ : SweepSt)) from by decide!]
  exact c2chain71

theorem c2chain69 :
    (List.foldl (sweepStep isqrt 100 100 (voidMaskGeometric c2Img))
      (List.replicate 30 0 ++ List.replicate 40 39 ++ List.replicate 30 0,
       (⟨154908000, ⟨30, 30, 40, 39⟩⟩ : SweepSt))
      [69, 70, 71, 72, 73, 74, 75, 76, 77, 78, 79, 80, 81, 82, 83, 84, 85, 86, 87, 88, 89, 90, 91, 92, 93, 94, 95, 96, 97, 98, 99]).2.best
      = (⟨30, 30, 40, 40⟩ : Rect) := by
  rw [List.foldl_cons,
    show (sweepStep isqrt 100 100 (voidMaskGeometric c2Img))
      (List.replicate 30 0 ++ List.replicate 40 39 ++ List.replicate 30 0,
       (⟨154908000, ⟨30, 30, 40, 39⟩⟩ : SweepSt))
      69
      = (List.replicate 30 0 ++ List.replicate 40 40 ++ List.replicate 30 0,
       (⟨160000000, ⟨30, 30, 40, 40⟩⟩ : SweepSt)) from by decide!]
  exact c2chain70

theorem c2chain68 :
    (List.foldl (sweepStep isqrt 100 100 (voidMaskGeometric c2Img))
      (List.replicate 30 0 ++ List.replicate 40 38 ++ List.replicate 30 0,
       (⟨149872000, ⟨30, 30, 40, 38⟩⟩ : SweepSt))
      [68, 69, 70, 71, 72, 73, 74, 75, 76, 77, 78, 79, 80, 81, 82, 83, 84, 85, 86, 87, 88, 89, 90, 91, 92, 93, 94, 95, 96, 97, 98, 99]).2.best
      = (⟨30, 30, 40, 40⟩ : Rect) := by
  rw [List.foldl_cons,
    show (sweepStep isqrt 100 100 (voidMaskGeometric c2Img))
      (List.replicate 30 0 ++ List.replicate 40 38 ++ List.replicate 30 0,
       (⟨149872000, ⟨30, 30, 40, 38⟩⟩ : SweepSt))
      68
      = (List.replicate 30 0 ++ List.replicate 40 39 ++ List.replicate 30 0,
       (⟨154908000, ⟨30, 30, 40, 39⟩⟩ : SweepSt)) from by decide!]
  exact c2chain69

theorem c2chain67 :
    (List.foldl (sweepStep isqrt 100 100 (voidMaskGeometric c2Img))
      (List.replicate 30 0 ++ List.replicate 40 37 ++ List.replicate 30 0,
       (⟨144892000, ⟨30, 30, 40, 37⟩⟩ : SweepSt))
      [67, 68, 69, 70, 71, 72, 73, 74, 75, 76, 77, 78, 79, 80, 81, 82, 83, 84, 85, 86, 87, 88, 89, 90, 91, 92, 93, 94, 95, 96, 97, 98, 99]).2.best
      = (⟨30, 30, 40, 40⟩ : Rect) := by
  rw [List.foldl_cons,
    show (sweepStep isqrt 100 100 (voidMaskGeometric c2Img))
      (List.replicate 30 0 ++ List.replicate 40 37 ++ List.replicate 30 0,
       (⟨144892000, ⟨30, 30, 40, 37⟩⟩ : SweepSt))
      67
      = (List.replicate 30 0 ++ List.replicate 40 38 ++ List.replicate 30 0,
       (⟨149872000, ⟨30, 30, 40, 38⟩⟩ : SweepSt)) from by decide!]
  exact c2chain68

theorem c2chain66 :
    (List.foldl (sweepStep isqrt 100 100 (voidMaskGeometric c2Img))
      (List.replicate 30 0 ++ List.replicate 40 36 ++ List.replicate 30 0,
       (⟨139968000, ⟨30, 30, 40, 36⟩⟩ : SweepSt))
      [66, 67, 68, 69, 70, 71, 72, 73, 74, 75, 76, 77, 78, 79, 80, 81, 82, 83, 84, 85, 86, 87, 88, 89, 90, 91, 92, 93, 94, 95, 96, 97, 98, 99]).2.best
      = (⟨30, 30, 40, 40⟩ : Rect) := by
  rw [List.foldl_cons,
    show (sweepStep isqrt 100 100 (voidMaskGeometric c2Img))
      (List.replicate 30 0 ++ List.replicate 40 36 ++ List.replicate 30 0,
       (⟨139968000, ⟨30, 30, 40, 36⟩⟩ : SweepSt))
      66
      = (List.replicate 30 0 ++ List.replicate 40 37 ++ List.replicate 30 0,
       (⟨144892000, ⟨30, 30, 40, 37⟩⟩ : SweepSt)) from by decide!]
  exact c2chain67

theorem c2chain65 :
    (List.foldl (sweepStep isqrt 100 100 (voidMaskGeometric c2Img))
      (List.replicate 30 0 ++ List.replicate 40 35 ++ List.replicate 30 0,
       (⟨135100000, ⟨30, 30, 40, 35⟩⟩ : SweepSt))
      [65, 66, 67, 68, 69, 70, 71, 72, 73, 74, 75, 76, 77, 78, 79, 80, 81, 82, 83, 84, 85, 86, 87, 88, 89, 90, 91, 92, 93, 94, 95, 96, 97, 98, 99]).2.best
      = (⟨30, 30, 40, 40⟩ : Rect) := by
  rw [List.foldl_cons,
    show (sweepStep isqrt 100 100 (voidMaskGeometric c2Img))
      (List.replicate 30 0 ++ List.replicate 40 35 ++ List.replicate 30 0,
       (⟨135100000, ⟨30, 30, 40, 35⟩⟩ : SweepSt))
      65
      = (List.replicate 30 0 ++ List.replicate 40 36 ++ List.replicate 30 0,
       (⟨139968000, ⟨30, 30, 40, 36⟩⟩ : SweepSt)) from by decide!]
  exact c2chain66

theorem c2chain64 :
    (List.foldl (sweepStep isqrt 100 100 (voidMaskGeometric c2Img))
      (List.replicate 30 0 ++ List.replicate 40 34 ++ List.replicate 30 0,
       (⟨130288000, ⟨30, 30, 40, 34⟩⟩ : SweepSt))
      [64, 65, 66, 67, 68, 69, 70, 71, 72, 73, 74, 75, 76, 77, 78, 79, 80, 81, 82, 83, 84, 85, 86, 87, 88, 89, 90, 91, 92, 93, 94, 95, 96, 97, 98, 99]).2.best
      = (⟨30, 30, 40, 40⟩ : Rect) := by
  rw [List.foldl_cons,
    show (sweepStep isqrt 100 100 (voidMaskGeometric c2Img))
      (List.replicate 30 0 ++ List.replicate 40 34 ++ List.replicate 30 0,
       (⟨130288000, ⟨30, 30, 40, 34⟩⟩ : SweepSt))
      64
      = (List.replicate 30 0 ++ List.replicate 40 35 ++ List.replicate 30 0,
       (⟨135100000, ⟨30, 30, 40, 35⟩⟩ : SweepSt)) from by decide!]
  exact c2chain65

theorem c2chain63 :
    (List.foldl (sweepStep isqrt 100 100 (voidMaskGeometric c2Img))
      (List.replicate 30 0 ++ List.replicate 40 33 ++ List.replicate 30 0,
       (⟨125532000, ⟨30, 30, 40, 33⟩⟩ : SweepSt))
      [63, 64, 65, 66, 67, 68, 69, 70, 71, 72, 73, 74, 75, 76, 77, 78, 79, 80, 81, 82, 83, 84, 85, 86, 87, 88, 89, 90, 91, 92, 93, 94, 95, 96, 97, 98, 99]).2.best
      = (⟨30, 30, 40, 40⟩ : Rect) := by
  rw [List.foldl_cons,
    show (sweepStep isqrt 100 100 (voidMaskGeometric c2Img))
      (List.replicate 30 0 ++ List.replicate 40 33 ++ List.replicate 30 0,
       (⟨125532000, ⟨30, 30, 40, 33⟩⟩ : SweepSt))
      63
      = (List.replicate 30 0 ++ List.replicate 40 34 ++ List.replicate 30 0,
       (⟨130288000, ⟨30, 30, 40, 34⟩⟩ : SweepSt)) from by decide!]
  exact c2chain64

theorem c2chain62 :
    (List.foldl (sweepStep isqrt 100 100 (voidMaskGeometric c2Img))
      (List.replicate 30 0 ++ List.replicate 40 32 ++ List.replicate 30 0,
       (⟨120832000, ⟨30, 30, 40, 32⟩⟩ : SweepSt))
      [62, 63, 64, 65, 66, 67, 68, 69, 70, 71, 72, 73, 74, 75, 76, 77, 78, 79, 80, 81, 82, 83, 84, 85, 86, 87, 88, 89, 90, 91, 92, 93, 94, 95, 96, 97, 98, 99]).2.best
      = (⟨30, 30, 40, 40⟩ : Rect) := by
  rw [List.foldl_cons,
    show (sweepStep isqrt 100 100 (voidMaskGeometric c2Img))
      (List.replicate 30 0 ++ List.replicate 40 32 ++ List.replicate 30 0,
       (⟨120832000, ⟨30, 30, 40, 32⟩⟩ : SweepSt))
      62
      = (List.replicate 30 0 ++ List.replicate 40 33 ++ List.replicate 30 0,
       (⟨125532000, ⟨30, 30, 40, 33⟩⟩ : SweepSt)) from by decide!]
  exact c2chain63

theorem c2chain61 :
    (List.foldl (sweepStep isqrt 100 100 (voidMaskGeometric c2Img))
      (List.replicate 30 0 ++ List.replicate 40 31 ++ List.replicate 30 0,
       (⟨116188000, ⟨30, 30, 40, 31⟩⟩ : SweepSt))
      [61, 62, 63, 64, 65, 66, 67, 68, 69, 70, 71, 72, 73, 74, 75, 76, 77, 78, 79, 80, 81, 82, 83, 84, 85, 86, 87, 88, 89, 90, 91, 92, 93, 94, 95, 96, 97, 98, 99]).2.best
      = (⟨30, 30, 40, 40⟩ : Rect) := by
  rw [List.foldl_cons,
    show (sweepStep isqrt 100 100 (voidMaskGeometric c2Img))
      (List.replicate 30 0 ++ List.replicate 40 31 ++ List.replicate 30 0,
       (⟨116188000, ⟨30, 30, 40, 31⟩⟩ : SweepSt))
      61
      = (List.replicate 30 0 ++ List.replicate 40 32 ++ List.replicate 30 0,
       (⟨120832000, ⟨30, 30, 40, 32⟩⟩ : SweepSt)) from by decide!]
  exact c2chain62

theorem c2chain60 :
    (List.foldl (sweepStep isqrt 100 100 (voidMaskGeometric c2Img))
      (List.replicate 30 0 ++ List.replicate 40 30 ++ List.replicate 30 0,
       (⟨111600000, ⟨30, 30, 40, 30⟩⟩ : SweepSt))
      [60, 61, 62, 63, 64, 65, 66, 67, 68, 69, 70, 71, 72, 73, 74, 75, 76, 77, 78, 79, 80, 81, 82, 83, 84, 85, 86, 87, 88, 89, 90, 91, 92, 93, 94, 95, 96, 97, 98, 99]).2.best
      = (⟨30, 30, 40, 40⟩ : Rect) := by
  rw [List.foldl_cons,
    show (sweepStep isqrt 100 100 (voidMaskGeometric c2Img))
      (List.replicate 30 0 ++ List.replicate 40 30 ++ List.replicate 30 0,
       (⟨111600000, ⟨30, 30, 40, 30⟩⟩ : SweepSt))
      60
      = (List.replicate 30 0 ++ List.replicate 40 31 ++ List.replicate 30 0,
       (⟨116188000, ⟨30, 30, 40, 31⟩⟩ : SweepSt)) from by decide!]
  exact c2chain61

theorem c2chain59 :
    (List.foldl (sweepStep isqrt 100 100 (voidMaskGeometric c2Img))
      (List.replicate 30 0 ++ List.replicate 40 29 ++ List.replicate 30 0,
       (⟨107068000, ⟨30, 30, 40, 29⟩⟩ : SweepSt))
      [59, 60, 61, 62, 63, 64, 65, 66, 67, 68, 69, 70, 71, 72, 73, 74, 75, 76, 77, 78, 79, 80, 81, 82, 83, 84, 85, 86, 87, 88, 89, 90, 91, 92, 93, 94, 95, 96, 97, 98, 99]).2.best
      = (⟨30, 30, 40, 40⟩ : Rect) := by
  rw [List.foldl_cons,
    show (sweepStep isqrt 100 100 (voidMaskGeometric c2Img))
      (List.replicate 30 0 ++ List.replicate 40 29 ++ List.replicate 30 0,
       (⟨107068000, ⟨30, 30, 40, 29⟩⟩ : SweepSt))
      59
      = (List.replicate 30 0 ++ List.replicate 40 30 ++ List.replicate 30 0,
       (⟨111600000, ⟨30, 30, 40, 30⟩⟩ : SweepSt)) from by decide!]
  exact c2chain60

theorem c2chain58 :
    (List.foldl (sweepStep isqrt 100 100 (voidMaskGeometric c2Img))
      (List.replicate 30 0 ++ List.replicate 40 28 ++ List.replicate 30 0,
       (⟨102592000, ⟨30, 30, 40, 28⟩⟩ : SweepSt))
      [58, 59, 60, 61, 62, 63, 64, 65, 66, 67, 68, 69, 70, 71, 72, 73, 74, 75, 76, 77, 78, 79, 80, 81, 82, 83, 84, 85, 86, 87, 88, 89, 90, 91, 92, 93, 94, 95, 96, 97, 98, 99]).2.best
      = (⟨30, 30, 40, 40⟩ : Rect) := by
  rw [List.foldl_cons,
    show (sweepStep isqrt 100 100 (voidMaskGeometric c2Img))
      (List.replicate 30 0 ++ List.replicate 40 28 ++ List.replicate 30 0,
       (⟨102592000, ⟨30, 30, 40, 28⟩⟩ : SweepSt))
      58
      = (List.replicate 30 0 ++ List.replicate 40 29 ++ List.replicate 30 0,
       (⟨107068000, ⟨30, 30, 40, 29⟩⟩ : SweepSt)) from by decide!]
  exact c2chain59

theorem c2chain57 :
    (List.foldl (sweepStep isqrt 100 100 (voidMaskGeometric c2Img))
      (List.replicate 30 0 ++ List.replicate 40 27 ++ List.replicate 30 0,
       (⟨98172000, ⟨30, 30, 40, 27⟩⟩ : SweepSt))
      [57, 58, 59, 60, 61, 62, 63, 64, 65, 66, 67, 68, 69, 70, 71, 72, 73, 74, 75, 76, 77, 78, 79, 80, 81, 82, 83, 84, 85, 86, 87, 88, 89, 90, 91, 92, 93, 94, 95, 96, 97, 98, 99]).2.best
      = (⟨30, 30, 40, 40⟩ : Rect) := by
  rw [List.foldl_cons,
    show (sweepStep isqrt 100 100 (voidMaskGeometric c2Img))
      (List.replicate 30 0 ++ List.replicate 40 27 ++ List.replicate 30 0,
       (⟨98172000, ⟨30, 30, 40, 27⟩⟩ : SweepSt))
      57
      = (List.replicate 30 0 ++ List.replicate 40 28 ++ List.replicate 30 0,
       (⟨102592000, ⟨30, 30, 40, 28⟩⟩ : SweepSt)) from by decide!]
  exact c2chain58

theorem c2chain56 :
    (List.foldl (sweepStep isqrt 100 100 (voidMaskGeometric c2Img))
      (List.replicate 30 0 ++ List.replicate 40 26 ++ List.replicate 30 0,
       (⟨93808000, ⟨30, 30, 40, 26⟩⟩ : SweepSt))
      [56, 57, 58, 59, 60, 61, 62, 63, 64, 65, 66, 67, 68, 69, 70, 71, 72, 73, 74, 75, 76, 77, 78, 79, 80, 81, 82, 83, 84, 85, 86, 87, 88, 89, 90, 91, 92, 93, 94, 95, 96, 97, 98, 99]).2.best
      = (⟨30, 30, 40, 40⟩ : Rect) := by
  rw [List.foldl_cons,
    show (sweepStep isqrt 100 100 (voidMaskGeometric c2Img))
      (List.replicate 30 0 ++ List.replicate 40 26 ++ List.replicate 30 0,
       (⟨93808000, ⟨30, 30, 40, 26⟩⟩ : SweepSt))
      56
      = (List.replicate 30 0 ++ List.replicate 40 27 ++ List.replicate 30 0,
       (⟨98172000, ⟨30, 30, 40, 27⟩⟩ : SweepSt)) from by decide!]
  exact c2chain57

theorem c2chain55 :
    (List.foldl (sweepStep isqrt 100 100 (voidMaskGeometric c2Img))
      (List.replicate 30 0 ++ List.replicate 40 25 ++ List.replicate 30 0,
       (⟨89500000, ⟨30, 30, 40, 25⟩⟩ : SweepSt))
      [55, 56, 57, 58, 59, 60, 61, 62, 63, 64, 65, 66, 67, 68, 69, 70, 71, 72, 73, 74, 75, 76, 77, 78, 79, 80, 81, 82, 83, 84, 85, 86, 87, 88, 89, 90, 91, 92, 93, 94, 95, 96, 97, 98, 99]).2.best
      = (⟨30, 30, 40, 40⟩ : Rect) := by
  rw [List.foldl_cons,
    show (sweepStep isqrt 100 100 (voidMaskGeometric c2Img))
      (List.replicate 30 0 ++ List.replicate 40 25 ++ List.replicate 30 0,
       (⟨89500000, ⟨30, 30, 40, 25⟩⟩ : SweepSt))
      55
      = (List.replicate 30 0 ++ List.replicate 40 26 ++ List.replicate 30 0,
       (⟨93808000, ⟨30, 30, 40, 26⟩⟩ : SweepSt)) from by decide!]
  exact c2chain56

theorem c2chain54 :
    (List.foldl (sweepStep isqrt 100 100 (voidMaskGeometric c2Img))
      (List.replicate 30 0 ++ List.replicate 40 24 ++ List.replicate 30 0,
       (⟨85248000, ⟨30, 30, 40, 24⟩⟩ : SweepSt))
      [54, 55, 56, 57, 58, 59, 60, 61, 62, 63, 64, 65, 66, 67, 68, 69, 70, 71, 72, 73, 74, 75, 76, 77, 78, 79, 80, 81, 82, 83, 84, 85, 86, 87, 88, 89, 90, 91, 92, 93, 94, 95, 96, 97, 98, 99]).2.best
      = (⟨30, 30, 40, 40⟩ : Rect) := by
  rw [List.foldl_cons,
    show (sweepStep isqrt 100 100 (voidMaskGeometric c2Img))
      (List.replicate 30 0 ++ List.replicate 40 24 ++ List.replicate 30 0,
       (⟨85248000, ⟨30, 30, 40, 24⟩⟩ : SweepSt))
      54
      = (List.replicate 30 0 ++ List.replicate 40 25 ++ List.replicate 30 0,
       (⟨89500000, ⟨30, 30, 40, 25⟩⟩ : SweepSt)) from by decide!]
  exact c2chain55

theorem c2chain53 :
    (List.foldl (sweepStep isqrt 100 100 (voidMaskGeometric c2Img))
      (List.replicate 30 0 ++ List.replicate 40 23 ++ List.replicate 30 0,
       (⟨81052000, ⟨30, 30, 40, 23⟩⟩ : SweepSt))
      [53, 54, 55, 56, 57, 58, 59, 60, 61, 62, 63, 64, 65, 66, 67, 68, 69, 70, 71, 72, 73, 74, 75, 76, 77, 78, 79, 80, 81, 82, 83, 84, 85, 86, 87, 88, 89, 90, 91, 92, 93, 94, 95, 96, 97, 98, 99]).2.best
      = (⟨30, 30, 40, 40⟩ : Rect) := by
  rw [List.foldl_cons,
    show (sweepStep isqrt 100 100 (voidMaskGeometric c2Img))
      (List.replicate 30 0 ++ List.replicate 40 23 ++ List.replicate 30 0,
       (⟨81052000, ⟨30, 30, 40, 23⟩⟩ : SweepSt))
      53
      = (List.replicate 30 0 ++ List.replicate 40 24 ++ List.replicate 30 0,
       (⟨85248000, ⟨30, 30, 40, 24⟩⟩ : SweepSt)) from by decide!]
  exact c2chain54

theorem c2chain52 :
    (List.foldl (sweepStep isqrt 100 100 (voidMaskGeometric c2Img))
      (List.replicate 30 0 ++ List.replicate 40 22 ++ List.replicate 30 0,
       (⟨76912000, ⟨30, 30, 40, 22⟩⟩ : SweepSt))
      [52, 53, 54, 55, 56, 57, 58, 59, 60, 61, 62, 63, 64, 65, 66, 67, 68, 69, 70, 71, 72, 73, 74, 75, 76, 77, 78, 79, 80, 81, 82, 83, 84, 85, 86, 87, 88, 89, 90, 91, 92, 93, 94, 95, 96, 97, 98, 99]).2.best
      = (⟨30, 30, 40, 40⟩ : Rect) := by
  rw [List.foldl_cons,
    show (sweepStep isqrt 100 100 (voidMaskGeometric c2Img))
      (List.replicate 30 0 ++ List.replicate 40 22 ++ List.replicate 30 0,
       (⟨76912000, ⟨30, 30, 40, 22⟩⟩ : SweepSt))
      52
      = (List.replicate 30 0 ++ List.replicate 40 23 ++ List.replicate 30 0,
       (⟨81052000, ⟨30, 30, 40, 23⟩⟩ : SweepSt)) from by decide!]
  exact c2chain53

theorem c2chain51 :
    (List.foldl (sweepStep isqrt 100 100 (voidMaskGeometric c2Img))
      (List.replicate 30 0 ++ List.replicate 40 21 ++ List.replicate 30 0,
       (⟨72828000, ⟨30, 30, 40, 21⟩⟩ : SweepSt))
      [51, 52, 53, 54, 55, 56, 57, 58, 59, 60, 61, 62, 63, 64, 65, 66, 67, 68, 69, 70, 71, 72, 73, 74, 75, 76, 77, 78, 79, 80, 81, 82, 83, 84, 85, 86, 87, 88, 89, 90, 91, 92, 93, 94, 95, 96, 97, 98, 99]).2.best
      = (⟨30, 30, 40, 40⟩ : Rect) := by
  rw [List.foldl_cons,
    show (sweepStep isqrt 100 100 (voidMaskGeometric c2Img))
      (List.replicate 30 0 ++ List.replicate 40 21 ++ List.replicate 30 0,
       (⟨72828000, ⟨30, 30, 40, 21⟩⟩ : SweepSt))
      51
      = (List.replicate 30 0 ++ List.replicate 40 22 ++ List.replicate 30 0,
       (⟨76912000, ⟨30, 30, 40, 22⟩⟩ : SweepSt)) from by decide!]
  exact c2chain52

theorem c2chain50 :
    (List.foldl (sweepStep isqrt 100 100 (voidMaskGeometric c2Img))
      (List.replicate 30 0 ++ List.replicate 40 20 ++ List.replicate 30 0,
       (⟨68800000, ⟨30, 30, 40, 20⟩⟩ : SweepSt))
      [50, 51, 52, 53, 54, 55, 56, 57, 58, 59, 60, 61, 62, 63, 64, 65, 66, 67, 68, 69, 70, 71, 72, 73, 74, 75, 76, 77, 78, 79, 80, 81, 82, 83, 84, 85, 86, 87, 88, 89, 90, 91, 92, 93, 94, 95, 96, 97, 98, 99]).2.best
      = (⟨30, 30, 40, 40⟩ : Rect) := by
  rw [List.foldl_cons,
    show (sweepStep isqrt 100 100 (voidMaskGeometric c2Img))
      (List.replicate 30 0 ++ List.replicate 40 20 ++ List.replicate 30 0,
       (⟨68800000, ⟨30, 30, 40, 20⟩⟩ : SweepSt))
      50
      = (List.replicate 30 0 ++ List.replicate 40 21 ++ List.replicate 30 0,
       (⟨72828000, ⟨30, 30, 40, 21⟩⟩ : SweepSt)) from by decide!]
  exact c2chain51

theorem c2chain49 :
    (List.foldl (sweepStep isqrt 100 100 (voidMaskGeometric c2Img))
      (List.replicate 30 0 ++ List.replicate 40 19 ++ List.replicate 30 0,
       (⟨64828000, ⟨30, 30, 40, 19⟩⟩ : SweepSt))
      [49, 50, 51, 52, 53, 54, 55, 56, 57, 58, 59, 60, 61, 62, 63, 64, 65, 66, 67, 68, 69, 70, 71, 72, 73, 74, 75, 76, 77, 78, 79, 80, 81, 82, 83, 84, 85, 86, 87, 88, 89, 90, 91, 92, 93, 94, 95, 96, 97, 98, 99]).2.best
      = (⟨30, 30, 40, 40⟩ : Rect) := by
  rw [List.foldl_cons,
    show (sweepStep isqrt 100 100 (voidMaskGeometric c2Img))
      (List.replicate 30 0 ++ List.replicate 40 19 ++ List.replicate 30 0,
       (⟨64828000, ⟨30, 30, 40, 19⟩⟩ : SweepSt))
      49
      = (List.replicate 30 0 ++ List.replicate 40 20 ++ List.replicate 30 0,
       (⟨68800000, ⟨30, 30, 40, 20⟩⟩ : SweepSt)) from by decide!]
  exact c2chain50

theorem c2chain48 :
    (List.foldl (sweepStep isqrt 100 100 (voidMaskGeometric c2Img))
      (List.replicate 30 0 ++ List.replicate 40 18 ++ List.replicate 30 0,
       (⟨60912000, ⟨30, 30, 40, 18⟩⟩ : SweepSt))
      [48, 49, 50, 51, 52, 53, 54, 55, 56, 57, 58, 59, 60, 61, 62, 63, 64, 65, 66, 67, 68, 69, 70, 71, 72, 73, 74, 75, 76, 77, 78, 79, 80, 81, 82, 83, 84, 85, 86, 87, 88, 89, 90, 91, 92, 93, 94, 95, 96, 97, 98, 99]).2.best
      = (⟨30, 30, 40, 40⟩ : Rect) := by
  rw [List.foldl_cons,
    show (sweepStep isqrt 100 100 (voidMaskGeometric c2Img))
      (List.replicate 30 0 ++ List.replicate 40 18 ++ List.replicate 30 0,
       (⟨60912000, ⟨30, 30, 40, 18⟩⟩ : SweepSt))
      48
      = (List.replicate 30 0 ++ List.replicate 40 19 ++ List.replicate 30 0,
       (⟨64828000, ⟨30, 30, 40, 19⟩⟩ : SweepSt)) from by decide!]
  exact c2chain49

theorem c2chain47 :
    (List.foldl (sweepStep isqrt 100 100 (voidMaskGeometric c2Img))
      (List.replicate 30 0 ++ List.replicate 40 17 ++ List.replicate 30 0,
       (⟨57052000, ⟨30, 30, 40, 17⟩⟩ : SweepSt))
      [47, 48, 49, 50, 51, 52, 53, 54, 55, 56, 57, 58, 59, 60, 61, 62, 63, 64, 65, 66, 67, 68, 69, 70, 71, 72, 73, 74, 75, 76, 77, 78, 79, 80, 81, 82, 83, 84, 85, 86, 87, 88, 89, 90, 91, 92, 93, 94, 95, 96, 97, 98, 99]).2.best
      = (⟨30, 30, 40, 40⟩ : Rect) := by
  rw [List.foldl_cons,
    show (sweepStep isqrt 100 100 (voidMaskGeometric c2Img))
      (List.replicate 30 0 ++ List.replicate 40 17 ++ List.replicate 30 0,
       (⟨57052000, ⟨30, 30, 40, 17⟩⟩ : SweepSt))
      47
      = (List.replicate 30 0 ++ List.replicate 40 18 ++ List.replicate 30 0,
       (⟨60912000, ⟨30, 30, 40, 18⟩⟩ : SweepSt)) from by decide!]
  exact c2chain48

theorem c2chain46 :
    (List.foldl (sweepStep isqrt 100 100 (voidMaskGeometric c2Img))
      (List.replicate 30 0 ++ List.replicate 40 16 ++ List.replicate 30 0,
       (⟨53248000, ⟨30, 30, 40, 16⟩⟩ : SweepSt))
      [46, 47, 48, 49, 50, 51, 52, 53, 54, 55, 56, 57, 58, 59, 60, 61, 62, 63, 64, 65, 66, 67, 68, 69, 70, 71, 72, 73, 74, 75, 76, 77, 78, 79, 80, 81, 82, 83, 84, 85, 86, 87, 88, 89, 90, 91, 92, 93, 94, 95, 96, 97, 98, 99]).2.best
      = (⟨30, 30, 40, 40⟩ : Rect) := by
  rw [List.foldl_cons,
    show (sweepStep isqrt 100 100 (voidMaskGeometric c2Img))
      (List.replicate 30 0 ++ List.replicate 40 16 ++ List.replicate 30 0,
       (⟨53248000, ⟨30, 30, 40, 16⟩⟩ : SweepSt))
      46
      = (List.replicate 30 0 ++ List.replicate 40 17 ++ List.replicate 30 0,
       (⟨57052000, ⟨30, 30, 40, 17⟩⟩ : SweepSt)) from by decide!]
  exact c2chain47

theorem c2chain45 :
    (List.foldl (sweepStep isqrt 100 100 (voidMaskGeometric c2Img))
      (List.replicate 30 0 ++ List.replicate 40 15 ++ List.replicate 30 0,
       (⟨49500000, ⟨30, 30, 40, 15⟩⟩ : SweepSt))
      [45, 46, 47, 48, 49, 50, 51, 52, 53, 54, 55, 56, 57, 58, 59, 60, 61, 62, 63, 64, 65, 66, 67, 68, 69, 70, 71, 72, 73, 74, 75, 76, 77, 78, 79, 80, 81, 82, 83, 84, 85, 86, 87, 88, 89, 90, 91, 92, 93, 94, 95, 96, 97, 98, 99]).2.best
      = (⟨30, 30, 40, 40⟩ : Rect) := by
  rw [List.foldl_cons,
    show (sweepStep isqrt 100 100 (voidMaskGeometric c2Img))
      (List.replicate 30 0 ++ List.replicate 40 15 ++ List.replicate 30 0,
       (⟨49500000, ⟨30, 30, 40, 15⟩⟩ : SweepSt))
      45
      = (List.replicate 30 0 ++ List.replicate 40 16 ++ List.replicate 30 0,
       (⟨53248000, ⟨30, 30, 40, 16⟩⟩ : SweepSt)) from by decide!]
  exact c2chain46

theorem c2chain44 :
    (List.foldl (sweepStep isqrt 100 100 (voidMaskGeometric c2Img))
      (List.replicate 30 0 ++ List.replicate 40 14 ++ List.replicate 30 0,
       (⟨45808000, ⟨30, 30, 40, 14⟩⟩ : SweepSt))
      [44, 45, 46, 47, 48, 49, 50, 51, 52, 53, 54, 55, 56, 57, 58, 59, 60, 61, 62, 63, 64, 65, 66, 67, 68, 69, 70, 71, 72, 73, 74, 75, 76, 77, 78, 79, 80, 81, 82, 83, 84, 85, 86, 87, 88, 89, 90, 91, 92, 93, 94, 95, 96, 97, 98, 99]).2.best
      = (⟨30, 30, 40, 40⟩ : Rect) := by
  rw [List.foldl_cons,
    show (sweepStep isqrt 100 100 (voidMaskGeometric c2Img))
      (List.replicate 30 0 ++ List.replicate 40 14 ++ List.replicate 30 0,
       (⟨45808000, ⟨30, 30, 40, 14⟩⟩ : SweepSt))
      44
      = (List.replicate 30 0 ++ List.replicate 40 15 ++ List.replicate 30 0,
       (⟨49500000, ⟨30, 30, 40, 15⟩⟩ : SweepSt)) from by decide!]
  exact c2chain45

theorem c2chain43 :
    (List.foldl (sweepStep isqrt 100 100 (voidMaskGeometric c2Img))
      (List.replicate 30 0 ++ List.replicate 40 13 ++ List.replicate 30 0,
       (⟨42172000, ⟨30, 30, 40, 13⟩⟩ : SweepSt))
      [43, 44, 45, 46, 47, 48, 49, 50, 51, 52, 53, 54, 55, 56, 57, 58, 59, 60, 61, 62, 63, 64, 65, 66, 67, 68, 69, 70, 71, 72, 73, 74, 75, 76, 77, 78, 79, 80, 81, 82, 83, 84, 85, 86, 87, 88, 89, 90, 91, 92, 93, 94, 95, 96, 97, 98, 99]).2.best
      = (⟨30, 30, 40, 40⟩ : Rect) := by
  rw [List.foldl_cons,
    show (sweepStep isqrt 100 100 (voidMaskGeometric c2Img))
      (List.replicate 30 0 ++ List.replicate 40 13 ++ List.replicate 30 0,
       (⟨42172000, ⟨30, 30, 40, 13⟩⟩ : SweepSt))
      43
      = (List.replicate 30 0 ++ List.replicate 40 14 ++ List.replicate 30 0,
       (⟨45808000, ⟨30, 30, 40, 14⟩⟩ : SweepSt)) from by decide!]
  exact c2chain44

theorem c2chain42 :
    (List.foldl (sweepStep isqrt 100 100 (voidMaskGeometric c2Img))
      (List.replicate 30 0 ++ List.replicate 40 12 ++ List.replicate 30 0,
       (⟨38592000, ⟨30, 30, 40, 12⟩⟩ : SweepSt))
      [42, 43, 44, 45, 46, 47, 48, 49, 50, 51, 52, 53, 54, 55, 56, 57, 58, 59, 60, 61, 62, 63, 64, 65, 66, 67, 68, 69, 70, 71, 72, 73, 74, 75, 76, 77, 78, 79, 80, 81, 82, 83, 84, 85, 86, 87, 88, 89, 90, 91, 92, 93, 94, 95, 96, 97, 98, 99]).2.best
      = (⟨30, 30, 40, 40⟩ : Rect) := by
  rw [List.foldl_cons,
    show (sweepStep isqrt 100 100 (voidMaskGeometric c2Img))
      (List.replicate 30 0 ++ List.replicate 40 12 ++ List.replicate 30 0,
       (⟨38592000, ⟨30, 30, 40, 12⟩⟩ : SweepSt))
      42
      = (List.replicate 30 0 ++ List.replicate 40 13 ++ List.replicate 30 0,
       (⟨42172000, ⟨30, 30, 40, 13⟩⟩ : SweepSt)) from by decide!]
  exact c2chain43

theorem c2chain41 :
    (List.foldl (sweepStep isqrt 100 100 (voidMaskGeometric c2Img))
      (List.replicate 30 0 ++ List.replicate 40 11 ++ List.replicate 30 0,
       (⟨35068000, ⟨30, 30, 40, 11⟩⟩ : SweepSt))
      [41, 42, 43, 44, 45, 46, 47, 48, 49, 50, 51, 52, 53, 54, 55, 56, 57, 58, 59, 60, 61, 62, 63, 64, 65, 66, 67, 68, 69, 70, 71, 72, 73, 74, 75, 76, 77, 78, 79, 80, 81, 82, 83, 84, 85, 86, 87, 88, 89, 90, 91, 92, 93, 94, 95, 96, 97, 98, 99]).2.best
      = (⟨30, 30, 40, 40⟩ : Rect) := by
  rw [List.foldl_cons,
    show (sweepStep isqrt 100 100 (voidMaskGeometric c2Img))
      (List.replicate 30 0 ++ List.replicate 40 11 ++ List.replicate 30 0,
       (⟨35068000, ⟨30, 30, 40, 11⟩⟩ : SweepSt))
      41
      = (List.replicate 30 0 ++ List.replicate 40 12 ++ List.replicate 30 0,
       (⟨38592000, ⟨30, 30, 40, 12⟩⟩ : SweepSt)) from by decide!]
  exact c2chain42

theorem c2chain40 :
    (List.foldl (sweepStep isqrt 100 100 (voidMaskGeometric c2Img))
      (List.replicate 30 0 ++ List.replicate 40 10 ++ List.replicate 30 0,
       (⟨31600000, ⟨30, 30, 40, 10⟩⟩ : SweepSt))
      [40, 41, 42, 43, 44, 45, 46, 47, 48, 49, 50, 51, 52, 53, 54, 55, 56, 57, 58, 59, 60, 61, 62, 63, 64, 65, 66, 67, 68, 69, 70, 71, 72, 73, 74, 75, 76, 77, 78, 79, 80, 81, 82, 83, 84, 85, 86, 87, 88, 89, 90, 91, 92, 93, 94, 95, 96, 97, 98, 99]).2.best
      = (⟨30, 30, 40, 40⟩ : Rect) := by
  rw [List.foldl_cons,
    show (sweepStep isqrt 100 100 (voidMaskGeometric c2Img))
      (List.replicate 30 0 ++ List.replicate 40 10 ++ List.replicate 30 0,
       (⟨31600000, ⟨30, 30, 40, 10⟩⟩ : SweepSt))
      40
      = (List.replicate 30 0 ++ List.replicate 40 11 ++ List.replicate 30 0,
       (⟨35068000, ⟨30, 30, 40, 11⟩⟩ : SweepSt)) from by decide!]
  exact c2chain41

theorem c2chain39 :
    (List.foldl (sweepStep isqrt 100 100 (voidMaskGeometric c2Img))
      (List.replicate 30 0 ++ List.replicate 40 9 ++ List.replicate 30 0,
       (⟨28188000, ⟨30, 30, 40, 9⟩⟩ : SweepSt))
      [39, 40, 41, 42, 43, 44, 45, 46, 47, 48, 49, 50, 51, 52, 53, 54, 55, 56, 57, 58, 59, 60, 61, 62, 63, 64, 65, 66, 67, 68, 69, 70, 71, 72, 73, 74, 75, 76, 77, 78, 79, 80, 81, 82, 83, 84, 85, 86, 87, 88, 89, 90, 91, 92, 93, 94, 95, 96, 97, 98, 99]).2.best
      = (⟨30, 30, 40, 40⟩ : Rect) := by
  rw [List.foldl_cons,
    show (sweepStep isqrt 100 100 (voidMaskGeometric c2Img))
      (List.replicate 30 0 ++ List.replicate 40 9 ++ List.replicate 30 0,
       (⟨28188000, ⟨30, 30, 40, 9⟩⟩ : SweepSt))
      39
      = (List.replicate 30 0 ++ List.replicate 40 10 ++ List.replicate 30 0,
       (⟨31600000, ⟨30, 30, 40, 10⟩⟩ : SweepSt)) from by decide!]
  exact c2chain40

theorem c2chain38 :
    (List.foldl (sweepStep isqrt 100 100 (voidMaskGeometric c2Img))
      (List.replicate 30 0 ++ List.replicate 40 8 ++ List.replicate 30 0,
       (⟨24832000, ⟨30, 30, 40, 8⟩⟩ : SweepSt))
      [38, 39, 40, 41, 42, 43, 44, 45, 46, 47, 48, 49, 50, 51, 52, 53, 54, 55, 56, 57, 58, 59, 60, 61, 62, 63, 64, 65, 66, 67, 68, 69, 70, 71, 72, 73, 74, 75, 76, 77, 78, 79, 80, 81, 82, 83, 84, 85, 86, 87, 88, 89, 90, 91, 92, 93, 94, 95, 96, 97, 98, 99]).2.best
      = (⟨30, 30, 40, 40⟩ : Rect) := by
  rw [List.foldl_cons,
    show (sweepStep isqrt 100 100 (voidMaskGeometric c2Img))
      (List.replicate 30 0 ++ List.replicate 40 8 ++ List.replicate 30 0,
       (⟨24832000, ⟨30, 30, 40, 8⟩⟩ : SweepSt))
      38
      = (List.replicate 30 0 ++ List.replicate 40 9 ++ List.replicate 30 0,
       (⟨28188000, ⟨30, 30, 40, 9⟩⟩ : SweepSt)) from by decide!]
  exact c2chain39

theorem c2chain37 :
    (List.foldl (sweepStep isqrt 100 100 (voidMaskGeometric c2Img))
      (List.replicate 30 0 ++ List.replicate 40 7 ++ List.replicate 30 0,
       (⟨21532000, ⟨30, 30, 40, 7⟩⟩ : SweepSt))
      [37, 38, 39, 40, 41, 42, 43, 44, 45, 46, 47, 48, 49, 50, 51, 52, 53, 54, 55, 56, 57, 58, 59, 60, 61, 62, 63, 64, 65, 66, 67, 68, 69, 70, 71, 72, 73, 74, 75, 76, 77, 78, 79, 80, 81, 82, 83, 84, 85, 86, 87, 88, 89, 90, 91, 92, 93, 94, 95, 96, 97, 98, 99]).2.best
      = (⟨30, 30, 40, 40⟩ : Rect) := by
  rw [List.foldl_cons,
    show (sweepStep isqrt 100 100 (voidMaskGeometric c2Img))
      (List.replicate 30 0 ++ List.replicate 40 7 ++ List.replicate 30 0,
       (⟨21532000, ⟨30, 30, 40, 7⟩⟩ : SweepSt))
      37
      = (List.replicate 30 0 ++ List.replicate 40 8 ++ List.replicate 30 0,
       (⟨24832000, ⟨30, 30, 40, 8⟩⟩ : SweepSt)) from by decide!]
  exact c2chain38

theorem c2chain36 :
    (List.foldl (sweepStep isqrt 100 100 (voidMaskGeometric c2Img))
      (List.replicate 30 0 ++ List.replicate 40 6 ++ List.replicate 30 0,
       (⟨18288000, ⟨30, 30, 40, 6⟩⟩ : SweepSt))
      [36, 37, 38, 39, 40, 41, 42, 43, 44, 45, 46, 47, 48, 49, 50, 51, 52, 53, 54, 55, 56, 57, 58, 59, 60, 61, 62, 63, 64, 65, 66, 67, 68, 69, 70, 71, 72, 73, 74, 75, 76, 77, 78, 79, 80, 81, 82, 83, 84, 85, 86, 87, 88, 89, 90, 91, 92, 93, 94, 95, 96, 97, 98, 99]).2.best
      = (⟨30, 30, 40, 40⟩ : Rect) := by
  rw [List.foldl_cons,
    show (sweepStep isqrt 100 100 (voidMaskGeometric c2Img))
      (List.replicate 30 0 ++ List.replicate 40 6 ++ List.replicate 30 0,
       (⟨18288000, ⟨30, 30, 40, 6⟩⟩ : SweepSt))
      36
      = (List.replicate 30 0 ++ List.replicate 40 7 ++ List.replicate 30 0,
       (⟨21532000, ⟨30, 30, 40, 7⟩⟩ : SweepSt)) from by decide!]
  exact c2chain37

theorem c2chain35 :
    (List.foldl (sweepStep isqrt 100 100 (voidMaskGeometric c2Img))
      (List.replicate 30 0 ++ List.replicate 40 5 ++ List.replicate 30 0,
       (⟨15100000, ⟨30, 30, 40, 5⟩⟩ : SweepSt))
      [35, 36, 37, 38, 39, 40, 41, 42, 43, 44, 45, 46, 47, 48, 49, 50, 51, 52, 53, 54, 55, 56, 57, 58, 59, 60, 61, 62, 63, 64, 65, 66, 67, 68, 69, 70, 71, 72, 73, 74, 75, 76, 77, 78, 79, 80, 81, 82, 83, 84, 85, 86, 87, 88, 89, 90, 91, 92, 93, 94, 95, 96, 97, 98, 99]).2.best
      = (⟨30, 30, 40, 40⟩ : Rect) := by
  rw [List.foldl_cons,
    show (sweepStep isqrt 100 100 (voidMaskGeometric c2Img))
      (List.replicate 30 0 ++ List.replicate 40 5 ++ List.replicate 30 0,
       (⟨15100000, ⟨30, 30, 40, 5⟩⟩ : SweepSt))
      35
      = (List.replicate 30 0 ++ List.replicate 40 6 ++ List.replicate 30 0,
       (⟨18288000, ⟨30, 30, 40, 6⟩⟩ : SweepSt)) from by decide!]
  exact c2chain36

theorem c2chain34 :
    (List.foldl (sweepStep isqrt 100 100 (voidMaskGeometric c2Img))
      (List.replicate 30 0 ++ List.replicate 40 4 ++ List.replicate 30 0,
       (⟨11968000, ⟨30, 30, 40, 4⟩⟩ : SweepSt))
      [34, 35, 36, 37, 38, 39, 40, 41, 42, 43, 44, 45, 46, 47, 48, 49, 50, 51, 52, 53, 54, 55, 56, 57, 58, 59, 60, 61, 62, 63, 64, 65, 66, 67, 68, 69, 70, 71, 72, 73, 74, 75, 76, 77, 78, 79, 80, 81, 82, 83, 84, 85, 86, 87, 88, 89, 90, 91, 92, 93, 94, 95, 96, 97, 98, 99]).2.best
      = (⟨30, 30, 40, 40⟩ : Rect) := by
  rw [List.foldl_cons,
    show (sweepStep isqrt 100 100 (voidMaskGeometric c2Img))
      (List.replicate 30 0 ++ List.replicate 40 4 ++ List.replicate 30 0,
       (⟨11968000, ⟨30, 30, 40, 4⟩⟩ : SweepSt))
      34
      = (List.replicate 30 0 ++ List.replicate 40 5 ++ List.replicate 30 0,
       (⟨15100000, ⟨30, 30, 40, 5⟩⟩ : SweepSt)) from by decide!]
  exact c2chain35

theorem c2chain33 :
    (List.foldl (sweepStep isqrt 100 100 (voidMaskGeometric c2Img))
      (List.replicate 30 0 ++ List.replicate 40 3 ++ List.replicate 30 0,
       (⟨8892000, ⟨30, 30, 40, 3⟩⟩ : SweepSt))
      [33, 34, 35, 36, 37, 38, 39, 40, 41, 42, 43, 44, 45, 46, 47, 48, 49, 50, 51, 52, 53, 54, 55, 56, 57, 58, 59, 60, 61, 62, 63, 64, 65, 66, 67, 68, 69, 70, 71, 72, 73, 74, 75, 76, 77, 78, 79, 80, 81, 82, 83, 84, 85, 86, 87, 88, 89, 90, 91, 92, 93, 94, 95, 96, 97, 98, 99]).2.best
      = (⟨30, 30, 40, 40⟩ : Rect) := by
  rw [List.foldl_cons,
    show (sweepStep isqrt 100 100 (voidMaskGeometric c2Img))
      (List.replicate 30 0 ++ List.replicate 40 3 ++ List.replicate 30 0,
       (⟨8892000, ⟨30, 30, 40, 3⟩⟩ : SweepSt))
      33
      = (List.replicate 30 0 ++ List.replicate 40 4 ++ List.replicate 30 0,
       (⟨11968000, ⟨30, 30, 40, 4⟩⟩ : SweepSt)) from by decide!]
  exact c2chain34

theorem c2chain32 :
    (List.foldl (sweepStep isqrt 100 100 (voidMaskGeometric c2Img))
      (List.replicate 30 0 ++ List.replicate 40 2 ++ List.replicate 30 0,
       (⟨5872000, ⟨30, 30, 40, 2⟩⟩ : SweepSt))
      [32, 33, 34, 35, 36, 37, 38, 39, 40, 41, 42, 43, 44, 45, 46, 47, 48, 49, 50, 51, 52, 53, 54, 55, 56, 57, 58, 59, 60, 61, 62, 63, 64, 65, 66, 67, 68, 69, 70, 71, 72, 73, 74, 75, 76, 77, 78, 79, 80, 81, 82, 83, 84, 85, 86, 87, 88, 89, 90, 91, 92, 93, 94, 95, 96, 97, 98, 99]).2.best
      = (⟨30, 30, 40, 40⟩ : Rect) := by
  rw [List.foldl_cons,
    show (sweepStep isqrt 100 100 (voidMaskGeometric c2Img))
      (List.replicate 30 0 ++ List.replicate 40 2 ++ List.replicate 30 0,
       (⟨5872000, ⟨30, 30, 40, 2⟩⟩ : SweepSt))
      32
      = (List.replicate 30 0 ++ List.replicate 40 3 ++ List.replicate 30 0,
       (⟨8892000, ⟨30, 30, 40, 3⟩⟩ : SweepSt)) from by decide!]
  exact c2chain33

theorem c2chain31 :
    (List.foldl (sweepStep isqrt 100 100 (voidMaskGeometric c2Img))
      (List.replicate 30 0 ++ List.replicate 40 1 ++ List.replicate 30 0,
       (⟨2908000, ⟨30, 30, 40, 1⟩⟩ : SweepSt))
      [31, 32, 33, 34, 35, 36, 37, 38, 39, 40, 41, 42, 43, 44, 45, 46, 47, 48, 49, 50, 51, 52, 53, 54, 55, 56, 57, 58, 59, 60, 61, 62, 63, 64, 65, 66, 67, 68, 69, 70, 71, 72, 73, 74, 75, 76, 77, 78, 79, 80, 81, 82, 83, 84, 85, 86, 87, 88, 89, 90, 91, 92, 93, 94, 95, 96, 97, 98, 99]).2.best
      = (⟨30, 30, 40, 40⟩ : Rect) := by
  rw [List.foldl_cons,
    show (sweepStep isqrt 100 100 (voidMaskGeometric c2Img))
      (List.replicate 30 0 ++ List.replicate 40 1 ++ List.replicate 30 0,
       (⟨2908000, ⟨30, 30, 40, 1⟩⟩ : SweepSt))
      31
      = (List.replicate 30 0 ++ List.replicate 40 2 ++ List.replicate 30 0,
       (⟨5872000, ⟨30, 30, 40, 2⟩⟩ : SweepSt)) from by decide!]
  exact c2chain32

theorem c2chain30 :
    (List.foldl (sweepStep isqrt 100 100 (voidMaskGeometric c2Img))
      (List.replicate 100 0,
       (⟨0, ⟨0, 0, 0, 0⟩⟩ : SweepSt))
      [30, 31, 32, 33, 34, 35, 36, 37, 38, 39, 40, 41, 42, 43, 44, 45, 46, 47, 48, 49, 50, 51, 52, 53, 54, 55, 56, 57, 58, 59, 60, 61, 62, 63, 64, 65, 66, 67, 68, 69, 70, 71, 72, 73, 74, 75, 76, 77, 78, 79, 80, 81, 82, 83, 84, 85, 86, 87, 88, 89, 90, 91, 92, 93, 94, 95, 96, 97, 98, 99]).2.best
      = (⟨30, 30, 40, 40⟩ : Rect) := by
  rw [List.foldl_cons,
    show (sweepStep isqrt 100 100 (voidMaskGeometric c2Img))
      (List.replicate 100 0,
       (⟨0, ⟨0, 0, 0, 0⟩⟩ : SweepSt))
      30
      = (List.replicate 30 0 ++ List.replicate 40 1 ++ List.replicate 30 0,
       (⟨2908000, ⟨30, 30, 40, 1⟩⟩ : SweepSt)) from by decide!]
  exact c2chain31

theorem c2chain29 :
    (List.foldl (sweepStep isqrt 100 100 (voidMaskGeometric c2Img))
      (List.replicate 100 0,
       (⟨0, ⟨0, 0, 0, 0⟩⟩ : SweepSt))
      [29, 30, 31, 32, 33, 34, 35, 36, 37, 38, 39, 40, 41, 42, 43, 44, 45, 46, 47, 48, 49, 50, 51, 52, 53, 54, 55, 56, 57, 58, 59, 60, 61, 62, 63, 64, 65, 66, 67, 68, 69, 70, 71, 72, 73, 74, 75, 76, 77, 78, 79, 80, 81, 82, 83, 84, 85, 86, 87, 88, 89, 90, 91, 92, 93, 94, 95, 96, 97, 98, 99]).2.best
      = (⟨30, 30, 40, 40⟩ : Rect) := by
  rw [List.foldl_cons,
    show (sweepStep isqrt 100 100 (voidMaskGeometric c2Img))
      (List.replicate 100 0,
       (⟨0, ⟨0, 0, 0, 0⟩⟩ : SweepSt))
      29
      = (List.replicate 100 0,
       (⟨0, ⟨0, 0, 0, 0⟩⟩ : SweepSt)) from by decide!]
  exact c2chain30

theorem c2chain28 :
    (List.foldl (sweepStep isqrt 100 100 (voidMaskGeometric c2Img))
      (List.replicate 100 0,
       (⟨0, ⟨0, 0, 0, 0⟩⟩ : SweepSt))
      [28, 29, 30, 31, 32, 33, 34, 35, 36, 37, 38, 39, 40, 41, 42, 43, 44, 45, 46, 47, 48, 49, 50, 51, 52, 53, 54, 55, 56, 57, 58, 59, 60, 61, 62, 63, 64, 65, 66, 67, 68, 69, 70, 71, 72, 73, 74, 75, 76, 77, 78, 79, 80, 81, 82, 83, 84, 85, 86, 87, 88, 89, 90, 91, 92, 93, 94, 95, 96, 97, 98, 99]).2.best
      = (⟨30, 30, 40, 40⟩ : Rect) := by
  rw [List.foldl_cons,
    show (sweepStep isqrt 100 100 (voidMaskGeometric c2Img))
      (List.replicate 100 0,
       (⟨0, ⟨0, 0, 0, 0⟩⟩ : SweepSt))
      28
      = (List.replicate 100 0,
       (⟨0, ⟨0, 0, 0, 0⟩⟩ : SweepSt)) from by decide!]
  exact c2chain29

theorem c2chain27 :
    (List.foldl (sweepStep isqrt 100 100 (voidMaskGeometric c2Img))
      (List.replicate 100 0,
       (⟨0, ⟨0, 0, 0, 0⟩⟩ : SweepSt))
      [27, 28, 29, 30, 31, 32, 33, 34, 35, 36, 37, 38, 39, 40, 41, 42, 43, 44, 45, 46, 47, 48, 49, 50, 51, 52, 53, 54, 55, 56, 57, 58, 59, 60, 61, 62, 63, 64, 65, 66, 67, 68, 69, 70, 71, 72, 73, 74, 75, 76, 77, 78, 79, 80, 81, 82, 83, 84, 85, 86, 87, 88, 89, 90, 91, 92, 93, 94, 95, 96, 97, 98, 99]).2.best
      = (⟨30, 30, 40, 40⟩ : Rect) := by
  rw [List.foldl_cons,
    show (sweepStep isqrt 100 100 (voidMaskGeometric c2Img))
      (List.replicate 100 0,
       (⟨0, ⟨0, 0, 0, 0⟩⟩ : SweepSt))
      27
      = (List.replicate 100 0,
       (⟨0, ⟨0, 0, 0, 0⟩⟩ : SweepSt)) from by decide!]
  exact c2chain28

theorem c2chain26 :
    (List.foldl (sweepStep isqrt 100 100 (voidMaskGeometric c2Img))
      (List.replicate 100 0,
       (⟨0, ⟨0, 0, 0, 0⟩⟩ : SweepSt))
      [26, 27, 28, 29, 30, 31, 32, 33, 34, 35, 36, 37, 38, 39, 40, 41, 42, 43, 44, 45, 46, 47, 48, 49, 50, 51, 52, 53, 54, 55, 56, 57, 58, 59, 60, 61, 62, 63, 64, 65, 66, 67, 68, 69, 70, 71, 72, 73, 74, 75, 76, 77, 78, 79, 80, 81, 82, 83, 84, 85, 86, 87, 88, 89, 90, 91, 92, 93, 94, 95, 96, 97, 98, 99]).2.best
      = (⟨30, 30, 40, 40⟩ : Rect) := by
  rw [List.foldl_cons,
    show (sweepStep isqrt 100 100 (voidMaskGeometric c2Img))
      (List.replicate 100 0,
       (⟨0, ⟨0, 0, 0, 0⟩⟩ : SweepSt))
      26
      = (List.replicate 100 0,
       (⟨0, ⟨0, 0, 0, 0⟩⟩ : SweepSt)) from by decide!]
  exact c2chain27

theorem c2chain25 :
    (List.foldl (sweepStep isqrt 100 100 (voidMaskGeometric c2Img))
      (List.replicate 100 0,
       (⟨0, ⟨0, 0, 0, 0⟩⟩ : SweepSt))
      [25, 26, 27, 28, 29, 30, 31, 32, 33, 34, 35, 36, 37, 38, 39, 40, 41, 42, 43, 44, 45, 46, 47, 48, 49, 50, 51, 52, 53, 54, 55, 56, 57, 58, 59, 60, 61, 62, 63, 64, 65, 66, 67, 68, 69, 70, 71, 72, 73, 74, 75, 76, 77, 78, 79, 80, 81, 82, 83, 84, 85, 86, 87, 88, 89, 90, 91, 92, 93, 94, 95, 96, 97, 98, 99]).2.best
      = (⟨30, 30, 40, 40⟩ : Rect) := by
  rw [List.foldl_cons,
    show (sweepStep isqrt 100 100 (voidMaskGeometric c2Img))
      (List.replicate 100 0,
       (⟨0, ⟨0, 0, 0, 0⟩⟩ : SweepSt))
      25
      = (List.replicate 100 0,
       (⟨0, ⟨0, 0, 0, 0⟩⟩ : SweepSt)) from by decide!]
  exact c2chain26

theorem c2chain24 :
    (List.foldl (sweepStep isqrt 100 100 (voidMaskGeometric c2Img))
      (List.replicate 100 0,
       (⟨0, ⟨0, 0, 0, 0⟩⟩ : SweepSt))
      [24, 25, 26, 27, 28, 29, 30, 31, 32, 33, 34, 35, 36, 37, 38, 39, 40, 41, 42, 43, 44, 45, 46, 47, 48, 49, 50, 51, 52, 53, 54, 55, 56, 57, 58, 59, 60, 61, 62, 63, 64, 65, 66, 67, 68, 69, 70, 71, 72, 73, 74, 75, 76, 77, 78, 79, 80, 81, 82, 83, 84, 85, 86, 87, 88, 89, 90, 91, 92, 93, 94, 95, 96, 97, 98, 99]).2.best
      = (⟨30, 30, 40, 40⟩ : Rect) := by
  rw [List.foldl_cons,
    show (sweepStep isqrt 100 100 (voidMaskGeometric c2Img))
      (List.replicate 100 0,
       (⟨0, ⟨0, 0, 0, 0⟩⟩ : SweepSt))
      24
      = (List.replicate 100 0,
       (⟨0, ⟨0, 0, 0, 0⟩⟩ : SweepSt)) from by decide!]
  exact c2chain25

theorem c2chain23 :
    (List.foldl (sweepStep isqrt 100 100 (voidMaskGeometric c2Img))
      (List.replicate 100 0,
       (⟨0, ⟨0, 0, 0, 0⟩⟩ : SweepSt))
      [23, 24, 25, 26, 27, 28, 29, 30, 31, 32, 33, 34, 35, 36, 37, 38, 39, 40, 41, 42, 43, 44, 45, 46, 47, 48, 49, 50, 51, 52, 53, 54, 55, 56, 57, 58, 59, 60, 61, 62, 63, 64, 65, 66, 67, 68, 69, 70, 71, 72, 73, 74, 75, 76, 77, 78, 79, 80, 81, 82, 83, 84, 85, 86, 87, 88, 89, 90, 91, 92, 93, 94, 95, 96, 97, 98, 99]).2.best
      = (⟨30, 30, 40, 40⟩ : Rect) := by
  rw [List.foldl_cons,
    show (sweepStep isqrt 100 100 (voidMaskGeometric c2Img))
      (List.replicate 100 0,
       (⟨0, ⟨0, 0, 0, 0⟩⟩ : SweepSt))
      23
      = (List.replicate 100 0,
       (⟨0, ⟨0, 0, 0, 0⟩⟩ : SweepSt)) from by decide!]
  exact c2chain24

theorem c2chain22 :
    (List.foldl (sweepStep isqrt 100 100 (voidMaskGeometric c2Img))
      (List.replicate 100 0,
       (⟨0, ⟨0, 0, 0, 0⟩⟩ : SweepSt))
      [22, 23, 24, 25, 26, 27, 28, 29, 30, 31, 32, 33, 34, 35, 36, 37, 38, 39, 40, 41, 42, 43, 44, 45, 46, 47, 48, 49, 50, 51, 52, 53, 54, 55, 56, 57, 58, 59, 60, 61, 62, 63, 64, 65, 66, 67, 68, 69, 70, 71, 72, 73, 74, 75, 76, 77, 78, 79, 80, 81, 82, 83, 84, 85, 86, 87, 88, 89, 90, 91, 92, 93, 94, 95, 96, 97, 98, 99]).2.best
      = (⟨30, 30, 40, 40⟩ : Rect) := by
  rw [List.foldl_cons,
    show (sweepStep isqrt 100 100 (voidMaskGeometric c2Img))
      (List.replicate 100 0,
       (⟨0, ⟨0, 0, 0, 0⟩⟩ : SweepSt))
      22
      = (List.replicate 100 0,
       (⟨0, ⟨0, 0, 0, 0⟩⟩ : SweepSt)) from by decide!]
  exact c2chain23

theorem c2chain21 :
    (List.foldl (sweepStep isqrt 100 100 (voidMaskGeometric c2Img))
      (List.replicate 100 0,
       (⟨0, ⟨0, 0, 0, 0⟩⟩ : SweepSt))
      [21, 22, 23, 24, 25, 26, 27, 28, 29, 30, 31, 32, 33, 34, 35, 36, 37, 38, 39, 40, 41, 42, 43, 44, 45, 46, 47, 48, 49, 50, 51, 52, 53, 54, 55, 56, 57, 58, 59, 60, 61, 62, 63, 64, 65, 66, 67, 68, 69, 70, 71, 72, 73, 74, 75, 76, 77, 78, 79, 80, 81, 82, 83, 84, 85, 86, 87, 88, 89, 90, 91, 92, 93, 94, 95, 96, 97, 98, 99]).2.best
      = (⟨30, 30, 40, 40⟩ : Rect) := by
  rw [List.foldl_cons,
    show (sweepStep isqrt 100 100 (voidMaskGeometric c2Img))
      (List.replicate 100 0,
       (⟨0, ⟨0, 0, 0, 0⟩⟩ : SweepSt))
      21
      = (List.replicate 100 0,
       (⟨0, ⟨0, 0, 0, 0⟩⟩ : SweepSt)) from by decide!]
  exact c2chain22

theorem c2chain20 :
    (List.foldl (sweepStep isqrt 100 100 (voidMaskGeometric c2Img))
      (List.replicate 100 0,
       (⟨0, ⟨0, 0, 0, 0⟩⟩ : SweepSt))
      [20, 21, 22, 23, 24, 25, 26, 27, 28, 29, 30, 31, 32, 33, 34, 35, 36, 37, 38, 39, 40, 41, 42, 43, 44, 45, 46, 47, 48, 49, 50, 51, 52, 53, 54, 55, 56, 57, 58, 59, 60, 61, 62, 63, 64, 65, 66, 67, 68, 69, 70, 71, 72, 73, 74, 75, 76, 77, 78, 79, 80, 81, 82, 83, 84, 85, 86, 87, 88, 89, 90, 91, 92, 93, 94, 95, 96, 97, 98, 99]).2.best
      = (⟨30, 30, 40, 40⟩ : Rect) := by
  rw [List.foldl_cons,
    show (sweepStep isqrt 100 100 (voidMaskGeometric c2Img))
      (List.replicate 100 0,
       (⟨0, ⟨0, 0, 0, 0⟩⟩ : SweepSt))
      20
      = (List.replicate 100 0,
       (⟨0, ⟨0, 0, 0, 0⟩⟩ : SweepSt)) from by decide!]
  exact c2chain21

theorem c2chain19 :
    (List.foldl (sweepStep isqrt 100 100 (voidMaskGeometric c2Img))
      (List.replicate 100 0,
       (⟨0, ⟨0, 0, 0, 0⟩⟩ : SweepSt))
      [19, 20, 21, 22, 23, 24, 25, 26, 27, 28, 29, 30, 31, 32, 33, 34, 35, 36, 37, 38, 39, 40, 41, 42, 43, 44, 45, 46, 47, 48, 49, 50, 51, 52, 53, 54, 55, 56, 57, 58, 59, 60, 61, 62, 63, 64, 65, 66, 67, 68, 69, 70, 71, 72, 73, 74, 75, 76, 77, 78, 79, 80, 81, 82, 83, 84, 85, 86, 87, 88, 89, 90, 91, 92, 93, 94, 95, 96, 97, 98, 99]).2.best
      = (⟨30, 30, 40, 40⟩ : Rect) := by
  rw [List.foldl_cons,
    show (sweepStep isqrt 100 100 (voidMaskGeometric c2Img))
      (List.replicate 100 0,
       (⟨0, ⟨0, 0, 0, 0⟩⟩ : SweepSt))
      19
      = (List.replicate 100 0,
       (⟨0, ⟨0, 0, 0, 0⟩⟩ : SweepSt)) from by decide!]
  exact c2chain20

theorem c2chain18 :
    (List.foldl (sweepStep isqrt 100 100 (voidMaskGeometric c2Img))
      (List.replicate 100 0,
       (⟨0, ⟨0, 0, 0, 0⟩⟩ : SweepSt))
      [18, 19, 20, 21, 22, 23, 24, 25, 26, 27, 28, 29, 30, 31, 32, 33, 34, 35, 36, 37, 38, 39, 40, 41, 42, 43, 44, 45, 46, 47, 48, 49, 50, 51, 52, 53, 54, 55, 56, 57, 58, 59, 60, 61, 62, 63, 64, 65, 66, 67, 68, 69, 70, 71, 72, 73, 74, 75, 76, 77, 78, 79, 80, 81, 82, 83, 84, 85, 86, 87, 88, 89, 90, 91, 92, 93, 94, 95, 96, 97, 98, 99]).2.best
      = (⟨30, 30, 40, 40⟩ : Rect) := by
  rw [List.foldl_cons,
    show (sweepStep isqrt 100 100 (voidMaskGeometric c2Img))
      (List.replicate 100 0,
       (⟨0, ⟨0, 0, 0, 0⟩⟩ : SweepSt))
      18
      = (List.replicate 100 0,
       (⟨0, ⟨0, 0, 0, 0⟩⟩ : SweepSt)) from by decide!]
  exact c2chain19

theorem c2chain17 :
    (List.foldl (sweepStep isqrt 100 100 (voidMaskGeometric c2Img))
      (List.replicate 100 0,
       (⟨0, ⟨0, 0, 0, 0⟩⟩ : SweepSt))
      [17, 18, 19, 20, 21, 22, 23, 24, 25, 26, 27, 28, 29, 30, 31, 32, 33, 34, 35, 36, 37, 38, 39, 40, 41, 42, 43, 44, 45, 46, 47, 48, 49, 50, 51, 52, 53, 54, 55, 56, 57, 58, 59, 60, 61, 62, 63, 64, 65, 66, 67, 68, 69, 70, 71, 72, 73, 74, 75, 76, 77, 78, 79, 80, 81, 82, 83, 84, 85, 86, 87, 88, 89, 90, 91, 92, 93, 94, 95, 96, 97, 98, 99]).2.best
      = (⟨30, 30, 40, 40⟩ : Rect) := by
  rw [List.foldl_cons,
    show (sweepStep isqrt 100 100 (voidMaskGeometric c2Img))
      (List.replicate 100 0,
       (⟨0, ⟨0, 0, 0, 0⟩⟩ : SweepSt))
      17
      = (List.replicate 100 0,
       (⟨0, ⟨0, 0, 0, 0⟩⟩ : SweepSt)) from by decide!]
  exact c2chain18

theorem c2chain16 :
    (List.foldl (sweepStep isqrt 100 100 (voidMaskGeometric c2Img))
      (List.replicate 100 0,
       (⟨0, ⟨0, 0, 0, 0⟩⟩ : SweepSt))
      [16, 17, 18, 19, 20, 21, 22, 23, 24, 25, 26, 27, 28, 29, 30, 31, 32, 33, 34, 35, 36, 37, 38, 39, 40, 41, 42, 43, 44, 45, 46, 47, 48, 49, 50, 51, 52, 53, 54, 55, 56, 57, 58, 59, 60, 61, 62, 63, 64, 65, 66, 67, 68, 69, 70, 71, 72, 73, 74, 75, 76, 77, 78, 79, 80, 81, 82, 83, 84, 85, 86, 87, 88, 89, 90, 91, 92, 93, 94, 95, 96, 97, 98, 99]).2.best
      = (⟨30, 30, 40, 40⟩ : Rect) := by
  rw [List.foldl_cons,
    show (sweepStep isqrt 100 100 (voidMaskGeometric c2Img))
      (List.replicate 100 0,
       (⟨0, ⟨0, 0, 0, 0⟩⟩ : SweepSt))
      16
      = (List.replicate 100 0,
       (⟨0, ⟨0, 0, 0, 0⟩⟩ : SweepSt)) from by decide!]
  exact c2chain17

theorem c2chain15 :
    (List.foldl (sweepStep isqrt 100 100 (voidMaskGeometric c2Img))
      (List.replicate 100 0,
       (⟨0, ⟨0, 0, 0, 0⟩⟩ : SweepSt))
      [15, 16, 17, 18, 19, 20, 21, 22, 23, 24, 25, 26, 27, 28, 29, 30, 31, 32, 33, 34, 35, 36, 37, 38, 39, 40, 41, 42, 43, 44, 45, 46, 47, 48, 49, 50, 51, 52, 53, 54, 55, 56, 57, 58, 59, 60, 61, 62, 63, 64, 65, 66, 67, 68, 69, 70, 71, 72, 73, 74, 75, 76, 77, 78, 79, 80, 81, 82, 83, 84, 85, 86, 87, 88, 89, 90, 91, 92, 93, 94, 95, 96, 97, 98, 99]).2.best
      = (⟨30, 30, 40, 40⟩ : Rect) := by
  rw [List.foldl_cons,
    show (sweepStep isqrt 100 100 (voidMaskGeometric c2Img))
      (List.replicate 100 0,
       (⟨0, ⟨0, 0, 0, 0⟩⟩ : SweepSt))
      15
      = (List.replicate 100 0,
       (⟨0, ⟨0, 0, 0, 0⟩⟩ : SweepSt)) from by decide!]
  exact c2chain16

theorem c2chain14 :
    (List.foldl (sweepStep isqrt 100 100 (voidMaskGeometric c2Img))
      (List.replicate 100 0,
       (⟨0, ⟨0, 0, 0, 0⟩⟩ : SweepSt))
      [14, 15, 16, 17, 18, 19, 20, 21, 22, 23, 24, 25, 26, 27, 28, 29, 30, 31, 32, 33, 34, 35, 36, 37, 38, 39, 40, 41, 42, 43, 44, 45, 46, 47, 48, 49, 50, 51, 52, 53, 54, 55, 56, 57, 58, 59, 60, 61, 62, 63, 64, 65, 66, 67, 68, 69, 70, 71, 72, 73, 74, 75, 76, 77, 78, 79, 80, 81, 82, 83, 84, 85, 86, 87, 88, 89, 90, 91, 92, 93, 94, 95, 96, 97, 98, 99]).2.best
      = (⟨30, 30, 40, 40⟩ : Rect) := by
  rw [List.foldl_cons,
    show (sweepStep isqrt 100 100 (voidMaskGeometric c2Img))
      (List.replicate 100 0,
       (⟨0, ⟨0, 0, 0, 0⟩⟩ : SweepSt))
      14
      = (List.replicate 100 0,
       (⟨0, ⟨0, 0, 0, 0⟩⟩ : SweepSt)) from by decide!]
  exact c2chain15

theorem c2chain13 :
    (List.foldl (sweepStep isqrt 100 100 (voidMaskGeometric c2Img))
      (List.replicate 100 0,
       (⟨0, ⟨0, 0, 0, 0⟩⟩ : SweepSt))
      [13, 14, 15, 16, 17, 18, 19, 20, 21, 22, 23, 24, 25, 26, 27, 28, 29, 30, 31, 32, 33, 34, 35, 36, 37, 38, 39, 40, 41, 42, 43, 44, 45, 46, 47, 48, 49, 50, 51, 52, 53, 54, 55, 56, 57, 58, 59, 60, 61, 62, 63, 64, 65, 66, 67, 68, 69, 70, 71, 72, 73, 74, 75, 76, 77, 78, 79, 80, 81, 82, 83, 84, 85, 86, 87, 88, 89, 90, 91, 92, 93, 94, 95, 96, 97, 98, 99]).2.best
      = (⟨30, 30, 40, 40⟩ : Rect) := by
  rw [List.foldl_cons,
    show (sweepStep isqrt 100 100 (voidMaskGeometric c2Img))
      (List.replicate 100 0,
       (⟨0, ⟨0, 0, 0, 0⟩⟩ : SweepSt))
      13
      = (List.replicate 100 0,
       (⟨0, ⟨0, 0, 0, 0⟩⟩ : SweepSt)) from by decide!]
  exact c2chain14

theorem c2chain12 :
    (List.foldl (sweepStep isqrt 100 100 (voidMaskGeometric c2Img))
      (List.replicate 100 0,
       (⟨0, ⟨0, 0, 0, 0⟩⟩ : SweepSt))
      [12, 13, 14, 15, 16, 17, 18, 19, 20, 21, 22, 23, 24, 25, 26, 27, 28, 29, 30, 31, 32, 33, 34, 35, 36, 37, 38, 39, 40, 41, 42, 43, 44, 45, 46, 47, 48, 49, 50, 51, 52, 53, 54, 55, 56, 57, 58, 59, 60, 61, 62, 63, 64, 65, 66, 67, 68, 69, 70, 71, 72, 73, 74, 75, 76, 77, 78, 79, 80, 81, 82, 83, 84, 85, 86, 87, 88, 89, 90, 91, 92, 93, 94, 95, 96, 97, 98, 99]).2.best
      = (⟨30, 30, 40, 40⟩ : Rect) := by
  rw [List.foldl_cons,
    show (sweepStep isqrt 100 100 (voidMaskGeometric c2Img))
      (List.replicate 100 0,
       (⟨0, ⟨0, 0, 0, 0⟩⟩ : SweepSt))
      12
      = (List.replicate 100 0,
       (⟨0, ⟨0, 0, 0, 0⟩⟩ : SweepSt)) from by decide!]
  exact c2chain13

theorem c2chain11 :
    (List.foldl (sweepStep isqrt 100 100 (voidMaskGeometric c2Img))
      (List.replicate 100 0,
       (⟨0, ⟨0, 0, 0, 0⟩⟩ : SweepSt))
      [11, 12, 13, 14, 15, 16, 17, 18, 19, 20, 21, 22, 23, 24, 25, 26, 27, 28, 29, 30, 31, 32, 33, 34, 35, 36, 37, 38, 39, 40, 41, 42, 43, 44, 45, 46, 47, 48, 49, 50, 51, 52, 53, 54, 55, 56, 57, 58, 59, 60, 61, 62, 63, 64, 65, 66, 67, 68, 69, 70, 71, 72, 73, 74, 75, 76, 77, 78, 79, 80, 81, 82, 83, 84, 85, 86, 87, 88, 89, 90, 91, 92, 93, 94, 95, 96, 97, 98, 99]).2.best
      = (⟨30, 30, 40, 40⟩ : Rect) := by
  rw [List.foldl_cons,
    show (sweepStep isqrt 100 100 (voidMaskGeometric c2Img))
      (List.replicate 100 0,
       (⟨0, ⟨0, 0, 0, 0⟩⟩ : SweepSt))
      11
      = (List.replicate 100 0,
       (⟨0, ⟨0, 0, 0, 0⟩⟩ : SweepSt)) from by decide!]
  exact c2chain12

theorem c2chain10 :
    (List.foldl (sweepStep isqrt 100 100 (voidMaskGeometric c2Img))
      (List.replicate 100 0,
       (⟨0, ⟨0, 0, 0, 0⟩⟩ : SweepSt))
      [10, 11, 12, 13, 14, 15, 16, 17, 18, 19, 20, 21, 22, 23, 24, 25, 26, 27, 28, 29, 30, 31, 32, 33, 34, 35, 36, 37, 38, 39, 40, 41, 42, 43, 44, 45, 46, 47, 48, 49, 50, 51, 52, 53, 54, 55, 56, 57, 58, 59, 60, 61, 62, 63, 64, 65, 66, 67, 68, 69, 70, 71, 72, 73, 74, 75, 76, 77, 78, 79, 80, 81, 82, 83, 84, 85, 86, 87, 88, 89, 90, 91, 92, 93, 94, 95, 96, 97, 98, 99]).2.best
      = (⟨30, 30, 40, 40⟩ : Rect) := by
  rw [List.foldl_cons,
    show (sweepStep isqrt 100 100 (voidMaskGeometric c2Img))
      (List.replicate 100 0,
       (⟨0, ⟨0, 0, 0, 0⟩⟩ : SweepSt))
      10
      = (List.replicate 100 0,
       (⟨0, ⟨0, 0, 0, 0⟩⟩ : SweepSt)) from by decide!]
  exact c2chain11

theorem c2chain9 :
    (List.foldl (sweepStep isqrt 100 100 (voidMaskGeometric c2Img))
      (List.replicate 100 0,
       (⟨0, ⟨0, 0, 0, 0⟩⟩ : SweepSt))
      [9, 10, 11, 12, 13, 14, 15, 16, 17, 18, 19, 20, 21, 22, 23, 24, 25, 26, 27, 28, 29, 30, 31, 32, 33, 34, 35, 36, 37, 38, 39, 40, 41, 42, 43, 44, 45, 46, 47, 48, 49, 50, 51, 52, 53, 54, 55, 56, 57, 58, 59, 60, 61, 62, 63, 64, 65, 66, 67, 68, 69, 70, 71, 72, 73, 74, 75, 76, 77, 78, 79, 80, 81, 82, 83, 84, 85, 86, 87, 88, 89, 90, 91, 92, 93, 94, 95, 96, 97, 98, 99]).2.best
      = (⟨30, 30, 40, 40⟩ : Rect) := by
  rw [List.foldl_cons,
    show (sweepStep isqrt 100 100 (voidMaskGeometric c2Img))
      (List.replicate 100 0,
       (⟨0, ⟨0, 0, 0, 0⟩⟩ : SweepSt))
      9
      = (List.replicate 100 0,
       (⟨0, ⟨0, 0, 0, 0⟩⟩ : SweepSt)) from by decide!]
  exact c2chain10

theorem c2chain8 :
    (List.foldl (sweepStep isqrt 100 100 (voidMaskGeometric c2Img))
      (List.replicate 100 0,
       (⟨0, ⟨0, 0, 0, 0⟩⟩ : SweepSt))
      [8, 9, 10, 11, 12, 13, 14, 15, 16, 17, 18, 19, 20, 21, 22, 23, 24, 25, 26, 27, 28, 29, 30, 31, 32, 33, 34, 35, 36, 37, 38, 39, 40, 41, 42, 43, 44, 45, 46, 47, 48, 49, 50, 51, 52, 53, 54, 55, 56, 57, 58, 59, 60, 61, 62, 63, 64, 65, 66, 67, 68, 69, 70, 71, 72, 73, 74, 75, 76, 77, 78, 79, 80, 81, 82, 83, 84, 85, 86, 87, 88, 89, 90, 91, 92, 93, 94, 95, 96, 97, 98, 99]).2.best
      = (⟨30, 30, 40, 40⟩ : Rect) := by
  rw [List.foldl_cons,
    show (sweepStep isqrt 100 100 (voidMaskGeometric c2Img))
      (List.replicate 100 0,
       (⟨0, ⟨0, 0, 0, 0⟩⟩ : SweepSt))
      8
      = (List.replicate 100 0,
       (⟨0, ⟨0, 0, 0, 0⟩⟩ : SweepSt)) from by decide!]
  exact c2chain9

theorem c2chain7 :
    (List.foldl (sweepStep isqrt 100 100 (voidMaskGeometric c2Img))
      (List.replicate 100 0,
       (⟨0, ⟨0, 0, 0, 0⟩⟩ : SweepSt))
      [7, 8, 9, 10, 11, 12, 13, 14, 15, 16, 17, 18, 19, 20, 21, 22, 23, 24, 25, 26, 27, 28, 29, 30, 31, 32, 33, 34, 35, 36, 37, 38, 39, 40, 41, 42, 43, 44, 45, 46, 47, 48, 49, 50, 51, 52, 53, 54, 55, 56, 57, 58, 59, 60, 61, 62, 63, 64, 65, 66, 67, 68, 69, 70, 71, 72, 73, 74, 75, 76, 77, 78, 79, 80, 81, 82, 83, 84, 85, 86, 87, 88, 89, 90, 91, 92, 93, 94, 95, 96, 97, 98, 99]).2.best
      = (⟨30, 30, 40, 40⟩ : Rect) := by
  rw [List.foldl_cons,
    show (sweepStep isqrt 100 100 (voidMaskGeometric c2Img))
      (List.replicate 100 0,
       (⟨0, ⟨0, 0, 0, 0⟩⟩ : SweepSt))
      7
      = (List.replicate 100 0,
       (⟨0, ⟨0, 0, 0, 0⟩⟩ : SweepSt)) from by decide!]
  exact c2chain8

theorem c2chain6 :
    (List.foldl (sweepStep isqrt 100 100 (voidMaskGeometric c2Img))
      (List.replicate 100 0,
       (⟨0, ⟨0, 0, 0, 0⟩⟩ : SweepSt))
      [6, 7, 8, 9, 10, 11, 12, 13, 14, 15, 16, 17, 18, 19, 20, 21, 22, 23, 24, 25, 26, 27, 28, 29, 30, 31, 32, 33, 34, 35, 36, 37, 38, 39, 40, 41, 42, 43, 44, 45, 46, 47, 48, 49, 50, 51, 52, 53, 54, 55, 56, 57, 58, 59, 60, 61, 62, 63, 64, 65, 66, 67, 68, 69, 70, 71, 72, 73, 74, 75, 76, 77, 78, 79, 80, 81, 82, 83, 84, 85, 86, 87, 88, 89, 90, 91, 92, 93, 94, 95, 96, 97, 98, 99]).2.best
      = (⟨30, 30, 40, 40⟩ : Rect) := by
  rw [List.foldl_cons,
    show (sweepStep isqrt 100 100 (voidMaskGeometric c2Img))
      (List.replicate 100 0,
       (⟨0, ⟨0, 0, 0, 0⟩⟩ : SweepSt))
      6
      = (List.replicate 100 0,
       (⟨0, ⟨0, 0, 0, 0⟩⟩ : SweepSt)) from by decide!]
  exact c2chain7

theorem c2chain5 :
    (List.foldl (sweepStep isqrt 100 100 (voidMaskGeometric c2Img))
      (List.replicate 100 0,
       (⟨0, ⟨0, 0, 0, 0⟩⟩ : SweepSt))
      [5, 6, 7, 8, 9, 10, 11, 12, 13, 14, 15, 16, 17, 18, 19, 20, 21, 22, 23, 24, 25, 26, 27, 28, 29, 30, 31, 32, 33, 34, 35, 36, 37, 38, 39, 40, 41, 42, 43, 44, 45, 46, 47, 48, 49, 50, 51, 52, 53, 54, 55, 56, 57, 58, 59, 60, 61, 62, 63, 64, 65, 66, 67, 68, 69, 70, 71, 72, 73, 74, 75, 76, 77, 78, 79, 80, 81, 82, 83, 84, 85, 86, 87, 88, 89, 90, 91, 92, 93, 94, 95, 96, 97, 98, 99]).2.best
      = (⟨30, 30, 40, 40⟩ : Rect) := by
  rw [List.foldl_cons,
    show (sweepStep isqrt 100 100 (voidMaskGeometric c2Img))
      (List.replicate 100 0,
       (⟨0, ⟨0, 0, 0, 0⟩⟩ : SweepSt))
      5
      = (List.replicate 100 0,
       (⟨0, ⟨0, 0, 0, 0⟩⟩ : SweepSt)) from by decide!]
  exact c2chain6

theorem c2chain4 :
    (List.foldl (sweepStep isqrt 100 100 (voidMaskGeometric c2Img))
      (List.replicate 100 0,
       (⟨0, ⟨0, 0, 0, 0⟩⟩ : SweepSt))
      [4, 5, 6, 7, 8, 9, 10, 11, 12, 13, 14, 15, 16, 17, 18, 19, 20, 21, 22, 23, 24, 25, 26, 27, 28, 29, 30, 31, 32, 33, 34, 35, 36, 37, 38, 39, 40, 41, 42, 43, 44, 45, 46, 47, 48, 49, 50, 51, 52, 53, 54, 55, 56, 57, 58, 59, 60, 61, 62, 63, 64, 65, 66, 67, 68, 69, 70, 71, 72, 73, 74, 75, 76, 77, 78, 79, 80, 81, 82, 83, 84, 85, 86, 87, 88, 89, 90, 91, 92, 93, 94, 95, 96, 97, 98, 99]).2.best
      = (⟨30, 30, 40, 40⟩ : Rect) := by
  rw [List.foldl_cons,
    show (sweepStep isqrt 100 100 (voidMaskGeometric c2Img))
      (List.replicate 100 0,
       (⟨0, ⟨0, 0, 0, 0⟩⟩ : SweepSt))
      4
      = (List.replicate 100 0,
       (⟨0, ⟨0, 0, 0, 0⟩⟩ : SweepSt)) from by decide!]
  exact c2chain5

theorem c2chain3 :
    (List.foldl (sweepStep isqrt 100 100 (voidMaskGeometric c2Img))
      (List.replicate 100 0,
       (⟨0, ⟨0, 0, 0, 0⟩⟩ : SweepSt))
      [3, 4, 5, 6, 7, 8, 9, 10, 11, 12, 13, 14, 15, 16, 17, 18, 19, 20, 21, 22, 23, 24, 25, 26, 27, 28, 29, 30, 31, 32, 33, 34, 35, 36, 37, 38, 39, 40, 41, 42, 43, 44, 45, 46, 47, 48, 49, 50, 51, 52, 53, 54, 55, 56, 57, 58, 59, 60, 61, 62, 63, 64, 65, 66, 67, 68, 69, 70, 71, 72, 73, 74, 75, 76, 77, 78, 79, 80, 81, 82, 83, 84, 85, 86, 87, 88, 89, 90, 91, 92, 93, 94, 95, 96, 97, 98, 99]).2.best
      = (⟨30, 30, 40, 40⟩ : Rect) := by
  rw [List.foldl_cons,
    show (sweepStep isqrt 100 100 (voidMaskGeometric c2Img))
      (List.replicate 100 0,
       (⟨0, ⟨0, 0, 0, 0⟩⟩ : SweepSt))
      3
      = (List.replicate 100 0,
       (⟨0, ⟨0, 0, 0, 0⟩⟩ : SweepSt)) from by decide!]
  exact c2chain4

theorem c2chain2 :
    (List.foldl (sweepStep isqrt 100 100 (voidMaskGeometric c2Img))
      (List.replicate 100 0,
       (⟨0, ⟨0, 0, 0, 0⟩⟩ : SweepSt))
      [2, 3, 4, 5, 6, 7, 8, 9, 10, 11, 12, 13, 14, 15, 16, 17, 18, 19, 20, 21, 22, 23, 24, 25, 26, 27, 28, 29, 30, 31, 32, 33, 34, 35, 36, 37, 38, 39, 40, 41, 42, 43, 44, 45, 46, 47, 48, 49, 50, 51, 52, 53, 54, 55, 56, 57, 58, 59, 60, 61, 62, 63, 64, 65, 66, 67, 68, 69, 70, 71, 72, 73, 74, 75, 76, 77, 78, 79, 80, 81, 82, 83, 84, 85, 86, 87, 88, 89, 90, 91, 92, 93, 94, 95, 96, 97, 98, 99]).2.best
      = (⟨30, 30, 40, 40⟩ : Rect) := by
  rw [List.foldl_cons,
    show (sweepStep isqrt 100 100 (voidMaskGeometric c2Img))
      (List.replicate 100 0,
       (⟨0, ⟨0, 0, 0, 0⟩⟩ : SweepSt))
      2
      = (List.replicate 100 0,
       (⟨0, ⟨0, 0, 0, 0⟩⟩ : SweepSt)) from by decide!]
  exact c2chain3

theorem c2chain1 :
    (List.foldl (sweepStep isqrt 100 100 (voidMaskGeometric c2Img))
      (List.replicate 100 0,
       (⟨0, ⟨0, 0, 0, 0⟩⟩ : SweepSt))
      [1, 2, 3, 4, 5, 6, 7, 8, 9, 10, 11, 12, 13, 14, 15, 16, 17, 18, 19, 20, 21, 22, 23, 24, 25, 26, 27, 28, 29, 30, 31, 32, 33, 34, 35, 36, 37, 38, 39, 40, 41, 42, 43, 44, 45, 46, 47, 48, 49, 50, 51, 52, 53, 54, 55, 56, 57, 58, 59, 60, 61, 62, 63, 64, 65, 66, 67, 68, 69, 70, 71, 72, 73, 74, 75, 76, 77, 78, 79, 80, 81, 82, 83, 84, 85, 86, 87, 88, 89, 90, 91, 92, 93, 94, 95, 96, 97, 98, 99]).2.best
      = (⟨30, 30, 40, 40⟩ : Rect) := by
  rw [List.foldl_cons,
    show (sweepStep isqrt 100 100 (voidMaskGeometric c2Img))
      (List.replicate 100 0,
       (⟨0, ⟨0, 0, 0, 0⟩⟩ : SweepSt))
      1
      = (List.replicate 100 0,
       (⟨0, ⟨0, 0, 0, 0⟩⟩ : SweepSt)) from by decide!]
  exact c2chain2

theorem c2chain0 :
    (List.foldl (sweepStep isqrt 100 100 (voidMaskGeometric c2Img))
      (List.replicate 100 0,
       (⟨0, ⟨0, 0, 0, 0⟩⟩ : SweepSt))
      [0, 1, 2, 3, 4, 5, 6, 7, 8, 9, 10, 11, 12, 13, 14, 15, 16, 17, 18, 19, 20, 21, 22, 23, 24, 25, 26, 27, 28, 29, 30, 31, 32, 33, 34, 35, 36, 37, 38, 39, 40, 41, 42, 43, 44, 45, 46, 47, 48, 49, 50, 51, 52, 53, 54, 55, 56, 57, 58, 59, 60, 61, 62, 63, 64, 65, 66, 67, 68, 69, 70, 71, 72, 73, 74, 75, 76, 77, 78, 79, 80, 81, 82, 83, 84, 85, 86, 87, 88, 89, 90, 91, 92, 93, 94, 95, 96, 97, 98, 99]).2.best
      = (⟨30, 30, 40, 40⟩ : Rect) := by
  rw [List.foldl_cons,
    show (sweepStep isqrt 100 100 (voidMaskGeometric c2Img))
      (List.replicate 100 0,
       (⟨0, ⟨0, 0, 0, 0⟩⟩ : SweepSt))
      0
      = (List.replicate 100 0,
       (⟨0, ⟨0, 0, 0, 0⟩⟩ : SweepSt)) from by decide!]
  exact c2chain1

/-- C2: with zero safety margin and no bounds restriction, on the 100×100
image whose only voids are the bottom 100×20 strip (area 2000) and the
centred 40×40 box (area 1600), `find_largest_inscribed_rectangle` returns
the centred box: its score 1600·weight(0) = 1600 beats every rectangle of
the peripheral strip (the strip's best is well below, ≈ 894).  The float
`** 0.5` is instantiated with `isqrt` through the exact integer scaling of
`candScore`. -/
theorem C2_centerBiasSelectsCenteredBox :
    findLargestInscribedRectangle isqrt noErode noMorph c2Img 0 "geometric" none
      = ⟨30, 30, 40, 40⟩ := by
  rw [findLIR_geometric_noBounds]
  rw [show c2Img.w = 100 from rfl, show c2Img.h = 100 from rfl]
  rw [show List.range 100 = [0, 1, 2, 3, 4, 5, 6, 7, 8, 9, 10, 11, 12, 13, 14, 15, 16, 17, 18, 19, 20, 21, 22, 23, 24, 25, 26, 27, 28, 29, 30, 31, 32, 33, 34, 35, 36, 37, 38, 39, 40, 41, 42, 43, 44, 45, 46, 47, 48, 49, 50, 51, 52, 53, 54, 55, 56, 57, 58, 59, 60, 61, 62, 63, 64, 65, 66, 67, 68, 69, 70, 71, 72, 73, 74, 75, 76, 77, 78, 79, 80, 81, 82, 83, 84, 85, 86, 87, 88, 89, 90, 91, 92, 93, 94, 95, 96, 97, 98, 99] from by decide!]
  exact c2chain0

/-! ### Claim C4: the LIR on fully transparent and fully opaque images

Proved symbolically for every width `W > 0` and height `H > 0`, and for
every square-root model `s` with `s 0 = 0` (which `isqrt` and the IEEE
`sqrt` both satisfy): on constant rows the monotonic stack never pops, so
every row flushes the candidates `(j, n)` for `j < W` in column order, and
the full-image rectangle — processed first in the last row's flush, sitting
exactly at the image centre, hence with weight 1 — strictly beats every
earlier candidate by area alone. -/

/-- A fully transparent `W × H` image (every alpha 0). -/
def transparentImg (W H : ℕ) : AlphaImg := ⟨H, W, fun _ _ => 0⟩

/-- A fully opaque `W × H` image (every alpha 255). -/
def opaqueImg (W H : ℕ) : AlphaImg := ⟨H, W, fun _ _ => 255⟩

/-- Scores never exceed `area · 10·W·H` (the scaled weight is at most
`10·W·H`, i.e. the real weight is at most 1). -/
theorem candScore_le (s : ℕ → ℕ) (W H row idx hv cur : ℕ) :
    candScore s W H row idx hv cur ≤ (cur - idx) * hv * (10 * W * H) := by
  unfold candScore
  refine Nat.mul_le_mul (le_refl _) (max_le ?_ (Nat.sub_le _ _))
  exact Nat.mul_le_mul (Nat.mul_le_mul (by omega) (le_refl W)) (le_refl H)

/-- A zero-height candidate scores zero. -/
theorem candScore_hv_zero (s : ℕ → ℕ) (W H row idx cur : ℕ) :
    candScore s W H row idx 0 cur = 0 := by
  unfold candScore
  simp

/-- `process_rect` leaves the state alone when the candidate does not beat
the running maximum. -/
theorem processRect_of_le {s : ℕ → ℕ} {W H row : ℕ} {st : SweepSt} {idx hv cur : ℕ}
    (h : candScore s W H row idx hv cur ≤ st.maxScore) :
    processRect s W H row st idx hv cur = st := by
  unfold processRect
  rw [if_neg (Nat.not_lt.mpr h)]

/-- `process_rect` records a candidate that strictly beats the running
maximum. -/
theorem processRect_of_lt {s : ℕ → ℕ} {W H row : ℕ} {st : SweepSt} {idx hv cur : ℕ}
    (h : st.maxScore < candScore s W H row idx hv cur) :
    processRect s W H row st idx hv cur
      = ⟨candScore s W H row idx hv cur, candRect row idx hv cur⟩ := by
  unfold processRect
  rw [if_pos h]

/-- `process_rect` keeps the running maximum below any bound dominating both
the old maximum and the candidate score. -/
theorem processRect_maxScore_le {s : ℕ → ℕ} {W H row : ℕ} {st : SweepSt} {idx hv cur B : ℕ}
    (h1 : st.maxScore ≤ B) (h2 : candScore s W H row idx hv cur ≤ B) :
    (processRect s W H row st idx hv cur).maxScore ≤ B := by
  unfold processRect
  split
  · exact h2
  · exact h1

/-- A flush fold over candidates that never beat the maximum is a no-op. -/
theorem flushFold_of_le (s : ℕ → ℕ) (W H row : ℕ) :
    ∀ (l : List (ℕ × ℕ)) (st : SweepSt),
      (∀ p ∈ l, candScore s W H row p.1 p.2 W ≤ st.maxScore) →
      List.foldl (fun acc p => processRect s W H row acc p.1 p.2 W) st l = st := by
  intro l
  induction l with
  | nil => intro st _; rfl
  | cons p rest ih =>
    intro st h
    rw [List.foldl_cons, processRect_of_le (h p (List.mem_cons_self p rest))]
    exact ih st (fun q hq => h q (List.mem_cons_of_mem p hq))

/-- A flush fold keeps the running maximum below any bound dominating the
initial maximum and every candidate score. -/
theorem flushFold_maxScore_le (s : ℕ → ℕ) (W H row : ℕ) :
    ∀ (l : List (ℕ × ℕ)) (st : SweepSt) (B : ℕ),
      st.maxScore ≤ B →
      (∀ p ∈ l, candScore s W H row p.1 p.2 W ≤ B) →
      (List.foldl (fun acc p => processRect s W H row acc p.1 p.2 W) st l).maxScore ≤ B := by
  intro l
  induction l with
  | nil => intro st B h1 _; exact h1
  | cons p rest ih =>
    intro st B h1 h2
    rw [List.foldl_cons]
    exact ih _ B (processRect_maxScore_le h1 (h2 p (List.mem_cons_self p rest)))
      (fun q hq => h2 q (List.mem_cons_of_mem p hq))

/-- On a stack whose entries all carry height `n`, a pop loop with
`current_h = n` pops nothing. -/
theorem popLoop_const (s : ℕ → ℕ) (W H row i n : ℕ) :
    ∀ (stack : List (ℕ × ℕ)) (st : SweepSt) (si : ℕ),
      (∀ p ∈ stack, p.2 = n) →
      popLoop s W H row i n stack st si = (si, stack, st) := by
  intro stack st si h
  cases stack with
  | nil => rfl
  | cons p rest =>
    obtain ⟨idx, hv⟩ := p
    have : hv = n := h (idx, hv) (List.mem_cons_self _ _)
    subst this
    unfold popLoop
    rw [if_neg (lt_irrefl hv)]

/-- Building the stack over a constant-height histogram pushes `(i, n)` for
each column in order and never calls `process_rect`. -/
theorem histLoop_const (s : ℕ → ℕ) (W H row n : ℕ) :
    ∀ (k i : ℕ) (stack : List (ℕ × ℕ)) (st : SweepSt),
      (∀ p ∈ stack, p.2 = n) →
      histLoop s W H row (List.replicate k n) i stack st
        = ((List.range' i k).reverse.map (fun j => (j, n)) ++ stack, st) := by
  intro k
  induction k with
  | zero => intro i stack st _; rfl
  | succ k ih =>
    intro i stack st h
    rw [List.replicate_succ]
    show histLoop s W H row (n :: List.replicate k n) i stack st = _
    unfold histLoop
    rw [popLoop_const s W H row i n stack st i h]
    dsimp only
    rw [ih (i + 1) ((i, n) :: stack) st
      (fun p hp => by
        rcases List.mem_cons.mp hp with h1 | h2
        · rw [h1]
        · exact h p h2)]
    rw [List.range'_succ, List.reverse_cons, List.map_append, List.append_assoc]
    rfl

/-- A row pass over constant heights `n` folds `process_rect` over the
flush candidates `(0, n), (1, n), …, (W-1, n)` in column order. -/
theorem rowPass_const (s : ℕ → ℕ) (W H row n : ℕ) (st : SweepSt) :
    rowPass s W H row (List.replicate W n) st
      = List.foldl (fun acc p => processRect s W H row acc p.1 p.2 W) st
          ((List.range W).map (fun j => (j, n))) := by
  unfold rowPass
  rw [histLoop_const s W H row n W 0 [] st (by intro p hp; cases hp)]
  dsimp only
  rw [List.append_nil, ← List.map_reverse, List.reverse_reverse, List.range_eq_range']

/-- Updating constant heights with a fully void row increments them all. -/
theorem updHeights_true (W n : ℕ) :
    updHeights (List.replicate W n) (List.replicate W true) = List.replicate W (n + 1) := by
  unfold updHeights
  rw [List.zipWith_replicate, min_self]
  simp

/-- Updating heights with a fully opaque row resets them all. -/
theorem updHeights_false (W n : ℕ) :
    updHeights (List.replicate W n) (List.replicate W false) = List.replicate W 0 := by
  unfold updHeights
  rw [List.zipWith_replicate, min_self]
  simp

/-- The void mask row of the fully transparent image is all-void. -/
theorem voidMask_transparent (W H row : ℕ) :
    (List.range W).map (voidMaskGeometric (transparentImg W H) row) = List.replicate W true := by
  have h : voidMaskGeometric (transparentImg W H) row = fun _ => true := by
    funext c
    rfl
  rw [h, List.map_const', List.length_range]

/-- The void mask row of the fully opaque image is empty. -/
theorem voidMask_opaqueImg (W H row : ℕ) :
    (List.range W).map (voidMaskGeometric (opaqueImg W H) row) = List.replicate W false := by
  have h : voidMaskGeometric (opaqueImg W H) row = fun _ => false := by
    funext c
    rfl
  rw [h, List.map_const', List.length_range]

/-- On the fully transparent image, after `r` rows the heights are all `r`
and the running maximum is at most `W·r·(10·W·H)`. -/
theorem transparent_prefix (s : ℕ → ℕ) (W H : ℕ) :
    ∀ r : ℕ, ∃ st : SweepSt,
      List.foldl (sweepStep s W H (voidMaskGeometric (transparentImg W H)))
          (List.replicate W 0, ⟨0, ⟨0, 0, 0, 0⟩⟩) (List.range r)
        = (List.replicate W r, st) ∧ st.maxScore ≤ W * r * (10 * W * H) := by
  intro r
  induction r with
  | zero => exact ⟨⟨0, ⟨0, 0, 0, 0⟩⟩, rfl, Nat.zero_le _⟩
  | succ r ih =>
    obtain ⟨st, hfold, hbound⟩ := ih
    rw [List.range_succ, List.foldl_append, hfold, List.foldl_cons, List.foldl_nil]
    refine ⟨rowPass s W H r (List.replicate W (r + 1)) st, ?_, ?_⟩
    · simp only [sweepStep]
      rw [voidMask_transparent, updHeights_true]
    · rw [rowPass_const]
      apply flushFold_maxScore_le
      · calc st.maxScore ≤ W * r * (10 * W * H) := hbound
          _ ≤ W * (r + 1) * (10 * W * H) :=
            Nat.mul_le_mul (Nat.mul_le_mul (le_refl W) (Nat.le_succ r)) (le_refl _)
      · intro p hp
        obtain ⟨j, hj, hpj⟩ := List.mem_map.mp hp
        subst hpj
        calc candScore s W H r j (r + 1) W ≤ (W - j) * (r + 1) * (10 * W * H) :=
            candScore_le s W H r j (r + 1) W
          _ ≤ W * (r + 1) * (10 * W * H) :=
            Nat.mul_le_mul (Nat.mul_le_mul (Nat.sub_le W j) (le_refl _)) (le_refl _)

/-- The full-image candidate of the last row sits exactly at the image
centre; with `s 0 = 0` its scaled score is `W·H·(10·W·H)` (real weight 1). -/
theorem candScore_full (s : ℕ → ℕ) (W Hp : ℕ) (hs0 : s 0 = 0) :
    candScore s W (Hp + 1) Hp 0 (Hp + 1) W = W * (Hp + 1) * (10 * W * (Hp + 1)) := by
  simp only [candScore]
  have hdx : 2 * ((0 : ℕ) : ℤ) + ((W - 0 : ℕ) : ℤ) - (W : ℤ) = 0 := by
    rw [Nat.sub_zero]
    omega
  have hdy : 2 * ((Hp : ℕ) : ℤ) - ((Hp + 1 : ℕ) : ℤ) + 2 - ((Hp + 1 : ℕ) : ℤ) = 0 := by
    push_cast
    ring
  rw [hdx, hdy]
  simp only [zero_mul, mul_zero, add_zero, Int.toNat_zero, hs0, Nat.mul_zero, Nat.sub_zero]
  rw [max_eq_right (Nat.mul_le_mul (Nat.mul_le_mul (by omega) (le_refl W))
    (le_refl (Hp + 1)))]

/-- The rectangle recorded for the full-image candidate is `{0, 0, W, H}`. -/
theorem candRect_full (W Hp : ℕ) :
    candRect Hp 0 (Hp + 1) W = ⟨0, 0, (W : ℤ), ((Hp + 1 : ℕ) : ℤ)⟩ := by
  unfold candRect
  have hy : ((Hp : ℕ) : ℤ) - ((Hp + 1 : ℕ) : ℤ) + 1 = 0 := by push_cast; ring
  rw [hy, Nat.sub_zero]
  simp

/-- On the fully opaque image the state never changes: heights stay zero and
every candidate has zero area. -/
theorem opaqueRowsInvariant (s : ℕ → ℕ) (W H : ℕ) :
    ∀ r : ℕ,
      List.foldl (sweepStep s W H (voidMaskGeometric (opaqueImg W H)))
          (List.replicate W 0, ⟨0, ⟨0, 0, 0, 0⟩⟩) (List.range r)
        = (List.replicate W 0, ⟨0, ⟨0, 0, 0, 0⟩⟩) := by
  intro r
  induction r with
  | zero => rfl
  | succ r ih =>
    rw [List.range_succ, List.foldl_append, ih, List.foldl_cons, List.foldl_nil]
    simp only [sweepStep]
    rw [voidMask_opaqueImg, updHeights_false, rowPass_const]
    rw [flushFold_of_le s W H r _ _ (fun p hp => by
      obtain ⟨j, hj, hpj⟩ := List.mem_map.mp hp
      subst hpj
      simp [candScore_hv_zero])]

/-- C4: with `safety_margin_ratio = 0` and no bounds restriction, for every
`W > 0`, `H > 0` and every square-root model with `s 0 = 0` (true of `isqrt`
and of the IEEE-754 square root), `find_largest_inscribed_rectangle`
returns the full-image rectangle `{x:0, y:0, width:W, height:H}` on the
fully transparent `W×H` image, and the zero-area rectangle `{0,0,0,0}` on
the fully opaque one. -/
theorem C4_fullVoid_and_fullOpaque (s : ℕ → ℕ) (er : Mask → ℕ → Mask) (mm : AlphaImg → Mask)
    (W H : ℕ) (hW : 0 < W) (hH : 0 < H) (hs0 : s 0 = 0) :
    findLargestInscribedRectangle s er mm (transparentImg W H) 0 "geometric" none
      = ⟨0, 0, (W : ℤ), (H : ℤ)⟩ ∧
    findLargestInscribedRectangle s er mm (opaqueImg W H) 0 "geometric" none
      = ⟨0, 0, 0, 0⟩ := by
  constructor
  · rw [findLIR_geometric_noBounds]
    rw [show (transparentImg W H).h = H from rfl, show (transparentImg W H).w = W from rfl]
    obtain ⟨Hp, rfl⟩ : ∃ Hp, H = Hp + 1 := ⟨H - 1, by omega⟩
    rw [List.range_succ, List.foldl_append]
    obtain ⟨st, hfold, hbound⟩ := transparent_prefix s W (Hp + 1) Hp
    rw [hfold, List.foldl_cons, List.foldl_nil]
    simp only [sweepStep]
    rw [voidMask_transparent, updHeights_true, rowPass_const]
    obtain ⟨Wp, rfl⟩ : ∃ Wp, W = Wp + 1 := ⟨W - 1, by omega⟩
    rw [List.range_eq_range', List.range'_succ, List.map_cons, List.foldl_cons]
    have hlt : st.maxScore < candScore s (Wp + 1) (Hp + 1) Hp 0 (Hp + 1) (Wp + 1) := by
      rw [candScore_full s (Wp + 1) Hp hs0]
      calc st.maxScore ≤ (Wp + 1) * Hp * (10 * (Wp + 1) * (Hp + 1)) := hbound
        _ < (Wp + 1) * (Hp + 1) * (10 * (Wp + 1) * (Hp + 1)) := by
          apply mul_lt_mul_of_pos_right _ (by positivity)
          exact mul_lt_mul_of_pos_left (Nat.lt_succ_self Hp) (by positivity)
    dsimp only
    rw [processRect_of_lt hlt, candScore_full s (Wp + 1) Hp hs0, candRect_full (Wp + 1) Hp]
    rw [flushFold_of_le s (Wp + 1) (Hp + 1) Hp _ _ (fun p hp => by
      obtain ⟨j, hj, hpj⟩ := List.mem_map.mp hp
      subst hpj
      calc candScore s (Wp + 1) (Hp + 1) Hp j (Hp + 1) (Wp + 1)
          ≤ (Wp + 1 - j) * (Hp + 1) * (10 * (Wp + 1) * (Hp + 1)) := candScore_le _ _ _ _ _ _ _
        _ ≤ (Wp + 1) * (Hp + 1) * (10 * (Wp + 1) * (Hp + 1)) :=
            Nat.mul_le_mul (Nat.mul_le_mul (Nat.sub_le _ _) (le_refl _)) (le_refl _))]
  · rw [findLIR_geometric_noBounds]
    rw [show (opaqueImg W H).h = H from rfl, show (opaqueImg W H).w = W from rfl]
    rw [opaqueRowsInvariant s W H H]

/-- Witness for C4 at `W = 3`, `H = 2`, with the concrete `isqrt` model. -/
theorem C4_witness :
    findLargestInscribedRectangle isqrt noErode noMorph (transparentImg 3 2) 0 "geometric" none
      = ⟨0, 0, 3, 2⟩ ∧
    findLargestInscribedRectangle isqrt noErode noMorph (opaqueImg 3 2) 0 "geometric" none
      = ⟨0, 0, 0, 0⟩ :=
  C4_fullVoid_and_fullOpaque isqrt noErode noMorph 3 2 (by decide) (by decide) (by decide)

/-! ### Content-zone scanning
(`ImageAnalysisCore.detect_content_zones`, `_scan_edge_inward` and
`get_layout_strategy`, src/engine/core/image_analysis_core.py lines 56-182).

The returned dictionary's percentage fields (`inset_*_pct`,
`usable_*_pct`, rounded to one decimal) and the constant
`coordinate_system` descriptor are not carried in the record below; no
claim under verification mentions them.  The internal `content_width`,
`content_height` locals (which can be negative, Python ints) are exposed
as `contentWidthOf`/`contentHeightOf`. -/

/-- `content_mask = alpha > 10`. -/
def contentMask (img : AlphaImg) : Mask := fun r c => decide (10 < img.a r c)

/-- `_scan_edge_inward`: walk rows/columns inward from `edge` until one
contains a content pixel, returning the distance from the edge; the full
dimension when none does; `0` for an unrecognised edge (the trailing
`return 0`). -/
def scanEdgeInward (h w : ℕ) (mask : Mask) (edge : String) : ℕ :=
  if edge == "top" then
    ((List.range h).find? (fun r => (List.range w).any (fun c => mask r c))).getD h
  else if edge == "bottom" then
    ((List.range h).find? (fun i => (List.range w).any (fun c => mask (h - 1 - i) c))).getD h
  else if edge == "left" then
    ((List.range w).find? (fun c => (List.range h).any (fun r => mask r c))).getD w
  else if edge == "right" then
    ((List.range w).find? (fun i => (List.range h).any (fun r => mask r (w - 1 - i)))).getD w
  else 0

/-- Branch reductions of `scanEdgeInward` (the string dispatch computes). -/
theorem scanEdgeInward_top (h w : ℕ) (mask : Mask) :
    scanEdgeInward h w mask "top"
      = ((List.range h).find? (fun r => (List.range w).any (fun c => mask r c))).getD h := rfl

theorem scanEdgeInward_bottom (h w : ℕ) (mask : Mask) :
    scanEdgeInward h w mask "bottom"
      = ((List.range h).find?
          (fun i => (List.range w).any (fun c => mask (h - 1 - i) c))).getD h := rfl

theorem scanEdgeInward_left (h w : ℕ) (mask : Mask) :
    scanEdgeInward h w mask "left"
      = ((List.range w).find? (fun c => (List.range h).any (fun r => mask r c))).getD w := rfl

theorem scanEdgeInward_right (h w : ℕ) (mask : Mask) :
    scanEdgeInward h w mask "right"
      = ((List.range w).find?
          (fun i => (List.range h).any (fun r => mask r (w - 1 - i)))).getD w := rfl

/-- The `layout_hint` sub-dictionary. -/
structure LayoutHintR where
  suggested : String
  avatarAlignment : String
  textAlignment : String
deriving DecidableEq, Repr

/-- `get_layout_strategy`: suggest a layout from the content zone's aspect
ratio (Python ints, float division modelled exactly on ℚ). -/
def getLayoutStrategy (width height : ℤ) : LayoutHintR :=
  if width = 0 ∨ height = 0 then ⟨"centered", "center", "center"⟩
  else
    let aspectRatio : ℚ := (width : ℚ) / (height : ℚ)
    if 3 / 2 ≤ aspectRatio then ⟨"horizontal_row", "left", "center-left"⟩
    else if aspectRatio ≤ 4 / 5 then ⟨"vertical_column", "top", "center-bottom"⟩
    else ⟨"centered", "center", "center"⟩

/-- The inset fields and layout hint of `detect_content_zones`' result. -/
structure ContentZones where
  insetTop : ℕ
  insetRight : ℕ
  insetBottom : ℕ
  insetLeft : ℕ
  layoutHint : LayoutHintR
deriving DecidableEq, Repr

/-- `detect_content_zones`: scan the four edges; for `shape_type ==
"organic"` add the aesthetic buffer `int(h * 0.02)` to the top and bottom
insets and `int(w * 0.02)` to the left and right insets (0.02 is
`aesthetic_buffer_ratio`; the buffer is zero for every other shape type). -/
def detectContentZones (img : AlphaImg) (shapeType : String) : ContentZones :=
  let mask := contentMask img
  let bufT : ℕ := if shapeType == "organic" then Int.toNat ⌊(img.h : ℚ) * (2 / 100)⌋ else 0
  let bufL : ℕ := if shapeType == "organic" then Int.toNat ⌊(img.w : ℚ) * (2 / 100)⌋ else 0
  let insetTop := scanEdgeInward img.h img.w mask "top" + bufT
  let insetBottom := scanEdgeInward img.h img.w mask "bottom" + bufT
  let insetLeft := scanEdgeInward img.h img.w mask "left" + bufL
  let insetRight := scanEdgeInward img.h img.w mask "right" + bufL
  let contentWidth : ℤ := (img.w : ℤ) - (insetLeft + insetRight)
  let contentHeight : ℤ := (img.h : ℤ) - (insetTop + insetBottom)
  ⟨insetTop, insetRight, insetBottom, insetLeft, getLayoutStrategy contentWidth contentHeight⟩

/-- The local `content_width = w - (inset_left + inset_right)` of
`detect_content_zones` (a Python int; negative when the insets overlap). -/
def contentWidthOf (img : AlphaImg) (shapeType : String) : ℤ :=
  (img.w : ℤ) - ((detectContentZones img shapeType).insetLeft
    + (detectContentZones img shapeType).insetRight)

/-- The local `content_height = h - (inset_top + inset_bottom)`. -/
def contentHeightOf (img : AlphaImg) (shapeType : String) : ℤ :=
  (img.h : ℤ) - ((detectContentZones img shapeType).insetTop
    + (detectContentZones img shapeType).insetBottom)

/-- The 10×10 image with a single content pixel at row 5, column 5. -/
def oneDotImg : AlphaImg := ⟨10, 10, fun r c => if r = 5 ∧ c = 5 then 255 else 0⟩

/-- C7 counterexample: on a 10×10 image whose only content pixel sits at
(5,5), the top scan is 5 and the organic top inset is 5 + int(10·0.02) = 5,
whereas the claim's 10% buffer predicts 5 + int(10·0.10) = 6. -/
theorem C7_counterexample :
    (detectContentZones oneDotImg "organic").insetTop = 5 ∧
    scanEdgeInward oneDotImg.h oneDotImg.w (contentMask oneDotImg) "top"
      + Int.toNat ⌊(oneDotImg.h : ℚ) * (10 / 100)⌋ = 6 := by
  decide!

/-- C7 (amended): for organic shapes `detect_content_zones` adds
`int(0.02·h)` (two percent, not ten) of the image height to the top and
bottom insets and `int(0.02·w)` of the image width to the left and right
insets; for every other shape type the insets are exactly the edge scans
with no buffer. -/
theorem C7_organicBuffer_twoPercent (img : AlphaImg) (st : String) (hst : st ≠ "organic") :
    ((detectContentZones img "organic").insetTop
        = scanEdgeInward img.h img.w (contentMask img) "top"
          + Int.toNat ⌊(img.h : ℚ) * (2 / 100)⌋ ∧
      (detectContentZones img "organic").insetBottom
        = scanEdgeInward img.h img.w (contentMask img) "bottom"
          + Int.toNat ⌊(img.h : ℚ) * (2 / 100)⌋ ∧
      (detectContentZones img "organic").insetLeft
        = scanEdgeInward img.h img.w (contentMask img) "left"
          + Int.toNat ⌊(img.w : ℚ) * (2 / 100)⌋ ∧
      (detectContentZones img "organic").insetRight
        = scanEdgeInward img.h img.w (contentMask img) "right"
          + Int.toNat ⌊(img.w : ℚ) * (2 / 100)⌋) ∧
    ((detectContentZones img st).insetTop
        = scanEdgeInward img.h img.w (contentMask img) "top" ∧
      (detectContentZones img st).insetBottom
        = scanEdgeInward img.h img.w (contentMask img) "bottom" ∧
      (detectContentZones img st).insetLeft
        = scanEdgeInward img.h img.w (contentMask img) "left" ∧
      (detectContentZones img st).insetRight
        = scanEdgeInward img.h img.w (contentMask img) "right") := by
  have hne : (st == "organic") = false := by
    rw [beq_eq_false_iff_ne]
    exact hst
  have hbuf : ∀ b : ℕ, (if (st == "organic") = true then b else 0) = 0 := by
    intro b
    rw [hne]
    simp
  constructor
  · exact ⟨rfl, rfl, rfl, rfl⟩
  · simp only [detectContentZones, hbuf, Nat.add_zero]
    exact ⟨trivial, trivial, trivial, trivial⟩

/-- Witness for the amended C7 at the one-dot image with `st = "geometric"`. -/
theorem C7_witness :
    (detectContentZones oneDotImg "organic").insetTop
      = scanEdgeInward oneDotImg.h oneDotImg.w (contentMask oneDotImg) "top"
        + Int.toNat ⌊(oneDotImg.h : ℚ) * (2 / 100)⌋ ∧
    (detectContentZones oneDotImg "geometric").insetTop
      = scanEdgeInward oneDotImg.h oneDotImg.w (contentMask oneDotImg) "top" := by
  obtain ⟨h1, h2⟩ := C7_organicBuffer_twoPercent oneDotImg "geometric" (by decide)
  exact ⟨h1.1, h2.1⟩

/-- The fully transparent 2×2 image. -/
def blank2Img : AlphaImg := ⟨2, 2, fun _ _ => 0⟩

/-- C8 counterexample: on a fully transparent 2×2 image the four scans
return the full dimensions, which makes the internal usable content width
`2 - (2 + 2) = -2`, not zero (the emitted `usable_width_pct` is likewise
-100.0, not 0). -/
theorem C8_counterexample :
    contentWidthOf blank2Img "geometric" = -2 ∧ (-2 : ℤ) ≠ 0 := by
  decide!

/-- C8 (amended): on every image with no pixel of alpha above 10, each of
the four edge scans runs to the far edge and returns the full dimension
(`h` for top/bottom, `w` for left/right), and for any non-organic shape
type the derived usable content width and height are the strictly negative
values `-w` and `-h` — an empty usable zone, though not the literal zero
the claim states. -/
theorem C8_transparentScansFullInsets (img : AlphaImg) (st : String) (hst : st ≠ "organic")
    (halpha : ∀ r < img.h, ∀ c < img.w, img.a r c ≤ 10) :
    scanEdgeInward img.h img.w (contentMask img) "top" = img.h ∧
    scanEdgeInward img.h img.w (contentMask img) "bottom" = img.h ∧
    scanEdgeInward img.h img.w (contentMask img) "left" = img.w ∧
    scanEdgeInward img.h img.w (contentMask img) "right" = img.w ∧
    contentWidthOf img st = -(img.w : ℤ) ∧
    contentHeightOf img st = -(img.h : ℤ) := by
  have hmask : ∀ r < img.h, ∀ c < img.w, contentMask img r c = false := by
    intro r hr c hc
    simp only [contentMask, decide_eq_false_iff_not, not_lt]
    exact halpha r hr c hc
  have hrowAny : ∀ r < img.h, ((List.range img.w).any (fun c => contentMask img r c)) = false := by
    intro r hr
    rw [List.any_eq_false]
    intro c hc
    rw [hmask r hr c (List.mem_range.mp hc)]
    exact Bool.false_ne_true
  have hcolAny : ∀ c < img.w, ((List.range img.h).any (fun r => contentMask img r c)) = false := by
    intro c hc
    rw [List.any_eq_false]
    intro r hr
    rw [hmask r (List.mem_range.mp hr) c hc]
    exact Bool.false_ne_true
  have htop : scanEdgeInward img.h img.w (contentMask img) "top" = img.h := by
    rw [scanEdgeInward_top]
    rw [List.find?_eq_none.mpr (fun r hr => by
      rw [hrowAny r (List.mem_range.mp hr)]
      exact Bool.false_ne_true)]
    rfl
  have hbottom : scanEdgeInward img.h img.w (contentMask img) "bottom" = img.h := by
    rw [scanEdgeInward_bottom]
    rw [List.find?_eq_none.mpr (fun i hi => by
      have hi' := List.mem_range.mp hi
      rw [hrowAny (img.h - 1 - i) (by omega)]
      exact Bool.false_ne_true)]
    rfl
  have hleft : scanEdgeInward img.h img.w (contentMask img) "left" = img.w := by
    rw [scanEdgeInward_left]
    rw [List.find?_eq_none.mpr (fun c hc => by
      rw [hcolAny c (List.mem_range.mp hc)]
      exact Bool.false_ne_true)]
    rfl
  have hright : scanEdgeInward img.h img.w (contentMask img) "right" = img.w := by
    rw [scanEdgeInward_right]
    rw [List.find?_eq_none.mpr (fun i hi => by
      have hi' := List.mem_range.mp hi
      rw [hcolAny (img.w - 1 - i) (by omega)]
      exact Bool.false_ne_true)]
    rfl
  have hne : (st == "organic") = false := by
    rw [beq_eq_false_iff_ne]
    exact hst
  refine ⟨htop, hbottom, hleft, hright, ?_, ?_⟩
  · unfold contentWidthOf
    simp only [detectContentZones, hne, if_false]
    rw [hleft, hright]
    push_cast
    ring
  · unfold contentHeightOf
    simp only [detectContentZones, hne, if_false]
    rw [htop, hbottom]
    push_cast
    ring

/-- Witness for the amended C8 at the fully transparent 2×2 image. -/
theorem C8_witness :
    scanEdgeInward blank2Img.h blank2Img.w (contentMask blank2Img) "top" = blank2Img.h ∧
    contentWidthOf blank2Img "geometric" = -(blank2Img.w : ℤ) :=
  have h := C8_transparentScansFullInsets blank2Img "geometric" (by decide)
    (fun r _ c _ => Nat.zero_le 10)
  ⟨h.1, h.2.2.2.2.1⟩

/-! ### Claim C3: the safe-zone decision tree
(`LayoutAnalyzer.analyze_full`, src/celstate/layout_analyzer.py lines
121-156).  `void_density` comes from
`ImageAnalysisCore.calculate_void_density`, a method of the
`celstate.image_analysis_core` module that the decision tree merely
consumes; it enters here as an opaque rational input. -/

/-- A safe-zone rectangle together with its `_strategy` tag. -/
structure SafeZoneChoice where
  rect : Rect
  strategy : String
deriving DecidableEq, Repr

/-- The safe-zone selection of `analyze_full` (steps 5 and 6): a
peripheral LIR with positive sides falls back to `layout_bounds`
(`fallback_peripheral`); otherwise low LIR coverage of a mostly-void
`layout_bounds` upgrades to `layout_bounds` (`adaptive_pill_upgrade`);
otherwise the LIR stands (`lir_robust`).  The code guards
`lir_coverage = lir_area / bounds_area` by `if bounds_area > 0 else 0`. -/
def selectSafeZone (h w : ℕ) (lir lb : Rect) (voidDensity : ℚ) : SafeZoneChoice :=
  let lirCenterY : ℚ := (lir.y : ℚ) + (lir.height : ℚ) / 2
  let lirCenterX : ℚ := (lir.x : ℚ) + (lir.width : ℚ) / 2
  let isPeripheral :=
    lirCenterY < (h : ℚ) * (25 / 100) ∨ lirCenterY > (h : ℚ) * (75 / 100) ∨
      lirCenterX < (w : ℚ) * (25 / 100) ∨ lirCenterX > (w : ℚ) * (75 / 100)
  let lirArea : ℤ := lir.width * lir.height
  let boundsArea : ℤ := lb.width * lb.height
  let lirCoverage : ℚ := if 0 < boundsArea then (lirArea : ℚ) / (boundsArea : ℚ) else 0
  if isPeripheral ∧ 0 < lir.width ∧ 0 < lir.height then ⟨lb, "fallback_peripheral"⟩
  else if lirCoverage < 45 / 100 ∧ voidDensity > 55 / 100 then ⟨lb, "adaptive_pill_upgrade"⟩
  else ⟨lir, "lir_robust"⟩

/-- The decision tree exactly as claim C3 words it: an LIR centre lying
outside `[0.25, 0.75]` of either image dimension (as a ratio of that
dimension) with nonzero area selects `layout_bounds` tagged
`fallback_peripheral`; otherwise `lir_area / layout_bounds_area < 0.45`
together with void density above `0.55` selects `layout_bounds` tagged
`adaptive_pill_upgrade`; otherwise the LIR is kept, tagged `lir_robust`. -/
def selectSafeZoneSpec (h w : ℕ) (lir lb : Rect) (voidDensity : ℚ) : SafeZoneChoice :=
  let cY : ℚ := (lir.y : ℚ) + (lir.height : ℚ) / 2
  let cX : ℚ := (lir.x : ℚ) + (lir.width : ℚ) / 2
  let outside :=
    ¬(1 / 4 ≤ cY / (h : ℚ) ∧ cY / (h : ℚ) ≤ 3 / 4 ∧
      1 / 4 ≤ cX / (w : ℚ) ∧ cX / (w : ℚ) ≤ 3 / 4)
  if outside ∧ lir.width * lir.height ≠ 0 then ⟨lb, "fallback_peripheral"⟩
  else if ((lir.width * lir.height : ℤ) : ℚ) / ((lb.width * lb.height : ℤ) : ℚ) < 45 / 100
      ∧ voidDensity > 55 / 100 then ⟨lb, "adaptive_pill_upgrade"⟩
  else ⟨lir, "lir_robust"⟩

/-- C3: on positive image dimensions and LIR rectangles with non-negative
sides (the only rectangles `find_largest_inscribed_rectangle` produces),
the safe-zone selection of `analyze_full` is exactly the decision tree the
claim describes, for every void density. -/
theorem C3_selectSafeZone_matchesSpec (h w : ℕ) (lir lb : Rect) (vd : ℚ)
    (hh : 0 < h) (hw : 0 < w) (hlw : 0 ≤ lir.width) (hlh : 0 ≤ lir.height) :
    selectSafeZone h w lir lb vd = selectSafeZoneSpec h w lir lb vd := by
  have hhq : (0 : ℚ) < (h : ℚ) := by exact_mod_cast hh
  have hwq : (0 : ℚ) < (w : ℚ) := by exact_mod_cast hw
  simp only [selectSafeZone, selectSafeZoneSpec]
  have hper : ((lir.y : ℚ) + (lir.height : ℚ) / 2 < (h : ℚ) * (25 / 100) ∨
        (lir.y : ℚ) + (lir.height : ℚ) / 2 > (h : ℚ) * (75 / 100) ∨
        (lir.x : ℚ) + (lir.width : ℚ) / 2 < (w : ℚ) * (25 / 100) ∨
        (lir.x : ℚ) + (lir.width : ℚ) / 2 > (w : ℚ) * (75 / 100))
      ↔ ¬(1 / 4 ≤ ((lir.y : ℚ) + (lir.height : ℚ) / 2) / (h : ℚ) ∧
        ((lir.y : ℚ) + (lir.height : ℚ) / 2) / (h : ℚ) ≤ 3 / 4 ∧
        1 / 4 ≤ ((lir.x : ℚ) + (lir.width : ℚ) / 2) / (w : ℚ) ∧
        ((lir.x : ℚ) + (lir.width : ℚ) / 2) / (w : ℚ) ≤ 3 / 4) := by
    rw [le_div_iff₀ hhq, div_le_iff₀ hhq, le_div_iff₀ hwq, div_le_iff₀ hwq]
    constructor
    · intro hc hall
      obtain ⟨h1, h2, h3, h4⟩ := hall
      rcases hc with hc | hc | hc | hc <;> nlinarith
    · intro hn
      by_contra hc
      push_neg at hc
      obtain ⟨h1, h2, h3, h4⟩ := hc
      exact hn ⟨by nlinarith, by nlinarith, by nlinarith, by nlinarith⟩
  have harea : (0 < lir.width ∧ 0 < lir.height) ↔ lir.width * lir.height ≠ 0 := by
    rw [mul_ne_zero_iff]
    constructor
    · rintro ⟨h1, h2⟩
      exact ⟨ne_of_gt h1, ne_of_gt h2⟩
    · rintro ⟨h1, h2⟩
      exact ⟨lt_of_le_of_ne hlw (Ne.symm h1), lt_of_le_of_ne hlh (Ne.symm h2)⟩
  have hcov : ((if 0 < lb.width * lb.height then
        ((lir.width * lir.height : ℤ) : ℚ) / ((lb.width * lb.height : ℤ) : ℚ) else 0)
        < 45 / 100)
      ↔ (((lir.width * lir.height : ℤ) : ℚ) / ((lb.width * lb.height : ℤ) : ℚ) < 45 / 100) := by
    by_cases hb : (0 : ℤ) < lb.width * lb.height
    · rw [if_pos hb]
    · rw [if_neg hb]
      have hnum : (0 : ℚ) ≤ ((lir.width * lir.height : ℤ) : ℚ) := by
        exact_mod_cast mul_nonneg hlw hlh
      have hden : ((lb.width * lb.height : ℤ) : ℚ) ≤ 0 := by
        exact_mod_cast le_of_not_lt hb
      have hq : ((lir.width * lir.height : ℤ) : ℚ) / ((lb.width * lb.height : ℤ) : ℚ) ≤ 0 :=
        div_nonpos_iff.mpr (Or.inl ⟨hnum, hden⟩)
      exact iff_of_true (by norm_num) (lt_of_le_of_lt hq (by norm_num))
  rw [if_congr (and_congr hper harea) rfl (if_congr (and_congr hcov Iff.rfl) rfl rfl)]

/-- Witness for C3: the hypotheses hold and the theorem evaluates at a
10×10 image with a centred 5×5 LIR inside full-image layout bounds. -/
theorem C3_witness :
    (0 < 10 ∧ (0 : ℤ) ≤ 5) ∧
    selectSafeZone 10 10 ⟨2, 2, 5, 5⟩ ⟨0, 0, 10, 10⟩ 0
      = selectSafeZoneSpec 10 10 ⟨2, 2, 5, 5⟩ ⟨0, 0, 10, 10⟩ 0 :=
  ⟨⟨by decide, by decide⟩,
    C3_selectSafeZone_matchesSpec 10 10 ⟨2, 2, 5, 5⟩ ⟨0, 0, 10, 10⟩ 0
      (by decide) (by decide) (by decide) (by decide)⟩

/-! ### Claims C5 and C6: difference matting
(`MediaProcessor.process_image`, src/celstate/processor.py lines 43-72).
`cv2.imread` yields BGR uint8 grids; `astype(float)` is exact, so pixel
values are naturals and the float arithmetic on them is exact rational
arithmetic until the one operation that can leave the finite range: the
division `img_b / alpha`.  That division is modelled by an explicit float
value type with infinities and NaN. -/

/-- A 3-channel BGR image as read by `cv2.imread` (uint8 entries). -/
structure Img3 where
  h : ℕ
  w : ℕ
  pix : ℕ → ℕ → Fin 3 → ℕ

/-- The RGBA result of `cv2.merge([b, g, r, alpha])` (uint8 entries). -/
structure Img4 where
  h : ℕ
  w : ℕ
  pix : ℕ → ℕ → Fin 3 → ℕ
  alpha : ℕ → ℕ → ℕ

/-- Numpy broadcasting of one axis: equal lengths pass through, a length-1
axis stretches to the other, anything else raises. -/
def bcastLen (a b : ℕ) : Option ℕ :=
  if a = b then some a else if a = 1 then some b else if b = 1 then some a else none

/-- Reading a broadcast axis: a length-1 source axis always yields index 0. -/
def bidx (srcLen idx : ℕ) : ℕ := if srcLen = 1 then 0 else idx

/-- One IEEE-754 double: a finite value (exact, since every operation
performed on these images is exact in float64), `+inf`, `-inf` or NaN. -/
inductive FloatV where
  | fin (q : ℚ)
  | pinf
  | ninf
  | nan
deriving DecidableEq, Repr

/-- Float division of finite operands under `np.errstate(divide='ignore',
invalid='ignore')`: nonzero/0 gives a signed infinity and 0/0 gives NaN. -/
def fdiv (a b : ℚ) : FloatV :=
  if b ≠ 0 then .fin (a / b)
  else if 0 < a then .pinf
  else if a < 0 then .ninf
  else .nan

/-- The largest finite float64, `np.finfo(np.float64).max`. -/
def floatMax : ℚ := (2 ^ 53 - 1) * 2 ^ 971

/-- `np.nan_to_num(x, nan=0.0)`: NaN becomes 0, but the infinities become
±float64-max — they are NOT mapped to 0. -/
def nanToNum : FloatV → ℚ
  | .fin q => q
  | .pinf => floatMax
  | .ninf => -floatMax
  | .nan => 0

/-- `np.clip(q, lo, hi)`. -/
def clip (lo hi q : ℚ) : ℚ := max lo (min q hi)

/-- `alpha = np.clip(1 - mean(|img_w - img_b|, axis=2) / 255, 0, 1)` at one
output pixel, with numpy broadcasting of the two input grids. -/
def rawAlpha (wi bi : Img3) (r c : ℕ) : ℚ :=
  let pw := wi.pix (bidx wi.h r) (bidx wi.w c)
  let pb := bi.pix (bidx bi.h r) (bidx bi.w c)
  let d : ℚ := (|(pw 0 : ℚ) - (pb 0 : ℚ)| + |(pw 1 : ℚ) - (pb 1 : ℚ)| +
    |(pw 2 : ℚ) - (pb 2 : ℚ)|) / 3
  clip 0 1 (1 - d / 255)

/-- Row-major flattening of an `H × W` grid, as numpy boolean indexing
flattens the noise-candidate selection. -/
def flattenGrid (H W : ℕ) (f : ℕ → ℕ → ℚ) : List ℚ :=
  (List.range H).flatMap (fun r => (List.range W).map (f r))

/-- The gated alpha at one pixel: the cutoff of
`_apply_adaptive_noise_gate` is computed once from the whole `H × W` alpha
channel, and the soft-knee transfer is elementwise. -/
def gatedAlpha (wi bi : Img3) (H W : ℕ) (r c : ℕ) : ℚ :=
  match gateCutoff (flattenGrid H W (rawAlpha wi bi)) with
  | none => rawAlpha wi bi r c
  | some cut => gateTransfer cut (rawAlpha wi bi r c)

/-- One recovered colour channel: `color = img_b / alpha`, then
`np.nan_to_num(color, nan=0.0)`, then `np.clip(color, 0, 255)`, then
`astype(np.uint8)` (truncation, which on these non-negative values is the
floor). -/
def recoverChannel (wi bi : Img3) (H W : ℕ) (r c : ℕ) (ch : Fin 3) : ℕ :=
  toU8 (clip 0 255 (nanToNum
    (fdiv ((bi.pix (bidx bi.h r) (bidx bi.w c) ch : ℚ)) (gatedAlpha wi bi H W r c))))

/-- The matting stage of `process_image` (lines 53-72): numpy raises a
broadcast error when the white and black grids have incompatible shapes
(the subtraction `img_w - img_b` is where mismatched dimensions surface);
on compatible shapes it builds the RGBA output from the recovered colour
channels and `(alpha * 255).astype(np.uint8)`.  There is no dimension
check of its own anywhere in `process_image`. -/
def matte (wi bi : Img3) : Except String Img4 :=
  match bcastLen wi.h bi.h, bcastLen wi.w bi.w with
  | some H, some W =>
    .ok ⟨H, W, fun r c ch => recoverChannel wi bi H W r c ch,
      fun r c => toU8 (gatedAlpha wi bi H W r c * 255)⟩
  | _, _ => .error "operands could not be broadcast together"

/-- 255 fits far below the float64 maximum. -/
theorem le_floatMax : (255 : ℚ) ≤ floatMax := by
  unfold floatMax
  norm_num

/-- C5 counterexample input: a 1×1 all-zero white pass… -/
def c5White : Img3 := ⟨1, 1, fun _ _ _ => 0⟩

/-- …against a 1×1 all-255 black pass: the gated alpha is 0 while the
black pixel is 255, so the colour division is 255/0 = +inf. -/
def c5Black : Img3 := ⟨1, 1, fun _ _ _ => 255⟩

/-- C5 counterexample: at the 1×1 pair (white all 0, black all 255) the
gated alpha is 0, and the recovered blue channel is 255, not 0: the
division by zero produced `+inf`, `np.nan_to_num(·, nan=0.0)` keeps
infinities (mapping them to ±float64-max), and the clip saturates to 255.
The claim says every division-by-zero result is mapped to 0. -/
theorem C5_counterexample :
    gatedAlpha c5White c5Black 1 1 0 0 = 0 ∧
    (matte c5White c5Black).toOption.map (fun i => i.pix 0 0 0) = some 255 ∧
    (255 : ℕ) ≠ 0 := by
  refine ⟨by decide!, by decide!, by decide⟩

/-- C5 (amended): the recovered colour is `black / alpha` clipped to
`[0, 255]` and truncated when `alpha ≠ 0`; when `alpha = 0`, only the NaN
case `0/0` (black pixel 0) yields 0 — a zero alpha under a nonzero black
pixel yields `+inf`, which `np.nan_to_num(·, nan=0.0)` turns into
float64-max and the clip saturates to 255. -/
theorem C5_colorRecovery_zeroDivSaturates (wi bi : Img3) (H W r c : ℕ) (ch : Fin 3) :
    recoverChannel wi bi H W r c ch =
      if gatedAlpha wi bi H W r c = 0 then
        (if bi.pix (bidx bi.h r) (bidx bi.w c) ch = 0 then 0 else 255)
      else toU8 (clip 0 255
        ((bi.pix (bidx bi.h r) (bidx bi.w c) ch : ℚ) / gatedAlpha wi bi H W r c)) := by
  unfold recoverChannel
  by_cases ha : gatedAlpha wi bi H W r c = 0
  · rw [ha, if_pos rfl]
    by_cases hb : bi.pix (bidx bi.h r) (bidx bi.w c) ch = 0
    · rw [if_pos hb, hb]
      simp only [fdiv, Nat.cast_zero, ne_eq, not_true_eq_false, if_false,
        lt_self_iff_false, nanToNum]
      norm_num [clip, toU8]
    · rw [if_neg hb]
      have hbq : (0 : ℚ) < (bi.pix (bidx bi.h r) (bidx bi.w c) ch : ℚ) := by
        exact_mod_cast Nat.pos_of_ne_zero hb
      simp only [fdiv, ne_eq, not_true_eq_false, if_false, if_pos hbq, nanToNum]
      rw [clip, min_eq_right le_floatMax, max_eq_right (by norm_num : (0:ℚ) ≤ 255)]
      norm_num [toU8]
      decide
  · rw [if_neg ha]
    simp only [fdiv, ne_eq, ha, not_false_eq_true, if_true, nanToNum]

/-! #### Claim C6: dimension mismatch -/

/-- C6 failing input, white pass: 1×1, all channels 0. -/
def c6White : Img3 := ⟨1, 1, fun _ _ _ => 0⟩

/-- C6 failing input, black pass: 2×1, all channels 0 — its height differs
from the white pass's. -/
def c6Black : Img3 := ⟨2, 1, fun _ _ _ => 0⟩

/-- C6: `process_image` performs no dimension validation at all (no
`DimensionMismatch` signal exists anywhere in the code); a mismatched but
numpy-broadcastable pair — here a 1×1 white pass against a 2×1 black
pass — silently produces a full 2×1 matted RGBA output (alpha 255,
colour 0) instead of failing. -/
theorem C6_mismatchedDimsProduceMattedOutput :
    c6White.h ≠ c6Black.h ∧
    (matte c6White c6Black).toOption.map
      (fun i => (i.h, i.w, i.pix 0 0 0, i.alpha 0 0, i.alpha 1 0))
      = some (2, 1, 0, 255, 255) := by
  refine ⟨by decide, by decide!⟩

/-! ### Claim C9: determinism of the full layout analysis
(`LayoutAnalyzer.analyze_full`, src/engine/core/layout_analyzer.py lines
88-144).  The pipeline is embedded end to end; the OpenCV primitives it
calls (`classify_shape`'s contour analysis, `cv2.erode`, the morphological
mask, the float square root inside the sweep) and the `f"{x:.1f}%"`
percentage formatting are deterministic library functions of their
arguments, bundled as fixed function parameters in `AnalyzerPrims`: the
theorem quantifies over every instantiation of them. -/

/-- The alpha channel of an RGBA image, as the sweep's image type. -/
def alphaOf (img : Img4) : AlphaImg := ⟨img.h, img.w, img.alpha⟩

/-- `classify_shape`'s result dictionary: always a `"type"`, plus the
optional `"radius"`, `"diameter_px"` and `"corner_radius"` entries. -/
structure ShapeHint where
  ty : String
  radiusLabel : Option String
  diameterPx : Option ℤ
  cornerRadius : Option ℤ
deriving DecidableEq, Repr

/-- `_rows_similar` on two length-`n` rows: at least 95% of the entries
differ by less than 10 (uint8 values compared after exact float cast). -/
def rowsSimilar (n : ℕ) (r1 r2 : ℕ → ℕ) : Bool :=
  let matching := ((List.range n).filter
    (fun i => decide (|(r1 i : ℤ) - (r2 i : ℤ)| < 10))).length
  decide ((95 : ℚ) / 100 ≤ (matching : ℚ) / (n : ℚ))

/-- `_find_slice_boundary`: walk the candidate rows (or columns) in the
scan order and return the first index whose neighbour row is similar —
with `h - i` for backward scans — or `min_slice = 8` when none is.
`int(h * 0.4)` is `⌊2h/5⌋` (the float error of `0.4` never moves the
floor); the backward Python `range(h - 8, h - max_slice, -1)` is the
`max_slice - 8` values `h - 8 - k`. -/
def findSliceBoundary (a : ℕ → ℕ → ℕ) (h w : ℕ) (direction : String) (fromStart : Bool) : ℕ :=
  let minSlice := 8
  if direction == "horizontal" then
    let maxSlice := min (2 * h / 5) (h / 2)
    let idxs := if fromStart then List.range' minSlice (maxSlice - minSlice)
      else (List.range (maxSlice - minSlice)).map (fun k => h - minSlice - k)
    match idxs.find? (fun i =>
        if fromStart then decide (i + 1 < h) && rowsSimilar w (a i) (a (i + 1))
        else decide (0 < i) && rowsSimilar w (a i) (a (i - 1))) with
    | some i => if fromStart then i else h - i
    | none => minSlice
  else
    let maxSlice := min (2 * w / 5) (w / 2)
    let idxs := if fromStart then List.range' minSlice (maxSlice - minSlice)
      else (List.range (maxSlice - minSlice)).map (fun k => w - minSlice - k)
    match idxs.find? (fun i =>
        if fromStart then
          decide (i + 1 < w) && rowsSimilar h (fun r => a r i) (fun r => a r (i + 1))
        else decide (0 < i) && rowsSimilar h (fun r => a r i) (fun r => a r (i - 1))) with
    | some i => if fromStart then i else w - i
    | none => minSlice

/-- The `detect_9slice_insets` result dictionary. -/
structure SliceInsets where
  top : ℕ
  right : ℕ
  bottom : ℕ
  left : ℕ
deriving DecidableEq, Repr

/-- `detect_9slice_insets`: the four slice boundaries of the alpha
channel. -/
def detect9SliceInsets (img : Img4) : SliceInsets :=
  ⟨findSliceBoundary img.alpha img.h img.w "horizontal" true,
    findSliceBoundary img.alpha img.h img.w "vertical" false,
    findSliceBoundary img.alpha img.h img.w "horizontal" false,
    findSliceBoundary img.alpha img.h img.w "vertical" true⟩

/-- `analyze_center_transparency_ratio`: one minus the mean alpha of the
centre 50% crop over 255; 0 on an empty crop.  `int(h * 0.25)` and
`int(h * 0.75)` are the exact `h / 4` and `3h / 4` floors. -/
def analyzeCenterTransparencyRatio (img : Img4) : ℚ :=
  let y1 := img.h / 4
  let y2 := 3 * img.h / 4
  let x1 := img.w / 4
  let x2 := 3 * img.w / 4
  if y2 - y1 = 0 ∨ x2 - x1 = 0 then 0
  else
    let sumA : ℕ := ((List.range (y2 - y1)).map (fun r =>
      ((List.range (x2 - x1)).map (fun c => img.alpha (y1 + r) (x1 + c))).sum)).sum
    1 - (sumA : ℚ) / (((y2 - y1) * (x2 - x1) : ℕ) : ℚ) / 255

/-- The `analyze_transparency` result dictionary (five formatted
strings). -/
structure TransparencyR where
  size : String
  transparent : String
  semiTransparent : String
  opaqueStr : String
  centerTransparency : String
deriving DecidableEq, Repr

/-- `analyze_transparency`, with `fmt` modelling the `f"{x:.1f}%"`
formatting of a percentage. -/
def analyzeTransparency (fmt : ℚ → String) (img : Img4) : TransparencyR :=
  let total : ℚ := ((img.h * img.w : ℕ) : ℚ)
  let countP (p : ℕ → Bool) : ℕ := ((List.range img.h).map (fun r =>
    ((List.range img.w).filter (fun c => p (img.alpha r c))).length)).sum
  { size := toString img.w ++ "x" ++ toString img.h
    transparent := fmt ((countP (fun a => a == 0) : ℚ) / total * 100)
    semiTransparent := fmt ((countP (fun a => decide (0 < a) && decide (a < 255)) : ℚ)
      / total * 100)
    opaqueStr := fmt ((countP (fun a => a == 255) : ℚ) / total * 100)
    centerTransparency := fmt (analyzeCenterTransparencyRatio img * 100) }

/-- The deterministic library primitives `analyze_full` consumes, as fixed
function parameters: shape classification (OpenCV contour analysis), the
float square root of the sweep, `cv2.erode`, the morphological mask and
the `.1f` percentage formatter. -/
structure AnalyzerPrims where
  classifyShape : Img4 → ShapeHint
  sqrtModel : ℕ → ℕ
  erodeModel : Mask → ℕ → Mask
  morphModel : AlphaImg → Mask
  fmtPct : ℚ → String

/-- The `LayoutMetadata` dictionary `analyze_full` returns; the
`safe_zone` either is the LIR verbatim or carries the
`"_fallback": "layout_bounds"` marker. -/
structure LayoutMetadataR where
  contentZones : ContentZones
  sliceInsets : SliceInsets
  shapeHint : ShapeHint
  transparency : TransparencyR
  safeZone : Rect
  safeZoneFallback : Option String
  layoutBounds : Rect
deriving DecidableEq, Repr

/-- `LayoutAnalyzer.analyze_full` (engine/core): classify the shape,
detect the content zones, derive `layout_bounds` from the insets, run the
LIR (margin 0 for geometric shape families, 0.02 otherwise) bounded by
`layout_bounds`, and apply the peripheral fallback. -/
def analyzeFull (P : AnalyzerPrims) (img : Img4) : LayoutMetadataR :=
  let shapeHint := P.classifyShape img
  let shapeType := shapeHint.ty
  let contentZones := detectContentZones (alphaOf img) shapeType
  let layoutBounds : Rect := ⟨(contentZones.insetLeft : ℤ), (contentZones.insetTop : ℤ),
    (img.w : ℤ) - contentZones.insetLeft - contentZones.insetRight,
    (img.h : ℤ) - contentZones.insetTop - contentZones.insetBottom⟩
  let lirMargin : ℚ := if shapeType = "rectangle" ∨ shapeType = "rounded_rectangle" ∨
      shapeType = "circle" ∨ shapeType = "geometric" then 0 else 2 / 100
  let lirZone := findLargestInscribedRectangle P.sqrtModel P.erodeModel P.morphModel
    (alphaOf img) lirMargin shapeType (some layoutBounds)
  let lirCenterY : ℚ := (lirZone.y : ℚ) + (lirZone.height : ℚ) / 2
  let lirCenterX : ℚ := (lirZone.x : ℚ) + (lirZone.width : ℚ) / 2
  let isPeripheral :=
    lirCenterY < (img.h : ℚ) * (25 / 100) ∨ lirCenterY > (img.h : ℚ) * (75 / 100) ∨
      lirCenterX < (img.w : ℚ) * (25 / 100) ∨ lirCenterX > (img.w : ℚ) * (75 / 100)
  let fb := isPeripheral ∧ 0 < lirZone.width ∧ 0 < lirZone.height
  { contentZones := contentZones
    sliceInsets := detect9SliceInsets img
    shapeHint := shapeHint
    transparency := analyzeTransparency P.fmtPct img
    safeZone := if fb then layoutBounds else lirZone
    safeZoneFallback := if fb then some "layout_bounds" else none
    layoutBounds := layoutBounds }

/-- C9: the full layout analysis is deterministic — it is a pure function
of the input image (and of the fixed deterministic library primitives):
identical inputs give identical `LayoutMetadata`, with no dependence on
anything else (the embedding is total and reads no state; the source
consults no randomness, time, or global mutable state). -/
theorem C9_analyzeFull_deterministic (P : AnalyzerPrims) (img₁ img₂ : Img4)
    (h : img₁ = img₂) : analyzeFull P img₁ = analyzeFull P img₂ := by
  rw [h]

/-- A concrete instantiation of the library primitives for the
determinism witness. -/
def pyPrims : AnalyzerPrims :=
  ⟨fun _ => ⟨"geometric", none, none, none⟩, isqrt, noErode, noMorph, fun _ => "0.0%"⟩

/-- Witness for C9: two syntactically identical 1×1 images analyse
identically. -/
theorem C9_witness :
    analyzeFull pyPrims ⟨1, 1, fun _ _ _ => 0, fun _ _ => 0⟩
      = analyzeFull pyPrims ⟨1, 1, fun _ _ _ => 0, fun _ _ => 0⟩ :=
  C9_analyzeFull_deterministic pyPrims ⟨1, 1, fun _ _ _ => 0, fun _ _ => 0⟩
    ⟨1, 1, fun _ _ _ => 0, fun _ _ => 0⟩ rfl

end Celstate
